import Mathlib

/-!
# Verification of the star-folding half-edge mesh kernel and folding operators

This development shallowly embeds the core of the star-folding program
(half-edge mesh kernel, star builder, folding operators and their checks)
and proves or refutes a list of claims about it.

Conventions used throughout:
* The TypeScript object graph (mutual references between half-edges,
  vertices and loops) is represented as an arena: records are keyed by
  `Nat` identifiers in association lists, mirroring the design notes of
  the program which themselves recommend an arena representation.
* TypeScript exceptions (`fail`/`assert`) become `Except` results.  Where a
  claim is about the state left behind at a failure, the error value carries
  the state at the point of failure (the program performs no rollback).
* Unbounded source iterations that the source itself bounds by
  `SIZE_LIMIT = 50` become fuelled recursions with the same bound and the
  same failure behavior.
* Real-valued geometry (ℝ, `Real.sqrt`, `Real.cos`, …) idealizes the
  program's floating-point arithmetic in the usual way.
-/

namespace StarFold

/-- Association-list lookup (first match), modelling `Map.get` /
object-reference access. -/
def alGet {α : Type} : List (Nat × α) → Nat → Option α
  | [], _ => none
  | p :: rest, k => if p.fst = k then some p.snd else alGet rest k

/-- Association-list update of an existing key, modelling a field
mutation.  Keys that are absent are left absent. -/
def alSet {α : Type} : List (Nat × α) → Nat → α → List (Nat × α)
  | [], _, _ => []
  | p :: rest, k, v => (if p.fst = k then (k, v) else p) :: alSet rest k v

/-- Membership of a key, modelling `Set.has` on identifiers. -/
def alHas {α : Type} (l : List (Nat × α)) (k : Nat) : Bool :=
  (alGet l k).isSome

/-- Decidable equality of `Except` results, for concrete evaluations. -/
instance {ε α : Type} [DecidableEq ε] [DecidableEq α] : DecidableEq (Except ε α)
  | .ok a, .ok b =>
      if h : a = b then .isTrue (by rw [h]) else .isFalse (by intro hc; cases hc; exact h rfl)
  | .ok _, .error _ => .isFalse (by intro hc; cases hc)
  | .error _, .ok _ => .isFalse (by intro hc; cases hc)
  | .error e, .error f =>
      if h : e = f then .isTrue (by rw [h]) else .isFalse (by intro hc; cases hc; exact h rfl)

end StarFold

namespace StarFold.Names

/-!
## `mergeNames` (src/index.tsx)

The name produced when two vertices are merged by `bend2`, `reattach` or
gluing.  Embedded from:

```ts
const mergeNames = (a: string, b: string) =>
  (a.endsWith(".0") || a.endsWith(".1")) &&
  (b.endsWith(".0") || b.endsWith(".1")) &&
  a.slice(0, -2) === b.slice(0, -2) &&
  a !== b
  ? a.slice(0, -2)
  : `[${a}|${b}]`;
```

Strings are embedded as `List Char`; `s.slice(0, -2)` is `dropLast 2` and
`s.endsWith(t)` is the suffix test.
-/

/-- `s.endsWith(t)` on char lists (JavaScript `String.prototype.endsWith`). -/
def endsWith (s t : List Char) : Bool :=
  t.length ≤ s.length && s.drop (s.length - t.length) == t

/-- `s.slice(0, -2)`: all but the last two characters. -/
def slice02 (s : List Char) : List Char :=
  s.take (s.length - 2)

/-- `[` ++ a ++ `|` ++ b ++ `]`: the bracketed combination of two names. -/
def bracketed (a b : List Char) : List Char :=
  [('[')] ++ a ++ [('|')] ++ b ++ [(']')]

/-- The suffix `.0`. -/
def suffix0 : List Char := [('.'), ('0')]

/-- The suffix `.1`. -/
def suffix1 : List Char := [('.'), ('1')]

/-- `mergeNames` from src/index.tsx, on char lists. -/
def mergeNames (a b : List Char) : List Char :=
  if (endsWith a suffix0 || endsWith a suffix1) &&
     (endsWith b suffix0 || endsWith b suffix1) &&
     slice02 a == slice02 b &&
     a != b
  then slice02 a
  else bracketed a b

end StarFold.Names

namespace StarFold.Geom

/-!
## Real 3-vectors

The geometric-algebra substrate operates on 1-vectors in the Euclidean
space with coordinates `x`, `y`, `z`.  We embed them as triples of reals.
`B.norm` of a 1-vector is the square root of the sum of the squared
components (`normSquared` sums `metric * value²` over the components, with
the Euclidean metric all ones).
-/

/-- A 1-vector of the base algebra (an `xyz` coordinate triple). -/
@[ext]
structure Vec3 where
  x : ℝ
  y : ℝ
  z : ℝ

/-- `B.plus` on 1-vectors. -/
def vadd (a b : Vec3) : Vec3 := ⟨a.x + b.x, a.y + b.y, a.z + b.z⟩

/-- `B.minus` on 1-vectors. -/
def vsub (a b : Vec3) : Vec3 := ⟨a.x - b.x, a.y - b.y, a.z - b.z⟩

/-- `B.scale` on 1-vectors. -/
def vscale (c : ℝ) (a : Vec3) : Vec3 := ⟨c * a.x, c * a.y, c * a.z⟩

/-- `B.scalarProduct` of two 1-vectors (Euclidean dot product). -/
def vdot (a b : Vec3) : ℝ := a.x * b.x + a.y * b.y + a.z * b.z

/-- `B.normSquared` of a 1-vector. -/
def normSq (a : Vec3) : ℝ := a.x ^ 2 + a.y ^ 2 + a.z ^ 2

/-- `B.norm` of a 1-vector: `sqrt(abs(normSquared))`; the absolute value is
redundant for the Euclidean metric where `normSquared` is non-negative. -/
noncomputable def vnorm (a : Vec3) : ℝ := Real.sqrt (normSq a)

end StarFold.Geom

namespace StarFold.Relax

open StarFold.Geom

/-!
## The relaxation target function (C10)

Embedded from `MyMesh.target` (src/index.tsx):

```ts
/** Where `vb` would like to place `va` so that the distance is `len` */
target(va, vb, len: number): MV {
  const {pos} = this;
  if (len === 0) return pos(vb); // just an optimization
  const vec_ba = XYZ.minus(pos(va), pos(vb));
  return XYZ.plus(pos(vb), XYZ.scale(len / (XYZ.norm(vec_ba) || 1), vec_ba));
}
```

The JavaScript guard `x || 1` yields `1` when `x` is `0` (the only falsy
value `XYZ.norm` produces on real inputs) and `x` otherwise.  The function
is embedded on the positions `pa = pos(va)`, `pb = pos(vb)` directly.
-/

open Classical in
/-- `MyMesh.target` on positions. -/
noncomputable def target (pa pb : Vec3) (len : ℝ) : Vec3 :=
  if len = 0 then pb
  else
    let vec_ba := vsub pa pb
    vadd pb (vscale (len / (if vnorm vec_ba = 0 then 1 else vnorm vec_ba)) vec_ba)

end StarFold.Relax

namespace StarFold.Kernel

/-!
## The half-edge mesh kernel

Embedded from the mesh kernel of the program (classes `HalfEdge`, `Vertex`,
`Loop`, `Mesh` as imported by src/index.tsx): a doubly-connected edge list
with named vertices and loops.  The TypeScript object graph is represented
as an arena of records keyed by `Nat` identifiers (one shared monotonic
counter `WithId.count` provides the identifiers).  Mutations of record
fields become functional updates of the association lists; TypeScript
exceptions become `Except.error`.

The source bounds every vertex-ring and loop-cycle iteration by
`SIZE_LIMIT = 50` and fails beyond it; those iterations are embedded as
fuelled recursions with the same bound.  The `splitVertex` re-targeting
walk has no bound in the source (it would not terminate on data violating
its precondition); it gets a large fuel whose exhaustion is a modelling
artifact.  Reading a field of a record that the source never assigned
(`prev`/`next` of a freshly made edge before `chainHEs`) would crash the
source; such reads hit the unallocated sentinel identifier and fail.
-/

/-- A `HalfEdge` record: `twin`, `prev`, `next` half-edge ids, target
vertex id `to`, adjacent loop id `loop`, and the `alive` flag. -/
structure HE where
  twin : Nat
  prev : Nat
  next : Nat
  toV : Nat
  loop : Nat
  alive : Bool
deriving DecidableEq

/-- The mesh: arena of half-edge records, the sets of live vertex and loop
ids, names, the `firstHalfEdgeOut`/`firstHalfEdge` pointers and the id
counter. -/
structure Mesh where
  hes : List (Nat × HE)
  vertices : List Nat
  loops : List Nat
  vname : List (Nat × List Char)
  lname : List (Nat × List Char)
  vfirst : List (Nat × Nat)
  lfirst : List (Nat × Nat)
  nextId : Nat
deriving DecidableEq

/-- Insert-or-update of a keyed field (JavaScript assignment semantics). -/
def alPut {α : Type} (l : List (Nat × α)) (k : Nat) (v : α) : List (Nat × α) :=
  if alHas l k then alSet l k v else l ++ [(k, v)]

/-- Sentinel for the `prev`/`next` fields of a freshly allocated half-edge
pair, which the source leaves `undefined` until `chainHEs` assigns them.
The sentinel is never an allocated id, so reading through it fails. -/
def unassigned : Nat := 1000000000

/-- Resolve a half-edge reference.  In the source a reference always
resolves; a missing id can only arise from following `unassigned`. -/
def getHE (m : Mesh) (h : Nat) : Except String HE :=
  match alGet m.hes h with
  | some r => .ok r
  | none => .error ("dereferencing an unassigned half-edge field")

/-- The name of a vertex. -/
def getVName (m : Mesh) (v : Nat) : Except String (List Char) :=
  match alGet m.vname v with
  | some n => .ok n
  | none => .error ("vertex without a name")

/-- The name of a loop. -/
def getLName (m : Mesh) (l : Nat) : Except String (List Char) :=
  match alGet m.lname l with
  | some n => .ok n
  | none => .error ("loop without a name")

/-- Attach the mesh state at the failure point to an error, modelling
that a TypeScript exception leaves the mutated-so-far state behind. -/
def liftE {α : Type} (m : Mesh) : Except String α → Except (String × Mesh) α
  | .ok v => .ok v
  | .error e => .error (e, m)

/-- `he.from`, derived as `he.twin.to`. -/
def fromOf (m : Mesh) (h : Nat) : Except String Nat := do
  let r ← getHE m h
  let rt ← getHE m r.twin
  pure rt.toV

/-- One step of `Vertex.halfEdgesOut`: `he = he.twin.next`. -/
def stepOut (m : Mesh) (h : Nat) : Except String Nat := do
  let r ← getHE m h
  let rt ← getHE m r.twin
  pure rt.next

/-- One step of `Loop.halfEdges`: `he = he.next`. -/
def stepNext (m : Mesh) (h : Nat) : Except String Nat := do
  let r ← getHE m h
  pure r.next

/-- One step of the `splitVertex`/`splitLoop` re-assignment walks:
`he = he.twin.prev` resp. `he = he.prev`. -/
def stepTwinPrev (m : Mesh) (h : Nat) : Except String Nat := do
  let r ← getHE m h
  let rt ← getHE m r.twin
  pure rt.prev

/-- `he = he.prev`. -/
def stepPrev (m : Mesh) (h : Nat) : Except String Nat := do
  let r ← getHE m h
  pure r.prev

/-- A do-while cycle walk: emit elements starting at `cur`, stepping with
`step`, until the step reaches `start`; fail when the emission count would
exceed the fuel (the source fails via its `SIZE_LIMIT` counter). -/
def cycleWalkAux (step : Nat → Except String Nat) (start : Nat) :
    Nat → Nat → Except String (List Nat)
  | _, 0 => .error ("too many elements in cycle")
  | cur, fuel + 1 => do
      let nxt ← step cur
      if nxt = start then
        pure [cur]
      else do
        let rest ← cycleWalkAux step start nxt fuel
        pure (cur :: rest)

/-- `SIZE_LIMIT`-bounded cycle walk starting and ending at `start`.
The source admits at most 49 emitted elements before its counter
(`count`, starting at 1 and failing above 50 after incrementing once per
element) fails. -/
def cycleWalk (step : Nat → Except String Nat) (start : Nat) :
    Except String (List Nat) :=
  cycleWalkAux step start start 49

/-- `Vertex.halfEdgesOut` as a list of half-edge ids. -/
def halfEdgesOut (m : Mesh) (v : Nat) : Except String (List Nat) := do
  match alGet m.vfirst v with
  | some first => cycleWalk (stepOut m) first
  | none => .error ("vertex without firstHalfEdgeOut")

/-- `Vertex.halfEdgesIn`: the twins of the outgoing half-edges. -/
def halfEdgesIn (m : Mesh) (v : Nat) : Except String (List Nat) := do
  let outs ← halfEdgesOut m v
  outs.mapM (fun h => do
    let r ← getHE m h
    pure r.twin)

/-- `Loop.halfEdges` as a list of half-edge ids. -/
def loopHalfEdges (m : Mesh) (l : Nat) : Except String (List Nat) := do
  match alGet m.lfirst l with
  | some first => cycleWalk (stepNext m) first
  | none => .error ("loop without firstHalfEdge")

/-- `Vertex.neighbors`: the targets of the outgoing half-edges. -/
def neighbors (m : Mesh) (v : Nat) : Except String (List Nat) := do
  let outs ← halfEdgesOut m v
  outs.mapM (fun h => do
    let r ← getHE m h
    pure r.toV)

/-- `Vertex.loops`: the loops of the outgoing half-edges. -/
def vertexLoops (m : Mesh) (v : Nat) : Except String (List Nat) := do
  let outs ← halfEdgesOut m v
  outs.mapM (fun h => do
    let r ← getHE m h
    pure r.loop)

/-- `Loop.vertices`: the targets of the loop's half-edges. -/
def loopVertices (m : Mesh) (l : Nat) : Except String (List Nat) := do
  let hs ← loopHalfEdges m l
  hs.mapM (fun h => do
    let r ← getHE m h
    pure r.toV)

/-- `makeVertex(name)`. -/
def makeVertex (m : Mesh) (name : List Char) : Mesh × Nat :=
  let v := m.nextId
  ({ m with
      vertices := m.vertices ++ [v]
      vname := alPut m.vname v name
      nextId := m.nextId + 1 }, v)

/-- `makeLoop(name)`. -/
def makeLoop (m : Mesh) (name : List Char) : Mesh × Nat :=
  let l := m.nextId
  ({ m with
      loops := m.loops ++ [l]
      lname := alPut m.lname l name
      nextId := m.nextId + 1 }, l)

/-- `makeEdge(l0, l1, v0, v1)`: allocate a twin pair of half-edges; the
first points from `v0` to `v1` inside `l0`, the second back inside `l1`.
`prev`/`next` stay unassigned; the first-pointers of both vertices and
loops are set to the new half-edges. -/
def makeEdge (m : Mesh) (l0 l1 v0 v1 : Nat) : Mesh × Nat × Nat :=
  let he0 := m.nextId
  let he1 := m.nextId + 1
  let r0 : HE := ⟨he1, unassigned, unassigned, v1, l0, true⟩
  let r1 : HE := ⟨he0, unassigned, unassigned, v0, l1, true⟩
  ({ m with
      hes := (m.hes ++ [(he0, r0)]) ++ [(he1, r1)]
      vfirst := alPut (alPut m.vfirst v0 he0) v1 he1
      lfirst := alPut (alPut m.lfirst l0 he0) l1 he1
      nextId := m.nextId + 2 }, he0, he1)

/-- One link step of `chainHEs`: `b.prev = a; a.next = b` (in this order,
re-reading `a` in between, like the source's sequential assignments). -/
def chain2 (m : Mesh) (a b : Nat) : Except (String × Mesh) Mesh := do
  let rb ← liftE m (getHE m b)
  let m := { m with hes := alSet m.hes b { rb with prev := a } }
  let ra ← liftE m (getHE m a)
  pure { m with hes := alSet m.hes a { ra with next := b } }

/-- `chainHEs(first, ...rest)`. -/
def chainHEs (m : Mesh) (first : Nat) (rest : List Nat) : Except (String × Mesh) Mesh := do
  let acc ← rest.foldlM (fun (acc : Mesh × Nat) h => do
      let m' ← chain2 acc.1 acc.2 h
      pure (m', h)) (m, first)
  pure acc.1

/-- `addCore()`: bootstrap the 2-sided 1-gon. -/
def addCore (m : Mesh) : Except (String × Mesh) (Mesh × Nat × Nat) := do
  let (m, v) := makeVertex m ("core").data
  let (m, l0) := makeLoop m ("core1").data
  let (m, l1) := makeLoop m ("core2").data
  let (m, he0, he1) := makeEdge m l0 l1 v v
  let m ← chainHEs m he0 [he0]
  let m ← chainHEs m he1 [he1]
  let m := { m with
    vfirst := alPut m.vfirst v he0
    lfirst := alPut (alPut m.lfirst l0 he0) l1 he1 }
  pure (m, he0, he1)

/-- The `create` option of `splitVertex`/`splitLoop`. -/
inductive Create where
  | left
  | right
  | both
deriving DecidableEq

/-- A do-while arc walk: emit from `cur` with `step` until the step
reaches `target` (excluded).  The source iterates unboundedly here; the
fuel is a modelling artifact, generous enough for any reachable mesh. -/
def arcUntil (step : Nat → Except String Nat) (target : Nat) :
    Nat → Nat → Except String (List Nat)
  | _, 0 => .error ("arc walk fuel exhausted")
  | cur, fuel + 1 => do
      let nxt ← step cur
      if nxt = target then
        pure [cur]
      else do
        let rest ← arcUntil step target nxt fuel
        pure (cur :: rest)

/-- Fuel for the unbounded source walks. -/
def bigFuel : Nat := 1000

/-- Update the `to` field of each listed half-edge. -/
def setToAll (m : Mesh) (arc : List Nat) (v : Nat) : Except (String × Mesh) Mesh :=
  arc.foldlM (fun m h => do
    let r ← liftE m (getHE m h)
    pure { m with hes := alSet m.hes h { r with toV := v } }) m

/-- Update the `loop` field of each listed half-edge. -/
def setLoopAll (m : Mesh) (arc : List Nat) (l : Nat) : Except (String × Mesh) Mesh :=
  arc.foldlM (fun m h => do
    let r ← liftE m (getHE m h)
    pure { m with hes := alSet m.hes h { r with loop := l } }) m

/-- `splitVertex(he0, he1, {create})` from the kernel imported by
src/index.tsx (the variant with alive checks).  Walks the incoming
half-edges of `he0.to` via `twin.prev`, re-targets the arc from `he0` up
to (excluding) `he1` to the first child vertex and the rest to the second,
then inserts the new edge and closes both cycles.  The source interleaves
the walk with the `to`-field mutations; the walk pointers (`twin`,
`prev`) are unaffected by those mutations, so collecting the arcs first is
equivalent. -/
def splitVertex (m : Mesh) (he0 he1 : Nat) (create : Create) :
    Except (String × Mesh) (Mesh × Nat × Nat) := do
  let r0 ← liftE m (getHE m he0)
  if !r0.alive then throw (("splitVertex with dead half edge"), m)
  let r1 ← liftE m (getHE m he1)
  if !r1.alive then throw (("splitVertex with dead half edge"), m)
  let v := r0.toV
  if r1.toV ≠ v then
    throw (("splitVertex: parameters point to different vertices"), m)
  let vn ← liftE m (getVName m v)
  let (m, v0) :=
    if create = Create.right then (m, v)
    else makeVertex m (vn ++ StarFold.Names.suffix0)
  let (m, v1) :=
    if create = Create.left then (m, v)
    else makeVertex m (vn ++ StarFold.Names.suffix1)
  let arc0 ← liftE m (arcUntil (stepTwinPrev m) he1 he0 bigFuel)
  let arc1 ← liftE m (
    if he1 = he0 then pure []
    else arcUntil (stepTwinPrev m) he0 he1 bigFuel)
  let m ← setToAll m arc0 v0
  let m ← setToAll m arc1 v1
  let (m, ne0, ne1) := makeEdge m r0.loop r1.loop v0 v1
  let r0' ← liftE m (getHE m he0)
  let m ← chainHEs m he0 [ne0, r0'.next]
  let r1' ← liftE m (getHE m he1)
  let m ← chainHEs m he1 [ne1, r1'.next]
  pure (m, ne0, ne1)

/-- `splitLoop(he0, he1, {create})` from the kernel imported by
src/index.tsx.  Walks `he0.loop`'s half-edges via `prev`, re-assigns the
arc from `he0` up to (excluding) `he1` to the first child loop and the
rest to the second, then inserts the new edge between `he0.to` and
`he1.to` and closes both cycles (with the degenerate single-loop case when
`he0 = he1`). -/
def splitLoop (m : Mesh) (he0 he1 : Nat) (create : Create) :
    Except (String × Mesh) (Mesh × Nat × Nat) := do
  let r0 ← liftE m (getHE m he0)
  if !r0.alive then throw (("splitLoop with dead half edge"), m)
  let r1 ← liftE m (getHE m he1)
  if !r1.alive then throw (("splitLoop with dead half edge"), m)
  let l := r0.loop
  if r1.loop ≠ l then throw (("splitLoop: parameters point to different loops"), m)
  let ln ← liftE m (getLName m l)
  let (m, l0) :=
    if create = Create.right then (m, l)
    else makeLoop m (ln ++ StarFold.Names.suffix0)
  let (m, l1) :=
    if create = Create.left then (m, l)
    else makeLoop m (ln ++ StarFold.Names.suffix1)
  let arc0 ← liftE m (arcUntil (stepPrev m) he1 he0 bigFuel)
  let arc1 ← liftE m (
    if he1 = he0 then pure []
    else arcUntil (stepPrev m) he0 he1 bigFuel)
  let m ← setLoopAll m arc0 l0
  let m ← setLoopAll m arc1 l1
  let (m, ne0, ne1) := makeEdge m l0 l1 r0.toV r1.toV
  let r0' ← liftE m (getHE m he0)
  let he0Next := r0'.next
  let r1' ← liftE m (getHE m he1)
  let m ← chainHEs m he0 [ne0, r1'.next]
  let m ←
    if he0 = he1 then chainHEs m ne1 [ne1]
    else chainHEs m he1 [ne1, he0Next]
  pure (m, ne0, ne1)

/-- `splitEdgeAcross(he) = splitVertex(he.twin.prev, he, {create: "left"})`. -/
def splitEdgeAcross (m : Mesh) (he : Nat) : Except (String × Mesh) (Mesh × Nat × Nat) := do
  let r ← liftE m (getHE m he)
  let rt ← liftE m (getHE m r.twin)
  splitVertex m rt.prev he Create.left

/-- `contractEdge(he)` from the kernel imported by src/index.tsx:
eliminate the edge `(he, he.twin)` and merge `he.to` into `he.from`,
returning the latter.  Re-targets all incoming half-edges of `he.to`
first, then re-links the cycles with special cases when the removed vertex
or the kept vertex has no other edge. -/
def contractEdge (m : Mesh) (he : Nat) : Except (String × Mesh) (Mesh × Nat) := do
  let r ← liftE m (getHE m he)
  if !r.alive then throw (("contractEdge with dead half edge"), m)
  let rt ← liftE m (getHE m r.twin)
  if !rt.alive then throw (("contractEdge with dead half-edge twin"), m)
  let to0 := r.toV
  let loop := r.loop
  let prev := r.prev
  let next := r.next
  let twin := r.twin
  let from0 := rt.toV
  let twinLoop := rt.loop
  let twinPrev := rt.prev
  let twinNext := rt.next
  if to0 = from0 then
    throw (("cannot contract an edge starting and ending at the same vertex"), m)
  let inbound ← liftE m (halfEdgesIn m to0)
  let m ← setToAll m inbound from0
  let m ←
    if twin = next then do
      if twin = prev then
        throw (("Trying to contract an edge between two vertices that have no other edges."), m)
      if loop ≠ twinLoop then
        throw (("The half edges of a single-edge vertex should be adjacent to the same loop"), m)
      let m ← chainHEs m prev [twinNext]
      pure { m with
        lfirst := alPut m.lfirst loop twinNext
        vfirst := alPut m.vfirst from0 twinNext }
    else if twin = prev then do
      if loop ≠ twinLoop then
        throw (("The half edges of a single-edge vertex should be adjacent to the same loop"), m)
      let m ← chainHEs m twinPrev [next]
      pure { m with
        lfirst := alPut m.lfirst loop next
        vfirst := alPut m.vfirst from0 next }
    else do
      let m ← chainHEs m prev [next]
      let m ← chainHEs m twinPrev [twinNext]
      pure { m with
        lfirst := alPut (alPut m.lfirst loop next) twinLoop twinNext
        vfirst := alPut m.vfirst from0 next }
  let m := { m with vertices := m.vertices.erase to0 }
  let r2 ← liftE m (getHE m he)
  let m := { m with hes := alSet m.hes he { r2 with alive := false } }
  let r3 ← liftE m (getHE m twin)
  let m := { m with hes := alSet m.hes twin { r3 with alive := false } }
  pure (m, from0)

/-- A while arc walk (pre-checked): emit from `cur` with `step` until
reaching `target`; the fuel mirrors the source's `SIZE_LIMIT` counter in
`dropEdge` (at most 50 loop bodies). -/
def whileUntil (step : Nat → Except String Nat) (target : Nat) :
    Nat → Nat → Except String (List Nat)
  | cur, fuel =>
    if cur = target then pure []
    else
      match fuel with
      | 0 => .error ("dropEdge: loop too long")
      | fuel + 1 => do
          let nxt ← step cur
          let rest ← whileUntil step target nxt fuel
          pure (cur :: rest)

/-- `dropEdge(he)` from the kernel imported by src/index.tsx: eliminate
the edge `(he, he.twin)` and merge `he.loop` into `he.twin.loop`,
returning the latter. -/
def dropEdge (m : Mesh) (he : Nat) : Except (String × Mesh) (Mesh × Nat) := do
  let r ← liftE m (getHE m he)
  if !r.alive then throw (("dropEdge with dead half edge"), m)
  let rt ← liftE m (getHE m r.twin)
  if !rt.alive then throw (("dropEdge with dead half-edge twin"), m)
  let to0 := r.toV
  let loop := r.loop
  let prev := r.prev
  let next := r.next
  let twin := r.twin
  let from0 := rt.toV
  let twinLoop := rt.loop
  let twinPrev := rt.prev
  let twinNext := rt.next
  if loop = twinLoop then
    throw (("cannot drop edge adjacent to the same loop twice"), m)
  let arc ← liftE m (whileUntil (stepNext m) he next 50)
  let m ← setLoopAll m arc twinLoop
  let m ← chainHEs m twinPrev [next]
  let m ← chainHEs m prev [twinNext]
  let m := { m with
    vfirst := alPut (alPut m.vfirst from0 twinNext) to0 next
    lfirst := alPut m.lfirst twinLoop twinNext
    loops := m.loops.erase loop }
  let r2 ← liftE m (getHE m he)
  let m := { m with hes := alSet m.hes he { r2 with alive := false } }
  let r3 ← liftE m (getHE m twin)
  let m := { m with hes := alSet m.hes twin { r3 with alive := false } }
  pure (m, twinLoop)

/-- A minimal consistent mesh used as a concrete test state: two vertices
(ids 0 and 1, named `a` and `b`) joined by a single edge whose two
half-edges (ids 3 and 4) form one 2-cycle loop (id 2, named `l`):
`he3 : 0 → 1`, `he4 : 1 → 0`, `he3.next = he3.prev = he4.twin = he4`. -/
def edgePairMesh : Mesh :=
  { hes := [(3, ⟨4, 4, 4, 1, 2, true⟩), (4, ⟨3, 3, 3, 0, 2, true⟩)]
    vertices := [0, 1]
    loops := [2]
    vname := [(0, [('a')]), (1, [('b')])]
    lname := [(2, [('l')])]
    vfirst := [(0, 3), (1, 4)]
    lfirst := [(2, 3)]
    nextId := 5 }

/-- One vertex (id 0) carrying a single self-loop edge: half-edges 3 and 4
are twins, both targeting vertex 0, each forming a 1-cycle loop. -/
def selfLoopMesh : Mesh :=
  { hes := [(3, ⟨4, 3, 3, 0, 1, true⟩), (4, ⟨3, 4, 4, 0, 2, true⟩)]
    vertices := [0]
    loops := [1, 2]
    vname := [(0, [('a')])]
    lname := [(1, [('k')]), (2, [('l')])]
    vfirst := [(0, 3)]
    lfirst := [(1, 3), (2, 4)]
    nextId := 5 }

/-- Two vertices joined by two parallel edges, bounding two 2-cycle loops
(a bigon sphere): half-edges 4/5 and 6/7 are the twin pairs, loop 2 is
the cycle 4 -> 7 and loop 3 the cycle 5 -> 6. -/
def bigonMesh : Mesh :=
  { hes := [(4, ⟨5, 7, 7, 1, 2, true⟩), (5, ⟨4, 6, 6, 0, 3, true⟩),
            (6, ⟨7, 5, 5, 1, 3, true⟩), (7, ⟨6, 4, 4, 0, 2, true⟩)]
    vertices := [0, 1]
    loops := [2, 3]
    vname := [(0, [('u')]), (1, [('v')])]
    lname := [(2, [('A')]), (3, [('B')])]
    vfirst := [(0, 4), (1, 5)]
    lfirst := [(2, 4), (3, 5)]
    nextId := 8 }

/-- A path `v - u - w` (a tree with two edges) with a single surrounding
loop 7 whose cycle is 3 -> 4 -> 5 -> 6; vertices 1 and 2 are leaves, so
half-edge 3 has `twin = next` and half-edge 4 has `twin = prev`. -/
def treeMesh : Mesh :=
  { hes := [(3, ⟨4, 6, 4, 1, 7, true⟩), (4, ⟨3, 3, 5, 0, 7, true⟩),
            (5, ⟨6, 4, 6, 2, 7, true⟩), (6, ⟨5, 5, 3, 0, 7, true⟩)]
    vertices := [0, 1, 2]
    loops := [7]
    vname := [(0, [('u')]), (1, [('v')]), (2, [('w')])]
    lname := [(7, [('L')])]
    vfirst := [(0, 3), (1, 4), (2, 6)]
    lfirst := [(7, 3)]
    nextId := 8 }


/-- `checkHE(he)` inside `Mesh.check`: alive, live target vertex, live
loop, consistent `twin`/`prev`/`next` back-references. -/
def checkHE (m : Mesh) (h : Nat) : Except String Unit := do
  let r ← getHE m h
  if !r.alive then throw ("half-edge is not alive")
  if !(m.vertices.contains r.toV) then throw ("half-edge points to missing vertex")
  if !(m.loops.contains r.loop) then throw ("half-edge references missing loop")
  let rt ← getHE m r.twin
  if rt.twin ≠ h then throw ("inconsistent twins")
  let rp ← getHE m r.prev
  if rp.next ≠ h then throw ("inconsistent prev/next")
  let rn ← getHE m r.next
  if rn.prev ≠ h then throw ("inconsistent next/prev")

/-- `Mesh.check()` from the kernel imported by src/index.tsx: for every
live vertex, unique name and consistent outgoing ring (each outgoing
half-edge starts at the vertex and passes `checkHE`); for every live loop,
unique name and consistent cycle (each half-edge references the loop and
passes `checkHE`).  The `v.mesh !== this` test is vacuous in the arena
model (there is only one mesh). -/
def check (m : Mesh) : Except String Unit := do
  let _ ← m.vertices.foldlM (fun (seen : List (List Char)) v => do
      let name ← getVName m v
      if seen.contains name then throw ("duplicate vertex name")
      let hs ← halfEdgesOut m v
      for h in hs do
        let frm ← fromOf m h
        if frm ≠ v then throw ("inconsistent vertex")
        checkHE m h
      pure (name :: seen)) ([] : List (List Char))
  let _ ← m.loops.foldlM (fun (seen : List (List Char)) l => do
      let name ← getLName m l
      if seen.contains name then throw ("duplicate loop name")
      let hs ← loopHalfEdges m l
      for h in hs do
        let r ← getHE m h
        if r.loop ≠ l then throw ("inconsistent loop")
        checkHE m h
      pure (name :: seen)) ([] : List (List Char))
  pure ()

end StarFold.Kernel

namespace StarFold.Driver

open StarFold.Kernel

/-!
## The driver loop (C1)

Embedded from `App.run` in src/index.tsx: each non-comment line of the
action script is split into a command name and arguments; unknown command
names fail; a known command is dispatched dynamically
(`mesh[cmd](args)`), then `mesh.logMesh()` (pure logging) and
`mesh.checkWithData()` run.  `checkWithData` first runs the kernel
`Mesh.check()` and then the additional data checks (face flatness,
neighborhood sanity, `checkPeers`).  The state after each step is
collected (`emitPhase`); the first exception aborts the loop.

The four operations behind the dynamic dispatch and the additional data
checks are modelled by the parameters `exec` and `restCheck`; the claim's
conclusion is about the kernel `check`, which is embedded concretely and
hard-coded in the loop exactly as `checkWithData` hard-codes
`this.check()` as its first action.
-/

/-- `cmdNames` from src/index.tsx. -/
def cmdNames : List String := [("bend"), ("bend2"), ("reattach"), ("contract")]

/-- One step of `App.run`'s action loop: unknown-command guard, dynamic
dispatch (`exec`), then `checkWithData` = kernel `check` followed by the
remaining data checks (`restCheck`). -/
def runStep (exec : String → List String → Mesh → Except (String × Mesh) Mesh)
    (restCheck : Mesh → Except String Unit)
    (line : String × List String) (m : Mesh) : Except (String × Mesh) Mesh := do
  if !(cmdNames.contains line.fst) then throw (("Unknown command"), m)
  let m' ← exec line.fst line.snd m
  let _ ← liftE m' (check m')
  let _ ← liftE m' (restCheck m')
  pure m'

/-- `App.run`'s phase loop over the action lines, collecting the mesh
state after every successful step. -/
def runPhases (exec : String → List String → Mesh → Except (String × Mesh) Mesh)
    (restCheck : Mesh → Except String Unit) :
    List (String × List String) → Mesh → Except (String × Mesh) (List Mesh)
  | [], _ => pure []
  | line :: rest, m => do
      let m' ← runStep exec restCheck line m
      let ms ← runPhases exec restCheck rest m'
      pure (m' :: ms)

end StarFold.Driver


namespace StarFold.MMesh

open StarFold StarFold.Geom StarFold.Kernel

/-!
## The data layer around the kernel (C3)

`MyMesh` augments the kernel mesh with vertex positions (`positions`),
the distinguished boundary loop (`boundary`, absent once the manifold is
completely folded) and the `peers` map pairing boundary half-edges that
the folding will eventually glue.  `checkPeers` (src/index.tsx 539-570)
validates that state: without a boundary the peers map must be empty;
with one, every boundary half-edge must be registered, and every
registered pair must lie on the boundary and be reciprocal.  A peer-length
mismatch beyond `1e-3` is only logged as a WARNING; we model the emitted
warnings as the returned list.
-/

/-- The `MyMesh` data state: kernel mesh, vertex positions, the `peers`
map as an association list keyed by half-edge id, and the optional
boundary loop. -/
structure MState where
  mesh : Mesh
  pos : List (Nat × Vec3)
  peers : List (Nat × Nat)
  boundary : Option Nat

/-- `MyMesh.pos`, failing like the source's `undefined` propagation when a
vertex has no position. -/
def posOf (s : MState) (v : Nat) : Except String Vec3 :=
  match alGet s.pos v with
  | some p => .ok p
  | none => .error (("missing position"))

/-- `distance` (src/geom-utils.ts): `B.norm(B.minus(a, b))`. -/
noncomputable def distance (a b : Vec3) : ℝ := vnorm (vsub a b)

/-- `MyMesh.heLength`: the distance from `he.from`'s to `he.to`'s
position. -/
noncomputable def heLength (s : MState) (h : Nat) : Except String ℝ := do
  let r ← getHE s.mesh h
  let rt ← getHE s.mesh r.twin
  let pf ← posOf s rt.toV
  let pt ← posOf s r.toV
  pure (distance pf pt)

/-- The `for (const [he0, he1] of peers)` body of `checkPeers`: on-boundary
and reciprocity violations throw, a length mismatch beyond `1e-3` only
appends a warning. -/
noncomputable def checkPeersEntries (s : MState) (boundary : Nat) :
    List (Nat × Nat) → Except String (List String)
  | [] => .ok []
  | (he0, he1) :: rest => do
      let r0 ← getHE s.mesh he0
      if r0.loop ≠ boundary then
        throw (("half-edge with peer found on non-boundary"))
      else if alGet s.peers he1 ≠ some he0 then
        throw (("peers not reciprocal"))
      else do
        let l0 ← heLength s he0
        let l1 ← heLength s he1
        let warns ← checkPeersEntries s boundary rest
        if |l0 - l1| > 1 / 1000 then
          pure ((("WARNING: peer lengths do not fit")) :: warns)
        else
          pure warns

/-- `MyMesh.checkPeers`, returning the list of emitted warnings. -/
noncomputable def checkPeers (s : MState) : Except String (List String) :=
  match s.boundary with
  | none =>
      if s.peers = [] then .ok []
      else .error (("assertion failed: peers without boundary"))
  | some boundary => do
      let bhes ← loopHalfEdges s.mesh boundary
      if bhes.all (fun h => alHas s.peers h) then
        checkPeersEntries s boundary s.peers
      else
        throw (("assertion failed: boundary half-edge without peer"))

end StarFold.MMesh

namespace StarFold.MMesh

open StarFold StarFold.Geom StarFold.Kernel

/-- The two-vertex single-edge mesh with no boundary loop registered and
no peers: the completely-folded configuration of `checkPeers`. -/
def nbState : MState := ⟨edgePairMesh, [], [], none⟩

/-- Collinear positions for the two-edge tree: `u = (0,0,0)`,
`v = (1,0,0)`, `w = (2,0,0)`, making edge `u-v` of length 1 and edge
`u-w` of length 2. -/
def treePosA : List (Nat × Vec3) := [(0, ⟨0, 0, 0⟩), (1, ⟨1, 0, 0⟩), (2, ⟨2, 0, 0⟩)]

/-- Peers pairing the `u-v` half-edges with the `u-w` half-edges. -/
def cexPeers : List (Nat × Nat) := [(3, 6), (6, 3), (4, 5), (5, 4)]

/-- The tree mesh with its single loop as boundary and peers pairing the
length-1 edge with the length-2 edge: structurally valid, but with a peer
length mismatch of 1. -/
def cexState : MState := ⟨treeMesh, treePosA, cexPeers, some 7⟩

/-- A bigon state whose first peer entry lies on loop 3, not on the
declared boundary loop 2. -/
def badLoopState : MState := ⟨bigonMesh, [], [(5, 4), (4, 5), (7, 7)], some 2⟩

/-- A bigon state whose first peer entry is not reciprocated:
`peers(7) = 7`, not 4. -/
def badRecipState : MState := ⟨bigonMesh, [], [(4, 7), (7, 7)], some 2⟩

/-- A bigon state with a boundary loop but an empty peers map: the
boundary half-edges 4 and 7 lack peer entries. -/
def uncovState : MState := ⟨bigonMesh, [], [], some 2⟩

end StarFold.MMesh

namespace StarFold.MMesh

open StarFold StarFold.Geom StarFold.Kernel

/-!
## `MyMesh.contract` (C6)

`contract(args)` (src/index.tsx 864-927) parses its single numeric
argument, then — before building the connection map, before any
relaxation iteration and before `gluePeers` — walks all loops and fails
if a non-boundary loop does not have exactly 3 half-edges.  The
relaxation iterations and the gluing are the only parts that move or
merge vertices; we take them as an arbitrary continuation
`relaxAndGlue`, so every property proved of `contract` holds no matter
what the continuation would do — in particular an error raised by the
precheck is raised before the continuation can touch any vertex. -/

/-- The triangulation precheck: every loop other than the boundary loop
must have exactly 3 half-edges. -/
def checkTriangles (s : MState) : List Nat → Except String Unit
  | [] => pure ()
  | l :: rest =>
      if s.boundary = some l then checkTriangles s rest
      else do
        let hs ← loopHalfEdges s.mesh l
        if hs.length ≠ 3 then
          throw (("cannot run contract with non-triangle face"))
        else checkTriangles s rest

/-- `MyMesh.contract`: argument validation, the triangulation precheck,
then the relaxation iterations and gluing as the continuation. -/
def contract (relaxAndGlue : MState → Nat → Except String MState)
    (s : MState) (args : List Int) : Except String MState := do
  match args with
  | [nSteps] =>
      if nSteps < 1 then
        throw (("The argument of contract should be the number of optimization steps."))
      else do
        checkTriangles s s.mesh.loops
        relaxAndGlue s nSteps.toNat
  | _ => throw (("contract expects 1 argument"))

end StarFold.MMesh

namespace StarFold.MMesh

open StarFold StarFold.Geom StarFold.Kernel

/-!
## `MyMesh.setup` (C4)

`setup(def)` (src/index.tsx 465-515) bootstraps the core 1-gon, then for
every line of the star definition accumulates the 2-D displacement
`currentPos` over the line's steps (from the `steps` table of unit moves
on the triangular grid, src/index.tsx 434-447), splits the boundary edge
twice, positions the new tip and inward vertices, and registers the two
outer half-edges as peers.  After all lines it checks
`normSquared(currentPos) > 1e-12` and fails with "polygon not closed" if
the accumulated displacement did not return to the origin; only then the
dummy core vertex is contracted away and the tips are renamed.  The
initial `checkWithData` call on the core state is abstracted as the
`checkData` hook. -/

/-- `r3half = Math.sqrt(3) / 2`. -/
noncomputable def r3half : ℝ := Real.sqrt 3 / 2

/-- The `steps` table: displacement of each clock-direction move. -/
noncomputable def steps (m : String) : Option Vec3 :=
  if m = ("12") then some ⟨0 * r3half, 2 / 2, 0⟩
  else if m = ("1") then some ⟨1 * r3half, 3 / 2, 0⟩
  else if m = ("2") then some ⟨1 * r3half, 1 / 2, 0⟩
  else if m = ("3") then some ⟨2 * r3half, 0 / 2, 0⟩
  else if m = ("4") then some ⟨1 * r3half, (-1) / 2, 0⟩
  else if m = ("5") then some ⟨1 * r3half, (-3) / 2, 0⟩
  else if m = ("6") then some ⟨0 * r3half, (-2) / 2, 0⟩
  else if m = ("7") then some ⟨(-1) * r3half, (-3) / 2, 0⟩
  else if m = ("8") then some ⟨(-1) * r3half, (-1) / 2, 0⟩
  else if m = ("9") then some ⟨(-2) * r3half, 0 / 2, 0⟩
  else if m = ("10") then some ⟨(-1) * r3half, 1 / 2, 0⟩
  else if m = ("11") then some ⟨(-1) * r3half, 3 / 2, 0⟩
  else none

/-- `rotXY60` (src/geom-utils.ts 12-15): the sandwich of the rotor
`cos(30°) - sin(30°) e_xy`, i.e. the rotation by +60° in the `xy`-plane:
`(x, y, z) ↦ (x cos 60° - y sin 60°, x sin 60° + y cos 60°, z)` with
`cos 60° = 1/2` and `sin 60° = √3/2`. -/
noncomputable def rotXY60 (v : Vec3) : Vec3 :=
  ⟨v.x * (1 / 2) - v.y * (Real.sqrt 3 / 2), v.x * (Real.sqrt 3 / 2) + v.y * (1 / 2), v.z⟩

/-- One line of the star definition, already tokenized: the vertex name
and the list of step moves. -/
structure SLine where
  name : List Char
  moves : List String

/-- The `currentPos` accumulation over one line's moves; an unknown move
name fails like the source's `steps[move] ?? fail(...)`. -/
noncomputable def addMoves (pos : Vec3) : List String → Except String Vec3
  | [] => pure pos
  | mv :: rest =>
      match steps mv with
      | some v => addMoves (vadd pos v) rest
      | none => throw (("unknown step"))

/-- The accumulated displacement over all lines: exactly the `currentPos`
recurrence of the setup loop, isolated from the mesh operations. -/
noncomputable def linesOffset (pos : Vec3) : List SLine → Except String Vec3
  | [] => pure pos
  | line :: rest => do
      let pos' ← addMoves pos line.moves
      linesOffset pos' rest

/-- Flatten a kernel-level error, as the driver observes it. -/
def mapErr {α : Type} : Except (String × Mesh) α → Except String α
  | .ok a => .ok a
  | .error (e, _) => .error e

/-- Map deletion (`peers.delete`). -/
def alDel {α : Type} : List (Nat × α) → Nat → List (Nat × α)
  | [], _ => []
  | p :: rest, k => if p.fst = k then alDel rest k else p :: alDel rest k

/-- The mesh with nothing in it, on which `addCore` bootstraps. -/
def emptyMesh : Mesh := ⟨[], [], [], [], [], [], [], 0⟩

/-- One iteration of the setup loop: accumulate the line's displacement,
split the boundary edge twice, position and name the tip and inward
vertices, register the two new outer half-edges as peers. -/
noncomputable def setupLine (outerHE : Nat) (acc : MState × Vec3 × List Nat)
    (line : SLine) : Except String (MState × Vec3 × List Nat) := do
  let (s, fromPos, tips) := acc
  let currentPos ← addMoves fromPos line.moves
  let innerPos := vadd fromPos (rotXY60 (vsub currentPos fromPos))
  let (m1, innerHE0, outerHE0) ← mapErr (splitEdgeAcross s.mesh outerHE)
  let tip ← fromOf m1 innerHE0
  let s := { s with mesh := m1, pos := alPut s.pos tip fromPos }
  let tips := tips ++ [tip]
  let (m2, innerHE1, outerHE1) ← mapErr (splitEdgeAcross s.mesh outerHE)
  let inward ← fromOf m2 innerHE1
  let s := { s with
    mesh := { m2 with vname := alPut m2.vname inward line.name }
    pos := alPut s.pos inward innerPos }
  let s := { s with peers := alPut (alPut s.peers outerHE0 outerHE1) outerHE1 outerHE0 }
  pure (s, currentPos, tips)

/-- The tip renaming at the end of `setup`: each tip takes the name
`[n0^n1]` from the targets of its two outgoing half-edges, ordered so
that the half-edge on the star loop comes second. -/
def renameTips (innerLoop : Nat) (s : MState) : List Nat → Except String MState
  | [] => pure s
  | tip :: rest => do
      let outs ← halfEdgesOut s.mesh tip
      match outs with
      | he0 :: he1 :: _ => do
          let r0 ← getHE s.mesh he0
          let (he0a, he1a) := if r0.loop = innerLoop then (he1, he0) else (he0, he1)
          let r0' ← getHE s.mesh he0a
          let r1' ← getHE s.mesh he1a
          let n0 ← getVName s.mesh r0'.toV
          let n1 ← getVName s.mesh r1'.toV
          let nm := [('[')] ++ n0 ++ [('^')] ++ n1 ++ [(']')]
          renameTips innerLoop
            ({ s with mesh := { s.mesh with vname := alPut s.mesh.vname tip nm } }) rest
      | _ => throw (("tip without two outgoing half-edges"))

/-- The pre-loop part of `setup`: `addCore`, boundary registration, loop
and dummy names, the dummy position, the initial self-peer, and the
`checkWithData` hook; returns the state, the star loop and the outer
half-edge. -/
noncomputable def setupCore (checkData : MState → Except String Unit) :
    Except String (MState × Nat × Nat) := do
  let (m, innerHE, outerHE) ← mapErr (addCore emptyMesh)
  let ri ← getHE m innerHE
  let ro ← getHE m outerHE
  let m := { m with
    lname := alPut (alPut m.lname ri.loop ("star").data) ro.loop ("boundary").data }
  let m := { m with vname := alPut m.vname ri.toV ("dummy").data }
  let s : MState := ⟨m, alPut [] ri.toV ⟨0, 0, 0⟩, alPut [] outerHE outerHE, some ro.loop⟩
  checkData s
  pure (s, ri.loop, outerHE)

/-- `MyMesh.setup` over tokenized lines: the core bootstrap, the setup
loop, the polygon-closure check, the dummy contraction with its peer
removal, and the tip renaming. -/
noncomputable def setup (checkData : MState → Except String Unit) (lines : List SLine) :
    Except String (MState × List Nat) := do
  let (s, innerLoop, outerHE) ← setupCore checkData
  let acc ← lines.foldlM (setupLine outerHE) (s, ⟨0, 0, 0⟩, [])
  let (s, currentPos, tips) := acc
  if normSq currentPos > 1e-12 then
    throw (("polygon not closed"))
  else do
    let (m', _) ← mapErr (contractEdge s.mesh outerHE)
    let s := { s with mesh := m', peers := alDel s.peers outerHE }
    let s ← renameTips innerLoop s tips
    pure (s, tips)

/-- A single-line star definition that returns to the origin: one step
east (move 3) and one step west (move 9). -/
def demoLines : List SLine := [⟨[('a')], [("3"), ("9")]⟩]

/-- A single-line star definition that does not close: one step east. -/
def badLines : List SLine := [⟨[('a')], [("3")]⟩]

end StarFold.MMesh

namespace StarFold.GA

open StarFold.Geom

/-!
## The Euclidean geometric algebra on `xyz` (C5)

The `B` algebra of src/geometric-algebra/conformal.ts: the Clifford
algebra over `x, y, z` with the all-ones metric.  A multivector has the 8
basis blades `1, x, y, xy, z, xz, yz, xyz` (ordered by the source's
bitmaps `x = 1, y = 2, z = 4`).  The products below are transcribed from
`product2` of the source's `Algebra` class: a blade pair `(a, b)`
contributes `(-1)^productFlips(a,b) * metricFactors(a&b) * aVal * bVal`
to the blade `a XOR b`, where `geometricProduct` includes every pair,
`contractLeft` those with `a ⊆ b`, and `wedgeProduct` those with
disjoint `a, b`; `reverse` negates the blades of grades 2 and 3, and the
`"direct"` `dual` maps blade `bm` to its complement with the sign
`(-1)^(productFlips(bm, 111b) + 1)`. -/

@[ext]
structure MV3 where
  s : ℝ
  x : ℝ
  y : ℝ
  xy : ℝ
  z : ℝ
  xz : ℝ
  yz : ℝ
  xyz : ℝ

/-- `B.geometricProduct` (two arguments). -/
def gp3 (a b : MV3) : MV3 :=
  ⟨
    a.s * b.s + a.x * b.x + a.y * b.y - a.xy * b.xy + a.z * b.z - a.xz * b.xz - a.yz * b.yz - a.xyz * b.xyz,
    a.s * b.x + a.x * b.s - a.y * b.xy + a.xy * b.y - a.z * b.xz + a.xz * b.z - a.yz * b.xyz - a.xyz * b.yz,
    a.s * b.y + a.x * b.xy + a.y * b.s - a.xy * b.x - a.z * b.yz + a.xz * b.xyz + a.yz * b.z + a.xyz * b.xz,
    a.s * b.xy + a.x * b.y - a.y * b.x + a.xy * b.s + a.z * b.xyz - a.xz * b.yz + a.yz * b.xz + a.xyz * b.z,
    a.s * b.z + a.x * b.xz + a.y * b.yz - a.xy * b.xyz + a.z * b.s - a.xz * b.x - a.yz * b.y - a.xyz * b.xy,
    a.s * b.xz + a.x * b.z - a.y * b.xyz + a.xy * b.yz - a.z * b.x + a.xz * b.s - a.yz * b.xy - a.xyz * b.y,
    a.s * b.yz + a.x * b.xyz + a.y * b.z - a.xy * b.xz - a.z * b.y + a.xz * b.xy + a.yz * b.s + a.xyz * b.x,
    a.s * b.xyz + a.x * b.yz - a.y * b.xz + a.xy * b.z + a.z * b.xy - a.xz * b.y + a.yz * b.x + a.xyz * b.s
  ⟩

/-- `B.contractLeft`. -/
def cl3 (a b : MV3) : MV3 :=
  ⟨
    a.s * b.s + a.x * b.x + a.y * b.y - a.xy * b.xy + a.z * b.z - a.xz * b.xz - a.yz * b.yz - a.xyz * b.xyz,
    a.s * b.x - a.y * b.xy - a.z * b.xz - a.yz * b.xyz,
    a.s * b.y + a.x * b.xy - a.z * b.yz + a.xz * b.xyz,
    a.s * b.xy + a.z * b.xyz,
    a.s * b.z + a.x * b.xz + a.y * b.yz - a.xy * b.xyz,
    a.s * b.xz - a.y * b.xyz,
    a.s * b.yz + a.x * b.xyz,
    a.s * b.xyz
  ⟩

/-- `B.wedgeProduct` (two arguments). -/
def wedge3 (a b : MV3) : MV3 :=
  ⟨
    a.s * b.s,
    a.s * b.x + a.x * b.s,
    a.s * b.y + a.y * b.s,
    a.s * b.xy + a.x * b.y - a.y * b.x + a.xy * b.s,
    a.s * b.z + a.z * b.s,
    a.s * b.xz + a.x * b.z - a.z * b.x + a.xz * b.s,
    a.s * b.yz + a.y * b.z - a.z * b.y + a.yz * b.s,
    a.s * b.xyz + a.x * b.yz - a.y * b.xz + a.xy * b.z + a.z * b.xy - a.xz * b.y + a.yz * b.x + a.xyz * b.s
  ⟩

/-- `B.reverse`. -/
def rev3 (a : MV3) : MV3 :=
  ⟨a.s, a.x, a.y, -a.xy, a.z, -a.xz, -a.yz, -a.xyz⟩

/-- `B.dual` with the `"direct"` implementation. -/
def dual3 (a : MV3) : MV3 :=
  ⟨a.xyz, a.yz, -a.xz, -a.z, a.xy, a.y, -a.x, -a.s⟩

/-- `B.scale`. -/
def smul3 (c : ℝ) (a : MV3) : MV3 :=
  ⟨c * a.s, c * a.x, c * a.y, c * a.xy, c * a.z, c * a.xz, c * a.yz, c * a.xyz⟩

/-- `B.plus` (two arguments). -/
def add3 (a b : MV3) : MV3 :=
  ⟨a.s + b.s, a.x + b.x, a.y + b.y, a.xy + b.xy, a.z + b.z, a.xz + b.xz,
   a.yz + b.yz, a.xyz + b.xyz⟩

/-- A 1-vector as a multivector (`B.vec`). -/
def vecMV (v : Vec3) : MV3 := ⟨0, v.x, v.y, 0, v.z, 0, 0, 0⟩

/-- The grade-1 part, read back as a coordinate triple. -/
def getVec (a : MV3) : Vec3 := ⟨a.x, a.y, a.z⟩

/-- `B.normSquared` (`"direct"`): the metric-weighted sum of squared
components; with the Euclidean metric every weight is `+1`. -/
def normSquared3 (a : MV3) : ℝ :=
  a.s ^ 2 + a.x ^ 2 + a.y ^ 2 + a.xy ^ 2 + a.z ^ 2 + a.xz ^ 2 + a.yz ^ 2 + a.xyz ^ 2

/-- `B.norm`: `sqrt(abs(normSquared))`. -/
noncomputable def norm3 (a : MV3) : ℝ := Real.sqrt |normSquared3 a|

/-- `B.normalize`: fails on a null (or NaN) squared norm, else scales by
the inverse square root.  The source's `singleEuclidean` fast path
returns the same value as the general path whenever the single non-zero
component is finite, so both paths are folded into this definition. -/
noncomputable def normalize3 (a : MV3) : Except String MV3 :=
  if normSquared3 a = 0 then .error (("trying to normalize null vector"))
  else .ok (smul3 (1 / norm3 a) a)

/-- `B.exp` (for 2-blades): `1 + A` for a null `A`, else
`cos α + (sin α / α) A` with `α = norm(A)`. -/
noncomputable def exp3 (a : MV3) : MV3 :=
  if norm3 a = 0 then add3 ⟨1, 0, 0, 0, 0, 0, 0, 0⟩ a
  else add3 ⟨Real.cos (norm3 a), 0, 0, 0, 0, 0, 0, 0⟩ (smul3 (Real.sin (norm3 a) / norm3 a) a)

/-- `B.sandwich(R)(x) = R * x * reverse(R)`. -/
def sandwich3 (r x : MV3) : MV3 := gp3 (gp3 r x) (rev3 r)

end StarFold.GA

namespace StarFold.Kernel

open StarFold

/-- `collectVertices(start, border)` (src/index.tsx 1045-1056): the
vertices reachable from `start` without crossing the border, by
depth-first search; the fuel is a modelling artifact, generous enough
for any reachable mesh. -/
def collectVerticesAux (m : Mesh) (border : List Nat) :
    Nat → List Nat → List Nat → Except String (List Nat)
  | 0, _, _ => .error (("collectVertices fuel exhausted"))
  | _ + 1, collected, [] => pure collected
  | fuel + 1, collected, v :: stack =>
      if v ∈ border ∨ v ∈ collected then collectVerticesAux m border fuel collected stack
      else do
        let ns ← neighbors m v
        collectVerticesAux m border fuel (collected ++ [v]) (ns ++ stack)

/-- `collectVertices` from a start vertex. -/
def collectVertices (m : Mesh) (start : Nat) (border : List Nat) :
    Except String (List Nat) :=
  collectVerticesAux m border bigFuel [] [start]

/-- `findUnique(hes, he => he.to === v)`. -/
def findUniqueToV (m : Mesh) (hes : List Nat) (v : Nat) : Except String Nat := do
  let found ← hes.filterM (fun h => do
      let r ← getHE m h
      pure (decide (r.toV = v)))
  match found with
  | [h] => pure h
  | _ => .error (("findUnique: no unique matching half-edge"))

end StarFold.Kernel

namespace StarFold.MMesh

open StarFold StarFold.Geom StarFold.Kernel StarFold.GA

/-- `MyMesh.findUniqueFace(p, q)`: the unique non-boundary loop adjacent
to both vertices. -/
def findUniqueFace (s : MState) (p q : Nat) : Except String Nat := do
  let pls ← vertexLoops s.mesh p
  let found ← pls.filterM (fun l => do
      if s.boundary = some l then pure false
      else do
        let vs ← loopVertices s.mesh l
        pure (decide (q ∈ vs)))
  match found with
  | [l] => pure l
  | _ => .error (("found wrong number of faces"))

/-- `MyMesh.directedArea(loop)`: the sum of `pos(from) ∧ pos(to)` over
the loop's half-edges. -/
noncomputable def directedArea (s : MState) (l : Nat) : Except String MV3 := do
  let hes ← loopHalfEdges s.mesh l
  hes.foldlM (fun acc h => do
      let r ← getHE s.mesh h
      let rt ← getHE s.mesh r.twin
      let pf ← posOf s rt.toV
      let pt ← posOf s r.toV
      pure (add3 acc (wedge3 (vecMV pf) (vecMV pt)))) ⟨0, 0, 0, 0, 0, 0, 0, 0⟩

/-- `MyMesh.faceOrientation(he)`: the edge vector contracted into the
face's directed area. -/
noncomputable def faceOrientation (s : MState) (he : Nat) : Except String Vec3 := do
  let r ← getHE s.mesh he
  let rt ← getHE s.mesh r.twin
  let pf ← posOf s rt.toV
  let pt ← posOf s r.toV
  let a ← directedArea s r.loop
  pure (getVec (cl3 (vecMV (vsub pt pf)) a))

/-- The name `split(a-b)` of a freshly split-off loop. -/
def splitName (a b : List Char) : List Char :=
  ("split(").data ++ a ++ [('-')] ++ b ++ (")").data

/-- A floating-point number: `none` models `NaN`. -/
def FReal : Type := Option ℝ

/-- A coordinate triple of floating-point numbers. -/
@[ext]
structure FVec3 where
  x : FReal
  y : FReal
  z : FReal

/-- Inject an (idealized) finite triple. -/
def finjV (v : Vec3) : FVec3 := ⟨some v.x, some v.y, some v.z⟩

/-- NaN-propagating subtraction. -/
def fsubF (a b : FReal) : FReal :=
  match a, b with
  | some x, some y => some (x - y)
  | _, _ => none

/-- Componentwise subtraction. -/
def fsubV (a b : FVec3) : FVec3 := ⟨fsubF a.x b.x, fsubF a.y b.y, fsubF a.z b.z⟩

/-- `B.normalize` on a finite 1-vector: the squared norm `0` is falsy and
fails; otherwise scale by the inverse square root (of the absolute
value).  The `singleEuclidean` fast path of the source returns the same
unit vector whenever it applies to a finite vector, so both paths are
folded together. -/
noncomputable def vnormalizeE (v : Vec3) : Except String Vec3 :=
  if normSq v = 0 then .error (("trying to normalize null vector"))
  else .ok (vscale (1 / Real.sqrt |normSq v|) v)

/-- `B.normalize` on a possibly-NaN 1-vector: any NaN coordinate makes
the squared norm NaN, which is falsy like `0`, so normalization fails
with the same error. -/
noncomputable def fnormalizeV (v : FVec3) : Except String Vec3 :=
  match v with
  | ⟨some x, some y, some z⟩ => vnormalizeE ⟨x, y, z⟩
  | _ => .error (("trying to normalize null vector"))

/-- `rotatePoints(pivot, from, to, points)` (src/geom-utils.ts 76-95):
build the rotor `dir1 * dirMid` from the normalized directions and move
every listed vertex by the sandwich around the pivot.  The `to` point may
carry NaN coordinates (from a failed sphere intersection), in which case
the first normalization fails before any position is assigned. -/
noncomputable def rotatePoints (s : MState) (pivot from0 : Vec3) (toP : FVec3)
    (pts : List Nat) : Except String MState := do
  let dir1 ← fnormalizeV (fsubV toP (finjV pivot))
  let dir2 ← vnormalizeE (vsub from0 pivot)
  let dirMid ← vnormalizeE (vadd dir1 dir2)
  let rot := gp3 (vecMV dir1) (vecMV dirMid)
  let newPos ← pts.foldlM (fun pl v => do
      let pv ← (match alGet pl v with
        | some p => .ok p
        | none => .error (("missing position")))
      pure (alSet pl v (vadd (getVec (sandwich3 rot (vecMV (vsub pv pivot)))) pivot)))
    s.pos
  pure { s with pos := newPos }

/-- One step of `MyMesh.bend` over the consecutive pair
`(prevV, curV)` (src/index.tsx 642-665): split the face along the
diagonal, then rotate the vertices beyond the diagonal by the sandwich of
the rotor `exp(-angle/2 * normalize(dual(pos(prev) - pivot)))` applied
through `rotatePoints`. -/
noncomputable def bendStep (angle : ℝ) (s : MState) (prevV curV : Nat) :
    Except String MState := do
  let face ← findUniqueFace s prevV curV
  let fhes ← loopHalfEdges s.mesh face
  let he_face_prev ← findUniqueToV s.mesh fhes prevV
  let he_face_cur ← findUniqueToV s.mesh fhes curV
  let startV ← fromOf s.mesh he_face_cur
  let beyond ← collectVertices s.mesh startV [prevV, curV]
  let (m, heSplit, _) ← (match splitLoop s.mesh he_face_cur he_face_prev Create.left with
    | .ok r => .ok r
    | .error (e, _) => .error e)
  let rSplit ← getHE m heSplit
  let pn ← getVName m prevV
  let cn ← getVName m curV
  let s := { s with mesh := { m with lname := alPut m.lname rSplit.loop (splitName pn cn) } }
  let pivot ← posOf s curV
  let pprev ← posOf s prevV
  let from0 ← faceOrientation s heSplit
  let axis ← normalize3 (dual3 (vecMV (vsub pprev pivot)))
  let rotor := exp3 (smul3 (-angle / 2) axis)
  let to0 := getVec (sandwich3 rotor (vecMV from0))
  rotatePoints s pivot (vadd pivot from0) (finjV (vadd pivot to0)) beyond

/-- `MyMesh.bend` over resolved vertex ids: fold `bendStep` over the
consecutive pairs. -/
noncomputable def bend (angle : ℝ) (vs : List Nat) (s : MState) :
    Except String MState :=
  match vs with
  | first :: rest =>
      (rest.foldlM (fun (acc : MState × Nat) cur => do
          let s' ← bendStep angle acc.1 acc.2 cur
          pure (s', cur)) (s, first)).map Prod.fst
  | [] => .error (("bend expects 3 or more args"))

end StarFold.MMesh

namespace StarFold.MMesh

open StarFold StarFold.Geom StarFold.Kernel StarFold.GA

/-- A quad face `c -> w -> p -> x` (vertex ids 0,1,2,3; loop 12) with its
boundary loop 13: the configuration of one `bend` step over
`prev = p (2)`, `current = c (0)`. -/
def quadMesh : Mesh :=
  { hes := [(4, ⟨8, 7, 5, 1, 12, true⟩), (5, ⟨9, 4, 6, 2, 12, true⟩),
            (6, ⟨10, 5, 7, 3, 12, true⟩), (7, ⟨11, 6, 4, 0, 12, true⟩),
            (8, ⟨4, 9, 11, 0, 13, true⟩), (9, ⟨5, 10, 8, 1, 13, true⟩),
            (10, ⟨6, 11, 9, 2, 13, true⟩), (11, ⟨7, 8, 10, 3, 13, true⟩)]
    vertices := [0, 1, 2, 3]
    loops := [12, 13]
    vname := [(0, [('c')]), (1, [('w')]), (2, [('p')]), (3, [('x')])]
    lname := [(12, [('F')]), (13, [('B')])]
    vfirst := [(0, 4), (1, 5), (2, 6), (3, 7)]
    lfirst := [(12, 4), (13, 8)]
    nextId := 14 }

/-- Positions in the plane `z = 0`: `c` at the origin (the pivot),
`p = (1,0,0)` (so the diagonal direction is the x-axis), `w = (1,1,0)`,
`x = (0,1,0)` (the vertex beyond the diagonal). -/
noncomputable def c5pos : List (Nat × Vec3) :=
  [(0, ⟨0, 0, 0⟩), (1, ⟨1, 1, 0⟩), (2, ⟨1, 0, 0⟩), (3, ⟨0, 1, 0⟩)]

/-- The bend-step state on the quad. -/
noncomputable def c5state : MState := ⟨quadMesh, c5pos, [], some 13⟩

/-- Spec-modelled (from the claim's words, for comparison only): the
rigid rotation by `angle` about the axis through `pivot` perpendicular
to the face — for the planar configuration in `z = 0` the axis is the
`z` direction, so the rotation turns the `xy`-components and keeps the
`z`-component. -/
noncomputable def specPerpendicularAxisRotation (angle : ℝ) (pivot w : Vec3) : Vec3 :=
  vadd pivot ⟨Real.cos angle * (w.x - pivot.x) - Real.sin angle * (w.y - pivot.y),
              Real.sin angle * (w.x - pivot.x) + Real.cos angle * (w.y - pivot.y),
              w.z - pivot.z⟩

end StarFold.MMesh

namespace StarFold.MMesh

open StarFold StarFold.Geom StarFold.Kernel StarFold.GA

/-- The quad mesh after `splitLoop` along the diagonal `p -> c`
(half-edges 15/16, new face loop 14). -/
def c5mSplit : Mesh :=
  { hes := [(4, ⟨8, 16, 5, 1, 12, true⟩), (5, ⟨9, 4, 16, 2, 12, true⟩),
            (6, ⟨10, 15, 7, 3, 14, true⟩), (7, ⟨11, 6, 15, 0, 14, true⟩),
            (8, ⟨4, 9, 11, 0, 13, true⟩), (9, ⟨5, 10, 8, 1, 13, true⟩),
            (10, ⟨6, 11, 9, 2, 13, true⟩), (11, ⟨7, 8, 10, 3, 13, true⟩),
            (15, ⟨16, 7, 6, 2, 14, true⟩), (16, ⟨15, 5, 4, 0, 12, true⟩)]
    vertices := [0, 1, 2, 3]
    loops := [12, 13, 14]
    vname := [(0, [('c')]), (1, [('w')]), (2, [('p')]), (3, [('x')])]
    lname := [(12, [('F')]), (13, [('B')]), (14, [('F'), ('.'), ('0')])]
    vfirst := [(0, 15), (1, 5), (2, 16), (3, 7)]
    lfirst := [(12, 16), (13, 8), (14, 15)]
    nextId := 17 }

/-- The state after splitting and renaming the split-off loop. -/
noncomputable def c5s1 : MState :=
  { c5state with mesh :=
      { c5mSplit with lname := alPut c5mSplit.lname 14 (splitName [('p')] [('c')]) } }

/-- The normalized dual of the diagonal vector `pos(p) - pos(c) = (1,0,0)`. -/
noncomputable def c5axis : MV3 :=
  smul3 (1 / Real.sqrt (normSq (vsub (⟨1, 0, 0⟩ : Vec3) ⟨0, 0, 0⟩)))
    (dual3 (vecMV (vsub (⟨1, 0, 0⟩ : Vec3) ⟨0, 0, 0⟩)))

end StarFold.MMesh

namespace StarFold.MMesh

open StarFold StarFold.Geom

/-- NaN-propagating addition. -/
def fadd (a b : FReal) : FReal :=
  match a, b with
  | some x, some y => some (x + y)
  | _, _ => none

/-- NaN-propagating multiplication.  (Total-coordinate idealization: any
NaN operand yields NaN, as in IEEE; the source's sparse representation
only materializes present components, which is where all NaN values
arise in the modelled code paths.) -/
def fmul (a b : FReal) : FReal :=
  match a, b with
  | some x, some y => some (x * y)
  | _, _ => none

/-- NaN-propagating negation. -/
def fneg (a : FReal) : FReal :=
  match a with
  | some x => some (-x)
  | none => none

/-- NaN-propagating division; division by zero (JS `Infinity`) is folded
into the absorbing `none` as well (no modelled code path divides a
finite number by zero). -/
noncomputable def fdiv (a b : FReal) : FReal :=
  match a, b with
  | some x, some y => if y = 0 then none else some (x / y)
  | _, _ => none

/-- `Math.sqrt`: `NaN` on negative input, which is what the source's
un-clamped negative discriminant produces. -/
noncomputable def fsqrt (a : FReal) : FReal :=
  match a with
  | some x => if x < 0 then none else some (Real.sqrt x)
  | none => none

end StarFold.MMesh

namespace StarFold.CGA

open StarFold StarFold.Geom StarFold.MMesh

/-!
## The conformal representation algebra `R` (C2, C7)

The `R` algebra of src/geometric-algebra/conformal.ts: the Clifford
algebra over `x, y, z, p, m` with metric `+1, +1, +1, +1, -1` (source:
`euclidean(coordsB).concat([1, -1])`), bitmaps `x = 1, y = 2, z = 4,
p = 8, m = 16`.  Only the grades appearing in `splitPointPair` and
`reprToBase` are represented: 1-vectors, bivectors (conformal point
pairs) and trivectors.  Each product below is transcribed from the
`Algebra` class rules as in the `B` algebra above: a blade pair `(a, b)`
contributes `(-1)^productFlips(a,b) * metricFactors(a&b) * aVal * bVal`
to the blade `a XOR b`. -/

/-- A 1-vector of the representation space. -/
@[ext]
structure Vec5 where
  x : ℝ
  y : ℝ
  z : ℝ
  p : ℝ
  m : ℝ

/-- A bivector of the representation space, e.g. a conformal point pair. -/
@[ext]
structure Biv5 where
  xy : ℝ
  xz : ℝ
  yz : ℝ
  xp : ℝ
  yp : ℝ
  zp : ℝ
  xm : ℝ
  ym : ℝ
  zm : ℝ
  pm : ℝ

/-- A trivector of the representation space. -/
@[ext]
structure Tri5 where
  xyz : ℝ
  xyp : ℝ
  xym : ℝ
  xzp : ℝ
  xzm : ℝ
  yzp : ℝ
  yzm : ℝ
  xpm : ℝ
  ypm : ℝ
  zpm : ℝ

/-- A 1-vector part with possibly-NaN coordinates. -/
@[ext]
structure FVec5 where
  x : FReal
  y : FReal
  z : FReal
  p : FReal
  m : FReal

/-- `R.scalarProduct` on bivectors: the grade-0 coefficient of the
geometric product (`e_bm * e_bm = (-1)^productFlips(bm,bm) *
metricFactors(bm)`). -/
def spBB (a b : Biv5) : ℝ :=
  -a.xy * b.xy - a.xz * b.xz - a.yz * b.yz - a.xp * b.xp - a.yp * b.yp
    - a.zp * b.zp + a.xm * b.xm + a.ym * b.ym + a.zm * b.zm + a.pm * b.pm

/-- `R.contractLeft` of a 1-vector into a bivector. -/
def clVB (a : Vec5) (b : Biv5) : Vec5 :=
  ⟨-a.y * b.xy - a.z * b.xz - a.p * b.xp + a.m * b.xm,
   a.x * b.xy - a.z * b.yz - a.p * b.yp + a.m * b.ym,
   a.x * b.xz + a.y * b.yz - a.p * b.zp + a.m * b.zm,
   a.x * b.xp + a.y * b.yp + a.z * b.zp + a.m * b.pm,
   a.x * b.xm + a.y * b.ym + a.z * b.zm + a.p * b.pm⟩

/-- The grade-1 part of the geometric product of a bivector and a
1-vector. -/
def gpBV1 (a : Biv5) (b : Vec5) : Vec5 :=
  ⟨a.xy * b.y + a.xz * b.z + a.xp * b.p - a.xm * b.m,
   -a.xy * b.x + a.yz * b.z + a.yp * b.p - a.ym * b.m,
   -a.xz * b.x - a.yz * b.y + a.zp * b.p - a.zm * b.m,
   -a.xp * b.x - a.yp * b.y - a.zp * b.z - a.pm * b.m,
   -a.xm * b.x - a.ym * b.y - a.zm * b.z - a.pm * b.p⟩

/-- The grade-3 part of the geometric product of a bivector and a
1-vector. -/
def gpBV3 (a : Biv5) (b : Vec5) : Tri5 :=
  ⟨a.xy * b.z - a.xz * b.y + a.yz * b.x,
   a.xy * b.p - a.xp * b.y + a.yp * b.x,
   a.xy * b.m - a.xm * b.y + a.ym * b.x,
   a.xz * b.p - a.xp * b.z + a.zp * b.x,
   a.xz * b.m - a.xm * b.z + a.zm * b.x,
   a.yz * b.p - a.yp * b.z + a.zp * b.y,
   a.yz * b.m - a.ym * b.z + a.zm * b.y,
   a.xp * b.m - a.xm * b.p + a.pm * b.x,
   a.yp * b.m - a.ym * b.p + a.pm * b.y,
   a.zp * b.m - a.zm * b.p + a.pm * b.z⟩

/-- `R.normSquared` of a 1-vector: the metric square
`x^2 + y^2 + z^2 + p^2 - m^2`. -/
def nsqV5 (a : Vec5) : ℝ :=
  a.x * a.x + a.y * a.y + a.z * a.z + a.p * a.p - a.m * a.m

/-- `R.negate` of a 1-vector. -/
def negV5 (a : Vec5) : Vec5 := ⟨-a.x, -a.y, -a.z, -a.p, -a.m⟩

/-- `R.scale` of a 1-vector. -/
def scaleV5 (c : ℝ) (a : Vec5) : Vec5 :=
  ⟨c * a.x, c * a.y, c * a.z, c * a.p, c * a.m⟩

/-- `ei`, the point at infinity: `R.mv({m: 1, p: 1})`. -/
def ei5 : Vec5 := ⟨0, 0, 0, 1, 1⟩

/-- `R.inverse` of a 1-vector (its own reverse): division by the metric
square, failing on a null vector like the `Algebra` class. -/
noncomputable def invV5 (a : Vec5) : Except String Vec5 :=
  if nsqV5 a = 0 then .error (("trying to invert null vector"))
  else .ok (scaleV5 (1 / nsqV5 a) a)

/-- `R.geometricProduct(R.plus(pp, scalar), v)` for a possibly-NaN scalar
`s` (the discriminant root), a real point pair `pp` and a real 1-vector
`v`: the grade-1 part `s*v + <pp v>_1` (NaN-propagating) and the real
grade-3 part `<pp v>_3`. -/
def gpSBV (s : FReal) (a : Biv5) (b : Vec5) : FVec5 × Tri5 :=
  (⟨fadd (fmul s (some b.x)) (some ((gpBV1 a b).x)),
    fadd (fmul s (some b.y)) (some ((gpBV1 a b).y)),
    fadd (fmul s (some b.z)) (some ((gpBV1 a b).z)),
    fadd (fmul s (some b.p)) (some ((gpBV1 a b).p)),
    fadd (fmul s (some b.m)) (some ((gpBV1 a b).m))⟩,
   gpBV3 a b)

/-- `reprToBase` (src/geometric-algebra/conformal.ts 40-56) on a
grade-1-plus-grade-3 multivector: any grade-3 component of magnitude
above `1e-8` fails ("not a 1-vector"; `NaN` compares false and passes);
otherwise the `x, y, z` components are scaled by `1/(m - p)`. -/
noncomputable def reprToBase (w : FVec5) (t : Tri5) : Except String FVec3 :=
  if |t.xyz| > 1e-8 ∨ |t.xyp| > 1e-8 ∨ |t.xym| > 1e-8 ∨ |t.xzp| > 1e-8
      ∨ |t.xzm| > 1e-8 ∨ |t.yzp| > 1e-8 ∨ |t.yzm| > 1e-8 ∨ |t.xpm| > 1e-8
      ∨ |t.ypm| > 1e-8 ∨ |t.zpm| > 1e-8 then
    .error (("reprToBase: not a 1-vector"))
  else
    .ok ⟨fmul (fdiv (some 1) (fsubF w.m w.p)) w.x,
         fmul (fdiv (some 1) (fsubF w.m w.p)) w.y,
         fmul (fdiv (some 1) (fsubF w.m w.p)) w.z⟩

/-- `splitPointPair` (src/geometric-algebra/conformal.ts 82-96): the
discriminant `pp * pp`, clamped to `0` only in `(-1e-10, 0)` (a more
negative discriminant is merely logged and its square root is `NaN`);
the pair of products `(pp ± root) * (-ei ⌋ pp)^-1`, in the source's
order `[+1, -1]`. -/
noncomputable def splitPointPair (pp : Biv5) :
    Except String ((FVec5 × Tri5) × (FVec5 × Tri5)) := do
  let inv ← invV5 (clVB (negV5 ei5) pp)
  pure (gpSBV (fsqrt (some (if spBB pp pp < 0 ∧ (-1e-10 : ℝ) < spBB pp pp then 0
          else spBB pp pp))) pp inv,
        gpSBV (fneg (fsqrt (some (if spBB pp pp < 0 ∧ (-1e-10 : ℝ) < spBB pp pp then 0
          else spBB pp pp)))) pp inv)

end StarFold.CGA

namespace StarFold.MMesh

open StarFold StarFold.Geom StarFold.Kernel StarFold.CGA

/-- `intersect3Spheres` (src/geom-utils.ts 53-72), parameterized over
`ppOf`, the finite real computation building the conformal point pair
from the three `(center, surface point)` pairs (`makeSphere` of
`baseToRepr` points and the regressive product); `splitPointPair` and
both `reprToBase` conversions are embedded. -/
noncomputable def intersect3Spheres
    (ppOf : Vec3 → Vec3 → Vec3 → Vec3 → Vec3 → Vec3 → Biv5)
    (c1 p1 c2 p2 c3 p3 : Vec3) : Except String (FVec3 × FVec3) := do
  let (pr1, pr2) ← splitPointPair (ppOf c1 p1 c2 p2 c3 p3)
  let i1 ← reprToBase pr1.1 pr1.2
  let i2 ← reprToBase pr2.1 pr2.2
  pure (i1, i2)

/-- `projectPointToLine(p, q, r)` (src/geom-utils.ts 21-28): the foot of
the perpendicular from `p` onto the line through `q` and `r`. -/
noncomputable def projectPointToLine (p q r : Vec3) : Vec3 :=
  vadd q (vscale (vdot (vsub r q) (vsub p q) / vdot (vsub r q) (vsub r q)) (vsub r q))

/-- The boundary-adjacency validation of a `bend`/`bend2` argument
vertex: `v.loops().some(l => l === this.boundary)`. -/
def checkBd (s : MState) (v : Nat) : Except String Unit := do
  let ls ← vertexLoops s.mesh v
  match s.boundary with
  | some b =>
      if b ∈ ls then .ok ()
      else .error (("vertex is not adjacent to the boundary"))
  | none => .error (("vertex is not adjacent to the boundary"))

/-- `findUnique(q.halfEdgesOut(), he => he.loop === this.boundary)`. -/
def findUniqueOnBd (s : MState) (v : Nat) : Except String Nat := do
  let hes ← halfEdgesOut s.mesh v
  let found ← hes.filterM (fun h => do
      let r ← getHE s.mesh h
      pure (decide (some r.loop = s.boundary)))
  match found with
  | [h] => pure h
  | _ => .error (("findUnique: no unique matching half-edge"))

/-- The `s1`/`s2` search loop of `bend2` (src/index.tsx 705-710): walk
`he.next` from `he_q_boundary` until hitting `p` (then `s1 = p, s2 = r`)
or `r` (then `s1 = r, s2 = p`); more than 51 visited half-edges is a
runaway. -/
def s1s2Search (m : Mesh) (p r : Nat) : Nat → Nat → Except String (Nat × Nat)
  | 0, _ => .error (("runaway search loop"))
  | fuel + 1, he => do
      let rhe ← getHE m he
      if rhe.toV = p then pure (p, r)
      else if rhe.toV = r then pure (r, p)
      else s1s2Search m p r fuel rhe.next

end StarFold.MMesh

namespace StarFold.MMesh

open StarFold StarFold.Geom StarFold.Kernel StarFold.CGA

/-- `MyMesh.bend2` (src/index.tsx 668-756) over resolved vertex ids
`p q r` and `choice` (`true` for `"+"`), parameterized over `ppOf` (the
sphere construction feeding `splitPointPair`, a finite real computation)
and over `mergeK`, the merge phase of lines 742-755 (temporary
split/contract, `dropEdge`, peer-map deletions, tip renaming and the
conditional coplanar `dropEdge`), which runs only when the alignment
assertion passes: resolve the boundary half-edge pair at `q`, check
peer registration, determine `s1`/`s2`, split the two faces along
`q-s1` and `q-s2`, collect the two flaps, intersect the three spheres,
rotate both flaps onto the chosen intersection point, and assert that
the two tips now coincide within `1e-8`. -/
noncomputable def bend2 (mergeK : MState → Except String MState)
    (ppOf : Vec3 → Vec3 → Vec3 → Vec3 → Vec3 → Vec3 → Biv5)
    (choice : Bool) (p q r : Nat) (s : MState) : Except String MState := do
  let _ ← checkBd s p
  let _ ← checkBd s q
  let _ ← checkBd s r
  let heqb ← findUniqueOnBd s q
  let rqb ← getHE s.mesh heqb
  let hebq := rqb.prev
  let _ ← (if alGet s.peers hebq = some heqb then Except.ok ()
    else .error (("cannot attach non-peers")))
  let t1 := rqb.toV
  let t2 ← fromOf s.mesh hebq
  let (s1, s2) ← s1s2Search s.mesh p r 51 heqb
  let face1 ← findUniqueFace s s1 q
  let f1hes ← loopHalfEdges s.mesh face1
  let h1q ← findUniqueToV s.mesh f1hes q
  let h1s1 ← findUniqueToV s.mesh f1hes s1
  let (m1, heSp1, _) ← (match splitLoop s.mesh h1q h1s1 Create.left with
    | .ok r => .ok r
    | .error (e, _) => .error e)
  let rSp1 ← getHE m1 heSp1
  let qn1 ← getVName m1 q
  let s1n ← getVName m1 s1
  let s := { s with mesh :=
    { m1 with lname := alPut m1.lname rSp1.loop (splitName qn1 s1n) } }
  let face2 ← findUniqueFace s q s2
  let f2hes ← loopHalfEdges s.mesh face2
  let h2s2 ← findUniqueToV s.mesh f2hes s2
  let h2q ← findUniqueToV s.mesh f2hes q
  let (m2, heSp2, _) ← (match splitLoop s.mesh h2s2 h2q Create.left with
    | .ok r => .ok r
    | .error (e, _) => .error e)
  let rSp2 ← getHE m2 heSp2
  let qn2 ← getVName m2 q
  let s2n ← getVName m2 s2
  let s := { s with mesh :=
    { m2 with lname := alPut m2.lname rSp2.loop (splitName qn2 s2n) } }
  let beyond1 ← collectVertices s.mesh t1 [s1, q, s2]
  let beyond2 ← collectVertices s.mesh t2 [s1, q, s2]
  let _ ← (if beyond1.all (fun v => !(beyond2.contains v)) then Except.ok ()
    else .error (("assertion failed")))
  let ps1 ← posOf s s1
  let pt1 ← posOf s t1
  let pq ← posOf s q
  let ps2 ← posOf s s2
  let pt2 ← posOf s t2
  let (i1, i2) ← intersect3Spheres ppOf ps1 pt1 pq pt1 ps2 pt2
  let s ← rotatePoints s (projectPointToLine pt1 ps1 pq) pt1
    (if choice then i2 else i1) beyond1
  let pt2b ← posOf s t2
  let ps2b ← posOf s s2
  let pqb ← posOf s q
  let s ← rotatePoints s (projectPointToLine pt2b ps2b pqb) pt2b
    (if choice then i2 else i1) beyond2
  let p1f ← posOf s t1
  let p2f ← posOf s t2
  if distance p1f p2f < 1e-8 then mergeK s
  else .error (("assertion failed"))

end StarFold.MMesh

namespace StarFold.MMesh

open StarFold StarFold.Geom StarFold.Kernel StarFold.CGA

/-- A pentagon face `a -> t -> q -> u -> r` (vertex ids 0..4) inside
boundary loop 11: the configuration of a `bend2` at `q` with tips
`t1 = t (1)` and `t2 = u (3)` and flap anchors `p = a (0)`,
`r = r (4)`. -/
def pentaMesh : Mesh :=
  { hes := [(5, ⟨12, 9, 6, 1, 10, true⟩), (6, ⟨13, 5, 7, 2, 10, true⟩),
            (7, ⟨14, 6, 8, 3, 10, true⟩), (8, ⟨15, 7, 9, 4, 10, true⟩),
            (9, ⟨16, 8, 5, 0, 10, true⟩),
            (12, ⟨5, 13, 16, 0, 11, true⟩), (13, ⟨6, 14, 12, 1, 11, true⟩),
            (14, ⟨7, 15, 13, 2, 11, true⟩), (15, ⟨8, 16, 14, 3, 11, true⟩),
            (16, ⟨9, 12, 15, 4, 11, true⟩)]
    vertices := [0, 1, 2, 3, 4]
    loops := [10, 11]
    vname := [(0, [('a')]), (1, [('t')]), (2, [('q')]), (3, [('u')]), (4, [('r')])]
    lname := [(10, [('F')]), (11, [('B')])]
    vfirst := [(0, 5), (1, 6), (2, 7), (3, 8), (4, 9)]
    lfirst := [(10, 5), (11, 12)]
    nextId := 17 }

/-- Positions: `q` at the origin, the anchors `a`, `r` on the x-axis and
the tips above it. -/
noncomputable def c7pos : List (Nat × Vec3) :=
  [(0, ⟨-3, 0, 0⟩), (1, ⟨-1, 1, 0⟩), (2, ⟨0, 0, 0⟩),
   (3, ⟨-(7 / 4), 1, 0⟩), (4, ⟨3, 0, 0⟩)]

/-- The `bend2` state on the pentagon: both boundary half-edges at `q`
registered as peers of each other. -/
noncomputable def c7state : MState := ⟨pentaMesh, c7pos, [(14, 13), (13, 14)], some 11⟩

end StarFold.MMesh

namespace StarFold.MMesh

open StarFold StarFold.Geom StarFold.Kernel StarFold.CGA

/-- The geometry tail of `bend2` (src/index.tsx 730-756): sphere
intersection, the two flap rotations, the alignment assertion, and the
merge phase `mergeK`. -/
noncomputable def bend2Tail (mergeK : MState → Except String MState)
    (ppOf : Vec3 → Vec3 → Vec3 → Vec3 → Vec3 → Vec3 → Biv5)
    (choice : Bool) (q t1 t2 s1V s2V : Nat)
    (beyond1 beyond2 : List Nat) (ps1 pt1 pq ps2 pt2 : Vec3)
    (sB : MState) : Except String MState := do
  let (i1, i2) ← intersect3Spheres ppOf ps1 pt1 pq pt1 ps2 pt2
  let s ← rotatePoints sB (projectPointToLine pt1 ps1 pq) pt1
    (if choice then i2 else i1) beyond1
  let pt2b ← posOf s t2
  let ps2b ← posOf s s2V
  let pqb ← posOf s q
  let s ← rotatePoints s (projectPointToLine pt2b ps2b pqb) pt2b
    (if choice then i2 else i1) beyond2
  let p1f ← posOf s t1
  let p2f ← posOf s t2
  if distance p1f p2f < 1e-8 then mergeK s
  else .error (("assertion failed"))

end StarFold.MMesh

namespace StarFold.MMesh

open StarFold StarFold.Geom StarFold.Kernel StarFold.CGA

/-- The pentagon after the first `bend2` split (diagonal `q-a`,
half-edges 18/19, new loop 17). -/
def c7m1 : Mesh :=
  { hes := [(5, ⟨12, 18, 6, 1, 17, true⟩), (6, ⟨13, 5, 18, 2, 17, true⟩),
            (7, ⟨14, 19, 8, 3, 10, true⟩), (8, ⟨15, 7, 9, 4, 10, true⟩),
            (9, ⟨16, 8, 19, 0, 10, true⟩),
            (12, ⟨5, 13, 16, 0, 11, true⟩), (13, ⟨6, 14, 12, 1, 11, true⟩),
            (14, ⟨7, 15, 13, 2, 11, true⟩), (15, ⟨8, 16, 14, 3, 11, true⟩),
            (16, ⟨9, 12, 15, 4, 11, true⟩),
            (18, ⟨19, 6, 5, 0, 17, true⟩), (19, ⟨18, 9, 7, 2, 10, true⟩)]
    vertices := [0, 1, 2, 3, 4]
    loops := [10, 11, 17]
    vname := [(0, [('a')]), (1, [('t')]), (2, [('q')]), (3, [('u')]), (4, [('r')])]
    lname := [(10, [('F')]), (11, [('B')]), (17, [('F'), ('.'), ('0')])]
    vfirst := [(0, 19), (1, 6), (2, 18), (3, 8), (4, 9)]
    lfirst := [(10, 19), (11, 12), (17, 18)]
    nextId := 20 }

/-- The state after the first split and loop rename. -/
noncomputable def c7sA : MState :=
  { c7state with mesh :=
      { c7m1 with lname := alPut c7m1.lname 17 (splitName [('q')] [('a')]) } }

/-- The pentagon after the second split (diagonal `q-r`, half-edges
21/22, new loop 20). -/
def c7m2 : Mesh :=
  { hes := [(5, ⟨12, 18, 6, 1, 17, true⟩), (6, ⟨13, 5, 18, 2, 17, true⟩),
            (7, ⟨14, 21, 8, 3, 20, true⟩), (8, ⟨15, 7, 21, 4, 20, true⟩),
            (9, ⟨16, 22, 19, 0, 10, true⟩),
            (12, ⟨5, 13, 16, 0, 11, true⟩), (13, ⟨6, 14, 12, 1, 11, true⟩),
            (14, ⟨7, 15, 13, 2, 11, true⟩), (15, ⟨8, 16, 14, 3, 11, true⟩),
            (16, ⟨9, 12, 15, 4, 11, true⟩),
            (18, ⟨19, 6, 5, 0, 17, true⟩), (19, ⟨18, 9, 22, 2, 10, true⟩),
            (21, ⟨22, 8, 7, 2, 20, true⟩), (22, ⟨21, 19, 9, 4, 10, true⟩)]
    vertices := [0, 1, 2, 3, 4]
    loops := [10, 11, 17, 20]
    vname := [(0, [('a')]), (1, [('t')]), (2, [('q')]), (3, [('u')]), (4, [('r')])]
    lname := [(10, [('F')]), (11, [('B')]), (17, splitName [('q')] [('a')]),
              (20, [('F'), ('.'), ('0')])]
    vfirst := [(0, 19), (1, 6), (2, 22), (3, 8), (4, 21)]
    lfirst := [(10, 22), (11, 12), (17, 18), (20, 21)]
    nextId := 23 }

/-- The state after both splits and renames. -/
noncomputable def c7sB : MState :=
  { c7state with mesh :=
      { c7m2 with lname := alPut c7m2.lname 20 (splitName [('q')] [('r')]) } }

/-- A constant point-pair computation with discriminant `-5`: spheres
with no common point. -/
def ppOfC2 : Vec3 → Vec3 → Vec3 → Vec3 → Vec3 → Vec3 → Biv5 :=
  fun _ _ _ _ _ _ => ⟨2, 0, 0, 1, 0, 0, 0, 0, 0, 0⟩

end StarFold.MMesh

namespace StarFold.CGA

open StarFold StarFold.Geom StarFold.MMesh

/-- The conformal point pair of the base points `(0,0,0)` and
`(-1, -7/25, 24/25)` (wedge of their `baseToRepr` embeddings): a
concrete point pair with discriminant `1`. -/
noncomputable def ppC7 : Biv5 :=
  ⟨0, 0, 0, 1 / 2, 7 / 50, -(12 / 25), -(1 / 2), -(7 / 50), 12 / 25, 1⟩

end StarFold.CGA

namespace StarFold.MMesh

open StarFold StarFold.Geom StarFold.Kernel StarFold.CGA

/-- The constant point-pair computation used by the C7 witness. -/
noncomputable def ppOfC7 : Vec3 → Vec3 → Vec3 → Vec3 → Vec3 → Vec3 → Biv5 :=
  fun _ _ _ _ _ _ => ppC7

end StarFold.MMesh

namespace StarFold.MMesh

open StarFold StarFold.Geom StarFold.Kernel StarFold.CGA StarFold.GA

/-- The (irrational) middle direction of the second witness rotation. -/
noncomputable def c7dirMidB : Vec3 :=
  vscale (1 / Real.sqrt |normSq (vadd (⟨3 / 5, -(28 / 125), 96 / 125⟩ : Vec3) ⟨0, 1, 0⟩)|)
    (vadd (⟨3 / 5, -(28 / 125), 96 / 125⟩ : Vec3) ⟨0, 1, 0⟩)

end StarFold.MMesh

/-!
# Theorems

All definitions above, all lemmas and theorems below.
-/

namespace StarFold

lemma alGet_alSet {α : Type} (l : List (Nat × α)) (k j : Nat) (v : α) :
    StarFold.alGet (StarFold.alSet l k v) j =
      if j = k then (StarFold.alGet l k).map (fun _ => v) else StarFold.alGet l j := by
  induction l with
  | nil => simp only [StarFold.alGet, StarFold.alSet]; split <;> rfl
  | cons p rest ih =>
      simp only [StarFold.alGet, StarFold.alSet]
      by_cases hpk : p.fst = k <;> by_cases hjk : j = k
      · subst hjk
        simp [hpk, ih]
      · simp only [if_pos hpk, StarFold.alGet]
        have : ((k, v).fst = j) = False := by
          simp only [eq_iff_iff, iff_false]
          exact fun h => hjk (h.symm)
        simp only [this, if_false, ih, if_neg hjk]
        rw [if_neg (fun h : p.fst = j => hjk (hpk ▸ h ▸ rfl))]
      · subst hjk
        simp [hpk, ih]
      · simp only [if_neg hpk, StarFold.alGet, ih, if_neg hjk]

lemma alHas_alSet {α : Type} (l : List (Nat × α)) (k j : Nat) (v : α) :
    StarFold.alHas (StarFold.alSet l k v) j = StarFold.alHas l j := by
  unfold StarFold.alHas
  rw [StarFold.alGet_alSet]
  by_cases hjk : j = k
  · subst hjk
    rw [if_pos rfl]
    cases StarFold.alGet l j <;> rfl
  · rw [if_neg hjk]

/-- Decidable equality of `Except` results, for concrete evaluations. -/
instance {ε α : Type} [DecidableEq ε] [DecidableEq α] : DecidableEq (Except ε α)
  | .ok a, .ok b =>
      if h : a = b then .isTrue (by rw [h]) else .isFalse (by intro hc; cases hc; exact h rfl)
  | .ok _, .error _ => .isFalse (by intro hc; cases hc)
  | .error _, .ok _ => .isFalse (by intro hc; cases hc)
  | .error e, .error f =>
      if h : e = f then .isTrue (by rw [h]) else .isFalse (by intro hc; cases hc; exact h rfl)

end StarFold

namespace StarFold.Names

lemma endsWith_iff (s t : List Char) :
    endsWith s t = true ↔ ∃ u, s = u ++ t := by
  unfold endsWith
  rw [Bool.and_eq_true, decide_eq_true_iff, beq_iff_eq]
  constructor
  · rintro ⟨hle, hdrop⟩
    refine ⟨s.take (s.length - t.length), ?_⟩
    conv_lhs => rw [← List.take_append_drop (s.length - t.length) s]
    rw [hdrop]
  · rintro ⟨u, rfl⟩
    constructor
    · simp
    · simp

lemma slice02_append (u t : List Char) (ht : t.length = 2) :
    slice02 (u ++ t) = u := by
  unfold slice02
  simp [ht]

/-- C9.  The merged name produced when two vertices are merged equals the
common base name exactly when the two names are distinct, both end in `.0`
or `.1`, and share the same base before that suffix; in every other case
the merged name is the bracketed combination `[a|b]`. -/
theorem C9_mergeNames_spec (a b : List Char) :
    (∀ base sa sb, (sa = suffix0 ∨ sa = suffix1) → (sb = suffix0 ∨ sb = suffix1) →
      a = base ++ sa → b = base ++ sb → a ≠ b → mergeNames a b = base) ∧
    ((¬ ∃ base sa sb, (sa = suffix0 ∨ sa = suffix1) ∧ (sb = suffix0 ∨ sb = suffix1) ∧
      a = base ++ sa ∧ b = base ++ sb ∧ a ≠ b) → mergeNames a b = bracketed a b) := by
  constructor
  · rintro base sa sb hsa hsb rfl rfl hne
    have hlen_a : sa.length = 2 := by rcases hsa with rfl | rfl <;> rfl
    have hlen_b : sb.length = 2 := by rcases hsb with rfl | rfl <;> rfl
    have hea : (endsWith (base ++ sa) suffix0 || endsWith (base ++ sa) suffix1) = true := by
      rcases hsa with rfl | rfl
      · have h := (endsWith_iff (base ++ suffix0) suffix0).mpr ⟨base, rfl⟩
        simp [h]
      · have h := (endsWith_iff (base ++ suffix1) suffix1).mpr ⟨base, rfl⟩
        simp [h]
    have heb : (endsWith (base ++ sb) suffix0 || endsWith (base ++ sb) suffix1) = true := by
      rcases hsb with rfl | rfl
      · have h := (endsWith_iff (base ++ suffix0) suffix0).mpr ⟨base, rfl⟩
        simp [h]
      · have h := (endsWith_iff (base ++ suffix1) suffix1).mpr ⟨base, rfl⟩
        simp [h]
    have hsl : slice02 (base ++ sa) = base := slice02_append base sa hlen_a
    have hsl2 : slice02 (base ++ sb) = base := slice02_append base sb hlen_b
    unfold mergeNames
    rw [if_pos]
    · exact hsl
    · simp [hea, heb, hsl, hsl2, hne]
  · intro hnot
    unfold mergeNames
    rw [if_neg]
    intro hcond
    simp only [Bool.and_eq_true, Bool.or_eq_true, beq_iff_eq, bne_iff_ne] at hcond
    obtain ⟨⟨⟨hends_a, hends_b⟩, hsl⟩, hne⟩ := hcond
    have hdecomp_a : ∃ sa, (sa = suffix0 ∨ sa = suffix1) ∧ a = slice02 a ++ sa := by
      rcases hends_a with h | h
      · obtain ⟨u, rfl⟩ := (endsWith_iff _ _).mp h
        exact ⟨suffix0, Or.inl rfl, by rw [slice02_append u suffix0 rfl]⟩
      · obtain ⟨u, rfl⟩ := (endsWith_iff _ _).mp h
        exact ⟨suffix1, Or.inr rfl, by rw [slice02_append u suffix1 rfl]⟩
    have hdecomp_b : ∃ sb, (sb = suffix0 ∨ sb = suffix1) ∧ b = slice02 b ++ sb := by
      rcases hends_b with h | h
      · obtain ⟨u, rfl⟩ := (endsWith_iff _ _).mp h
        exact ⟨suffix0, Or.inl rfl, by rw [slice02_append u suffix0 rfl]⟩
      · obtain ⟨u, rfl⟩ := (endsWith_iff _ _).mp h
        exact ⟨suffix1, Or.inr rfl, by rw [slice02_append u suffix1 rfl]⟩
    obtain ⟨sa, hsa, ha⟩ := hdecomp_a
    obtain ⟨sb, hsb, hb⟩ := hdecomp_b
    exact hnot ⟨slice02 a, sa, sb, hsa, hsb, ha, by rw [hsl]; exact hb, hne⟩

/-- Witness for C9 at concrete inputs: `x.0` and `x.1` merge to `x`. -/
theorem C9_mergeNames_witness :
    mergeNames [('x'), ('.'), ('0')] [('x'), ('.'), ('1')] = [('x')] :=
  (C9_mergeNames_spec [('x'), ('.'), ('0')] [('x'), ('.'), ('1')]).1
    [('x')] suffix0 suffix1 (Or.inl rfl) (Or.inr rfl) rfl rfl (by decide)

end StarFold.Names

namespace StarFold.Geom

lemma normSq_nonneg (a : Vec3) : 0 ≤ normSq a := by
  unfold normSq; positivity

lemma vnorm_nonneg (a : Vec3) : 0 ≤ vnorm a := Real.sqrt_nonneg _

lemma vnorm_eq_zero_iff (a : Vec3) : vnorm a = 0 ↔ a.x = 0 ∧ a.y = 0 ∧ a.z = 0 := by
  unfold vnorm
  rw [Real.sqrt_eq_zero (normSq_nonneg a)]
  unfold normSq
  constructor
  · intro h
    refine ⟨?_, ?_, ?_⟩ <;> nlinarith [sq_nonneg a.x, sq_nonneg a.y, sq_nonneg a.z]
  · rintro ⟨hx, hy, hz⟩
    rw [hx, hy, hz]; ring

lemma vnorm_vscale (c : ℝ) (a : Vec3) : vnorm (vscale c a) = |c| * vnorm a := by
  unfold vnorm vscale normSq
  rw [show (c * a.x) ^ 2 + (c * a.y) ^ 2 + (c * a.z) ^ 2
      = c ^ 2 * (a.x ^ 2 + a.y ^ 2 + a.z ^ 2) by ring]
  rw [Real.sqrt_mul (sq_nonneg c), Real.sqrt_sq_eq_abs]

end StarFold.Geom

namespace StarFold.Relax

open StarFold.Geom

/-- C10.  The relaxation target function is total and never divides by
zero: its divisor is always nonzero; for `len = 0` the result is `vb`'s
position; for coinciding `va`, `vb` the guarded division makes the result
`vb`'s position; otherwise the result is `vb`'s position plus the vector
toward `va` scaled to length `len` (distance from `vb` is `|len|`, and
`len` is a non-negative distance at every call site). -/
theorem C10_target_spec (pa pb : Vec3) (len : ℝ) :
    ((if vnorm (vsub pa pb) = 0 then (1 : ℝ) else vnorm (vsub pa pb)) ≠ 0) ∧
    (len = 0 → target pa pb len = pb) ∧
    (vsub pa pb = ⟨0, 0, 0⟩ → target pa pb len = pb) ∧
    (vsub pa pb ≠ ⟨0, 0, 0⟩ → len ≠ 0 →
      target pa pb len
        = vadd pb (vscale (len / vnorm (vsub pa pb)) (vsub pa pb)) ∧
      vnorm (vsub (target pa pb len) pb) = |len|) := by
  classical
  have hzero_iff : vnorm (vsub pa pb) = 0 ↔ vsub pa pb = ⟨0, 0, 0⟩ := by
    rw [vnorm_eq_zero_iff]
    constructor
    · rintro ⟨hx, hy, hz⟩
      cases h : vsub pa pb
      cases h ▸ hx; cases h ▸ hy; cases h ▸ hz
      rfl
    · intro h; rw [h]; exact ⟨rfl, rfl, rfl⟩
  refine ⟨?_, ?_, ?_, ?_⟩
  · by_cases h : vnorm (vsub pa pb) = 0
    · simp [h]
    · simp [h]
  · intro h; unfold target; rw [if_pos h]
  · intro h
    unfold target
    by_cases hlen : len = 0
    · rw [if_pos hlen]
    · rw [if_neg hlen]
      have hn : vnorm (vsub pa pb) = 0 := hzero_iff.mpr h
      simp only [hn, if_pos]
      rw [h]
      show vadd pb (vscale (len / 1) ⟨0, 0, 0⟩) = pb
      unfold vadd vscale
      simp
  · intro hne hlen
    have hn : vnorm (vsub pa pb) ≠ 0 := fun h => hne (hzero_iff.mp h)
    have hpos : 0 < vnorm (vsub pa pb) :=
      lt_of_le_of_ne (vnorm_nonneg _) (Ne.symm hn)
    have heq : target pa pb len
        = vadd pb (vscale (len / vnorm (vsub pa pb)) (vsub pa pb)) := by
      unfold target
      rw [if_neg hlen]
      simp only [if_neg hn]
    refine ⟨heq, ?_⟩
    rw [heq]
    have hsub : vsub (vadd pb (vscale (len / vnorm (vsub pa pb)) (vsub pa pb))) pb
        = vscale (len / vnorm (vsub pa pb)) (vsub pa pb) := by
      unfold vadd vsub vscale
      simp
    rw [hsub, vnorm_vscale, abs_div, abs_of_pos hpos, div_mul_cancel₀]
    exact hn

/-- Witness for C10 at concrete positions `(3, 4, 0)` and `(0, 0, 0)` with
target length `10`: the result is `(6, 8, 0)`, at distance `10 = |10|`. -/
theorem C10_target_witness :
    target ⟨3, 4, 0⟩ ⟨0, 0, 0⟩ 10
      = vadd ⟨0, 0, 0⟩ (vscale (10 / vnorm (vsub ⟨3, 4, 0⟩ ⟨0, 0, 0⟩))
          (vsub ⟨3, 4, 0⟩ ⟨0, 0, 0⟩)) ∧
    vnorm (vsub (target ⟨3, 4, 0⟩ ⟨0, 0, 0⟩ 10) ⟨0, 0, 0⟩) = |(10 : ℝ)| := by
  have h := (C10_target_spec ⟨3, 4, 0⟩ ⟨0, 0, 0⟩ 10).2.2.2
    (by intro hc; injection hc with h1 _; exact absurd h1 (by norm_num))
    (by norm_num)
  exact h

end StarFold.Relax

namespace StarFold.Driver

open StarFold.Kernel

lemma liftE_ok {α : Type} {m : Mesh} {r : Except String α} {v : α}
    (h : liftE m r = .ok v) : r = .ok v := by
  cases r with
  | ok w => cases h; rfl
  | error e => cases h

/-- C1.  For every sequence of driver steps over the four operations
(whatever the dynamically dispatched operations and the additional data
checks do), if every step succeeds then the kernel DCEL invariants —
`Mesh.check`, i.e. for every reachable live half-edge
`he.twin.twin = he`, `he.prev.next = he`, `he.next.prev = he`, a live
target vertex and a live loop, plus unique vertex and loop names — hold
for the state collected after every step: the driver re-runs the check
after each operation and a failed check aborts the run. -/
theorem C1_driver_check_after_every_step
    (exec : String → List String → Mesh → Except (String × Mesh) Mesh)
    (restCheck : Mesh → Except String Unit)
    (lines : List (String × List String)) (m0 : Mesh) (states : List Mesh)
    (hrun : runPhases exec restCheck lines m0 = .ok states) :
    ∀ s ∈ states, check s = .ok () := by
  induction lines generalizing m0 states with
  | nil =>
      simp only [runPhases] at hrun
      cases hrun
      intro s hs
      cases hs
  | cons line rest ih =>
      simp only [runPhases] at hrun
      cases hstep : runStep exec restCheck line m0 with
      | error e => rw [hstep] at hrun; cases hrun
      | ok m' =>
          rw [hstep] at hrun
          simp only [bind, Except.bind] at hrun
          cases hrest : runPhases exec restCheck rest m' with
          | error e => rw [hrest] at hrun; cases hrun
          | ok ms =>
              rw [hrest] at hrun
              simp only [pure, Except.pure] at hrun
              cases hrun
              intro s hs
              rcases List.mem_cons.mp hs with rfl | hmem
              · unfold runStep at hstep
                by_cases hknown : cmdNames.contains line.fst
                · simp only [hknown, Bool.not_true, Bool.false_eq_true,
                    if_false] at hstep
                  cases hexec : exec line.fst line.snd m0 with
                  | error e =>
                      rw [hexec] at hstep
                      simp only [bind, Except.bind] at hstep
                      cases hstep
                  | ok mx =>
                      rw [hexec] at hstep
                      simp only [bind, Except.bind] at hstep
                      cases hchk : liftE mx (check mx) with
                      | error e => rw [hchk] at hstep; cases hstep
                      | ok u =>
                          rw [hchk] at hstep
                          simp only [bind, Except.bind] at hstep
                          cases hrc : liftE mx (restCheck mx) with
                          | error e => rw [hrc] at hstep; cases hstep
                          | ok u2 =>
                              rw [hrc] at hstep
                              simp only [pure, Except.pure] at hstep
                              cases hstep
                              have hco := liftE_ok hchk
                              cases u
                              exact hco
                · simp only [hknown, Bool.not_false, if_true] at hstep
                  cases hstep
              · exact ih m' ms hrest s hmem

/-- Witness for C1 at a concrete run: one known command executed by an
operation that keeps the consistent two-vertex mesh; the run succeeds and
the collected state passes the kernel check. -/
theorem C1_driver_witness : check edgePairMesh = .ok () :=
  C1_driver_check_after_every_step
    (fun _ _ m => .ok m) (fun _ => .ok ())
    [(("bend"), [])] edgePairMesh [edgePairMesh]
    (by rfl) edgePairMesh (List.mem_singleton.mpr rfl)

end StarFold.Driver

namespace StarFold.Kernel

open StarFold

lemma getHE_eq {m : Mesh} {h : Nat} {r : HE} (hr : alGet m.hes h = some r) :
    getHE m h = .ok r := by
  unfold getHE; rw [hr]

lemma alHas_of_alGet {α : Type} {l : List (Nat × α)} {k : Nat} {v : α}
    (h : alGet l k = some v) : alHas l k = true := by
  unfold alHas; rw [h]; rfl

lemma alGet_of_alHas {α : Type} {l : List (Nat × α)} {k : Nat}
    (h : alHas l k = true) : ∃ v, alGet l k = some v := by
  unfold alHas at h
  cases hg : alGet l k with
  | none => rw [hg] at h; cases h
  | some v => exact ⟨v, rfl⟩

lemma chain2_spec (m : Mesh) (a b : Nat) (ra rb ra2 : HE)
    (ha : alGet m.hes a = some ra) (hb : alGet m.hes b = some rb)
    (hra2 : ra2 = (if a = b then ({ rb with prev := a } : HE) else ra)) :
    chain2 m a b =
      .ok ({ m with hes := alSet (alSet m.hes b ({ rb with prev := a })) a ({ ra2 with next := b }) }) := by
  have hgb : getHE m b = .ok rb := getHE_eq hb
  have hget2 : alGet (alSet m.hes b { rb with prev := a }) a = some ra2 := by
    rw [alGet_alSet, hra2]
    by_cases hab : a = b
    · rw [if_pos hab, if_pos hab, hab, hb]; rfl
    · rw [if_neg hab, if_neg hab, ha]
  unfold chain2
  rw [hgb]
  simp only [liftE, bind, Except.bind]
  rw [getHE_eq (m := { m with hes := alSet m.hes b { rb with prev := a } }) hget2]
  rfl

lemma chain2_hes_get (m : Mesh) (a b : Nat) (ra rb ra2 : HE)
    (ha : alGet m.hes a = some ra) (hb : alGet m.hes b = some rb)
    (hra2 : ra2 = (if a = b then ({ rb with prev := a } : HE) else ra)) (j : Nat) :
    alGet (alSet (alSet m.hes b ({ rb with prev := a })) a ({ ra2 with next := b })) j
      = (if j = a then some ({ ra2 with next := b })
        else if j = b then some ({ rb with prev := a })
        else alGet m.hes j) := by
  have hinner : ∀ j2, alGet (alSet m.hes b ({ rb with prev := a })) j2 =
      if j2 = b then some ({ rb with prev := a } : HE) else alGet m.hes j2 := by
    intro j2
    rw [alGet_alSet]
    by_cases hj2 : j2 = b
    · rw [if_pos hj2, if_pos hj2]
      subst hj2
      rw [hb]
      rfl
    · rw [if_neg hj2, if_neg hj2]
  rw [alGet_alSet]
  by_cases hja : j = a
  · rw [if_pos hja, if_pos hja]
    subst hja
    rw [hinner]
    by_cases hab : j = b
    · rw [if_pos hab]
      rfl
    · rw [if_neg hab, ha]
      rfl
  · rw [if_neg hja, if_neg hja, hinner]

lemma setToAll_spec (arc : List Nat) (m : Mesh) (v : Nat)
    (hall : ∀ id ∈ arc, alHas m.hes id = true) :
    ∃ m', setToAll m arc v = .ok m' ∧
      m'.vertices = m.vertices ∧ m'.loops = m.loops ∧ m'.vname = m.vname ∧
      m'.lname = m.lname ∧ m'.vfirst = m.vfirst ∧ m'.lfirst = m.lfirst ∧
      m'.nextId = m.nextId ∧
      ∀ j, alGet m'.hes j =
        if j ∈ arc then (alGet m.hes j).map (fun r => { r with toV := v })
        else alGet m.hes j := by
  induction arc generalizing m with
  | nil =>
      refine ⟨m, rfl, rfl, rfl, rfl, rfl, rfl, rfl, rfl, fun j => ?_⟩
      simp
  | cons id rest ih =>
      obtain ⟨r, hr⟩ := alGet_of_alHas (hall id (List.mem_cons_self id rest))
      set m2 : Mesh := { m with hes := alSet m.hes id { r with toV := v } } with hm2
      have hall2 : ∀ j ∈ rest, alHas m2.hes j = true := by
        intro j hj
        show alHas (alSet m.hes id { r with toV := v }) j = true
        rw [alHas_alSet]
        exact hall j (List.mem_cons_of_mem id hj)
      obtain ⟨m', hrun, hv, hl, hvn, hln, hvf, hlf, hni, hget⟩ := ih m2 hall2
      refine ⟨m', ?_, hv, hl, hvn, hln, hvf, hlf, hni, ?_⟩
      · show setToAll m (id :: rest) v = .ok m'
        unfold setToAll
        simp only [List.foldlM_cons]
        rw [getHE_eq hr]
        simp only [liftE, bind, Except.bind]
        exact hrun
      · intro j
        rw [hget j]
        have hm2get : alGet m2.hes j =
            if j = id then some { r with toV := v } else alGet m.hes j := by
          show alGet (alSet m.hes id { r with toV := v }) j = _
          rw [alGet_alSet]
          by_cases hji : j = id
          · rw [if_pos hji, if_pos hji]
            subst hji
            rw [hr]
            rfl
          · rw [if_neg hji, if_neg hji]
        by_cases hjrest : j ∈ rest
        · rw [if_pos hjrest, if_pos (List.mem_cons_of_mem id hjrest)]
          rw [hm2get]
          by_cases hji : j = id
          · rw [if_pos hji]
            subst hji
            rw [hr]
            rfl
          · rw [if_neg hji]
        · rw [if_neg hjrest, hm2get]
          by_cases hji : j = id
          · rw [if_pos hji, if_pos (by rw [hji]; exact List.mem_cons_self id rest)]
            subst hji
            rw [hr]
            rfl
          · rw [if_neg hji, if_neg (by
              intro hc
              rcases List.mem_cons.mp hc with h | h
              · exact hji h
              · exact hjrest h)]

end StarFold.Kernel

namespace StarFold.Kernel

open StarFold

lemma liftE_ok_of {α : Type} {m : Mesh} {r : Except String α} {v : α}
    (h : r = .ok v) : liftE m r = .ok v := by
  rw [h]; rfl

lemma contractEdge_selfLoop (m : Mesh) (he : Nat) (r rt : HE)
    (hr : alGet m.hes he = some r) (halive : r.alive = true)
    (hrt : alGet m.hes r.twin = some rt) (htalive : rt.alive = true)
    (hself : r.toV = rt.toV) :
    contractEdge m he =
      .error (("cannot contract an edge starting and ending at the same vertex"), m) := by
  unfold contractEdge
  rw [liftE_ok_of (getHE_eq hr)]
  simp only [bind, Except.bind, halive, Bool.not_true, Bool.false_eq_true, if_false]
  rw [liftE_ok_of (getHE_eq hrt)]
  simp only [bind, Except.bind, htalive, Bool.not_true, Bool.false_eq_true, if_false]
  rw [if_pos hself]
  rfl

lemma contractEdge_loneEdge (m : Mesh) (he : Nat) (r rt : HE)
    (hr : alGet m.hes he = some r) (halive : r.alive = true)
    (hrt : alGet m.hes r.twin = some rt) (htalive : rt.alive = true)
    (hne : r.toV ≠ rt.toV) (hn : r.twin = r.next) (hp : r.twin = r.prev) :
    (contractEdge m he).isOk = false := by
  unfold contractEdge
  rw [liftE_ok_of (getHE_eq hr)]
  simp only [bind, Except.bind, halive, Bool.not_true, Bool.false_eq_true, if_false]
  rw [liftE_ok_of (getHE_eq hrt)]
  simp only [bind, Except.bind, htalive, Bool.not_true, Bool.false_eq_true, if_false]
  rw [if_neg hne]
  cases hinb : halfEdgesIn m r.toV with
  | error e => rfl
  | ok inbound =>
      simp only [liftE, bind, Except.bind]
      cases hset : setToAll m inbound rt.toV with
      | error e => rfl
      | ok m1 =>
          simp only [pure, Except.pure]
          rw [if_pos hn, if_pos hp]
          rfl

end StarFold.Kernel

namespace StarFold.Kernel

open StarFold

lemma chainHEs_single (m : Mesh) (a b : Nat) : chainHEs m a [b] = chain2 m a b := by
  unfold chainHEs
  simp only [List.foldlM_cons, List.foldlM_nil, bind, Except.bind]
  cases chain2 m a b <;> rfl

lemma alHas_map_some {α : Type} {l : List (Nat × α)} {j : Nat} {f : α → α} :
    (StarFold.alGet l j).map f = none ↔ StarFold.alGet l j = none := by
  cases StarFold.alGet l j <;> simp

end StarFold.Kernel

namespace StarFold.Kernel

open StarFold

lemma contractEdge_generic (m : Mesh) (he : Nat) (r rt : HE) (inbound : List Nat)
    (hr : alGet m.hes he = some r) (halive : r.alive = true)
    (hrt : alGet m.hes r.twin = some rt) (htalive : rt.alive = true)
    (hne : r.toV ≠ rt.toV)
    (hinb : halfEdgesIn m r.toV = .ok inbound)
    (hinbhas : ∀ j ∈ inbound, alHas m.hes j = true)
    (hcov : ∀ j rec, alGet m.hes j = some rec → rec.toV = r.toV → j ∈ inbound)
    (hhasp : alHas m.hes r.prev = true) (hhasn : alHas m.hes r.next = true)
    (hhastp : alHas m.hes rt.prev = true) (hhastn : alHas m.hes rt.next = true)
    (hn : r.twin ≠ r.next) (hp : r.twin ≠ r.prev)
    (hd1 : r.prev ≠ rt.prev) (hd2 : r.next ≠ rt.next) :
    ∃ m', contractEdge m he = .ok (m', rt.toV) ∧
      m'.vertices = m.vertices.erase r.toV ∧
      m'.loops = m.loops ∧
      (∀ j rec', alGet m'.hes j = some rec' → rec'.alive = true → rec'.toV ≠ r.toV) ∧
      (∀ j ∈ inbound, ∃ rec', alGet m'.hes j = some rec' ∧ rec'.toV = rt.toV) ∧
      (∃ rh, alGet m'.hes he = some rh ∧ rh.alive = false) ∧
      (∃ rw, alGet m'.hes r.twin = some rw ∧ rw.alive = false) ∧
      (∃ rp, alGet m'.hes r.prev = some rp ∧ rp.next = r.next) ∧
      (∃ rn, alGet m'.hes r.next = some rn ∧ rn.prev = r.prev) ∧
      (∃ rp2, alGet m'.hes rt.prev = some rp2 ∧ rp2.next = rt.next) ∧
      (∃ rn2, alGet m'.hes rt.next = some rn2 ∧ rn2.prev = rt.prev) := by
  have htwne : r.twin ≠ he := by
    intro h
    rw [h, hr] at hrt
    cases hrt
    exact hne rfl
  -- stage 1: re-target the inbound half-edges
  obtain ⟨m1, hm1run, hm1v, hm1l, hm1vn, hm1ln, hm1vf, hm1lf, hm1ni, Hm1⟩ :=
    setToAll_spec inbound m rt.toV hinbhas
  have hpres1 : ∀ j, alHas m1.hes j = alHas m.hes j := by
    intro j
    unfold alHas
    rw [Hm1 j]
    by_cases hj : j ∈ inbound
    · rw [if_pos hj]; cases alGet m.hes j <;> rfl
    · rw [if_neg hj]
  have htoV1 : ∀ j rec, alGet m1.hes j = some rec → rec.toV ≠ r.toV := by
    intro j rec hrec
    rw [Hm1 j] at hrec
    by_cases hj : j ∈ inbound
    · rw [if_pos hj] at hrec
      cases hg : alGet m.hes j with
      | none => rw [hg] at hrec; cases hrec
      | some rec0 =>
          rw [hg] at hrec
          cases hrec
          exact fun h => hne h.symm
    · rw [if_neg hj] at hrec
      intro hto
      exact hj (hcov j rec hrec hto)
  have htoVin1 : ∀ j ∈ inbound, ∃ rec, alGet m1.hes j = some rec ∧ rec.toV = rt.toV := by
    intro j hj
    obtain ⟨rec0, hrec0⟩ := alGet_of_alHas (hinbhas j hj)
    refine ⟨{ rec0 with toV := rt.toV }, ?_, rfl⟩
    rw [Hm1 j, if_pos hj, hrec0]
    rfl
  -- stage 2: first chain (he's loop side)
  obtain ⟨rp1, hrp1⟩ := alGet_of_alHas (by rw [hpres1]; exact hhasp)
  obtain ⟨rn1, hrn1⟩ := alGet_of_alHas (by rw [hpres1]; exact hhasn)
  have hchain1 := chain2_spec m1 r.prev r.next rp1 rn1
    (if r.prev = r.next then ({ rn1 with prev := r.prev } : HE) else rp1) hrp1 hrn1 rfl
  have Hm2 := chain2_hes_get m1 r.prev r.next rp1 rn1
    (if r.prev = r.next then ({ rn1 with prev := r.prev } : HE) else rp1) hrp1 hrn1 rfl
  set ra2 : HE := (if r.prev = r.next then ({ rn1 with prev := r.prev } : HE) else rp1)
    with hra2def
  set m2hes : List (Nat × HE) :=
    alSet (alSet m1.hes r.next ({ rn1 with prev := r.prev })) r.prev ({ ra2 with next := r.next })
    with hm2hesdef
  -- presence and toV facts after chain 1
  have hpres2 : ∀ j, (alGet m2hes j).isSome = (alGet m1.hes j).isSome := by
    intro j
    rw [Hm2 j]
    by_cases hja : j = r.prev
    · rw [if_pos hja]; subst hja; rw [hrp1]; rfl
    · rw [if_neg hja]
      by_cases hjb : j = r.next
      · rw [if_pos hjb]; subst hjb; rw [hrn1]; rfl
      · rw [if_neg hjb]
  have htoV2 : ∀ j rec, alGet m2hes j = some rec → ∃ rec1, alGet m1.hes j = some rec1 ∧
      rec1.toV = rec.toV := by
    intro j rec hrec
    rw [Hm2 j] at hrec
    by_cases hja : j = r.prev
    · rw [if_pos hja] at hrec
      subst hja
      cases hrec
      refine ⟨rp1, hrp1, ?_⟩
      rw [hra2def]
      by_cases hpn : r.prev = r.next
      · rw [if_pos hpn]
        have heq : rp1 = rn1 := by rw [hpn] at hrp1; rw [hrp1] at hrn1; cases hrn1; rfl
        rw [heq]
      · rw [if_neg hpn]
    · rw [if_neg hja] at hrec
      by_cases hjb : j = r.next
      · rw [if_pos hjb] at hrec
        subst hjb
        cases hrec
        exact ⟨rn1, hrn1, rfl⟩
      · rw [if_neg hjb] at hrec
        exact ⟨rec, hrec, rfl⟩
  -- stage 3: second chain (twin's loop side)
  have hrtp2some : (alGet m2hes rt.prev).isSome = true := by
    rw [hpres2]
    show alHas m1.hes rt.prev = true
    rw [hpres1]
    exact hhastp
  have hrtn2some : (alGet m2hes rt.next).isSome = true := by
    rw [hpres2]
    show alHas m1.hes rt.next = true
    rw [hpres1]
    exact hhastn
  obtain ⟨rtp2, hrtp2⟩ := Option.isSome_iff_exists.mp hrtp2some
  obtain ⟨rtn2, hrtn2⟩ := Option.isSome_iff_exists.mp hrtn2some
  set m2 : Mesh := ({ m1 with hes := m2hes }) with hm2def
  have hrtp2' : alGet m2.hes rt.prev = some rtp2 := hrtp2
  have hrtn2' : alGet m2.hes rt.next = some rtn2 := hrtn2
  have hchain2 := chain2_spec m2 rt.prev rt.next rtp2 rtn2
    (if rt.prev = rt.next then ({ rtn2 with prev := rt.prev } : HE) else rtp2)
    hrtp2' hrtn2' rfl
  have Hm3 := chain2_hes_get m2 rt.prev rt.next rtp2 rtn2
    (if rt.prev = rt.next then ({ rtn2 with prev := rt.prev } : HE) else rtp2)
    hrtp2' hrtn2' rfl
  set ra2b : HE := (if rt.prev = rt.next then ({ rtn2 with prev := rt.prev } : HE) else rtp2)
    with hra2bdef
  set m3hes : List (Nat × HE) :=
    alSet (alSet m2.hes rt.next ({ rtn2 with prev := rt.prev })) rt.prev
      ({ ra2b with next := rt.next })
    with hm3hesdef
  have hpres3 : ∀ j, (alGet m3hes j).isSome = (alGet m2hes j).isSome := by
    intro j
    rw [Hm3 j]
    by_cases hja : j = rt.prev
    · rw [if_pos hja]; subst hja; rw [hrtp2]; rfl
    · rw [if_neg hja]
      by_cases hjb : j = rt.next
      · rw [if_pos hjb]; subst hjb; rw [hrtn2]; rfl
      · rw [if_neg hjb]
  have htoV3 : ∀ j rec, alGet m3hes j = some rec → ∃ rec2, alGet m2hes j = some rec2 ∧
      rec2.toV = rec.toV := by
    intro j rec hrec
    rw [Hm3 j] at hrec
    by_cases hja : j = rt.prev
    · rw [if_pos hja] at hrec
      subst hja
      cases hrec
      refine ⟨rtp2, hrtp2, ?_⟩
      rw [hra2bdef]
      by_cases hpn : rt.prev = rt.next
      · rw [if_pos hpn]
        have heq : rtp2 = rtn2 := by rw [hpn] at hrtp2; rw [hrtp2] at hrtn2; cases hrtn2; rfl
        rw [heq]
      · rw [if_neg hpn]
    · rw [if_neg hja] at hrec
      by_cases hjb : j = rt.next
      · rw [if_pos hjb] at hrec
        subst hjb
        cases hrec
        exact ⟨rtn2, hrtn2, rfl⟩
      · rw [if_neg hjb] at hrec
        exact ⟨rec, hrec, rfl⟩
  -- the half-edge pair to retire
  have hrh3some : (alGet m3hes he).isSome = true := by
    rw [hpres3, hpres2]
    show alHas m1.hes he = true
    rw [hpres1]
    exact alHas_of_alGet hr
  obtain ⟨rh3, hrh3⟩ := Option.isSome_iff_exists.mp hrh3some
  have hrw3some : (alGet m3hes r.twin).isSome = true := by
    rw [hpres3, hpres2]
    show alHas m1.hes r.twin = true
    rw [hpres1]
    exact alHas_of_alGet hrt
  obtain ⟨rw3, hrw3⟩ := Option.isSome_iff_exists.mp hrw3some
  set m5hes : List (Nat × HE) := alSet m3hes he ({ rh3 with alive := false }) with hm5hesdef
  have hrw5 : alGet m5hes r.twin = some rw3 := by
    rw [hm5hesdef, alGet_alSet, if_neg htwne]
    exact hrw3
  set m6hes : List (Nat × HE) := alSet m5hes r.twin ({ rw3 with alive := false }) with hm6hesdef
  -- the final mesh
  set M6 : Mesh := ({ m1 with
    hes := m6hes
    vertices := m1.vertices.erase r.toV
    vfirst := alPut m1.vfirst rt.toV r.next
    lfirst := alPut (alPut m1.lfirst r.loop r.next) rt.loop rt.next }) with hM6def
  have hexec : contractEdge m he = .ok (M6, rt.toV) := by
    unfold contractEdge
    rw [liftE_ok_of (getHE_eq hr)]
    simp only [bind, Except.bind, halive, Bool.not_true, Bool.false_eq_true, if_false]
    rw [liftE_ok_of (getHE_eq hrt)]
    simp only [bind, Except.bind, htalive, Bool.not_true, Bool.false_eq_true, if_false]
    rw [if_neg hne]
    rw [liftE_ok_of hinb]
    simp only [bind, Except.bind]
    rw [hm1run]
    simp only [pure, Except.pure]
    rw [if_neg hn, if_neg hp]
    rw [chainHEs_single, hchain1]
    simp only [bind, Except.bind]
    rw [chainHEs_single]
    rw [show chain2 ({ m1 with hes := m2hes }) rt.prev rt.next
        = .ok ({ m1 with hes := m3hes }) from hchain2]
    simp only [bind, Except.bind, pure, Except.pure]
    rw [show getHE ({ m1 with
        hes := m3hes
        vertices := m1.vertices.erase r.toV
        vfirst := alPut m1.vfirst rt.toV r.next
        lfirst := alPut (alPut m1.lfirst r.loop r.next) rt.loop rt.next }) he
      = .ok rh3 from getHE_eq hrh3]
    simp only [liftE, bind, Except.bind]
    rw [show getHE ({ m1 with
        hes := m5hes
        vertices := m1.vertices.erase r.toV
        vfirst := alPut m1.vfirst rt.toV r.next
        lfirst := alPut (alPut m1.lfirst r.loop r.next) rt.loop rt.next }) r.twin
      = .ok rw3 from getHE_eq hrw5]
  -- pointwise toV view of the final half-edge arena
  have ht2 : ∀ j, (alGet m2hes j).map HE.toV = (alGet m1.hes j).map HE.toV := by
    intro j
    rw [Hm2 j]
    by_cases hja : j = r.prev
    · rw [if_pos hja]
      subst hja
      rw [hrp1, hra2def]
      by_cases hpn : r.prev = r.next
      · rw [if_pos hpn]
        have heq : rp1 = rn1 := by rw [hpn] at hrp1; rw [hrp1] at hrn1; cases hrn1; rfl
        rw [heq]
        rfl
      · rw [if_neg hpn]
        rfl
    · rw [if_neg hja]
      by_cases hjb : j = r.next
      · rw [if_pos hjb]
        subst hjb
        rw [hrn1]
        rfl
      · rw [if_neg hjb]
  have ht3 : ∀ j, (alGet m3hes j).map HE.toV = (alGet m2hes j).map HE.toV := by
    intro j
    rw [Hm3 j]
    by_cases hja : j = rt.prev
    · rw [if_pos hja]
      subst hja
      rw [show alGet m2hes rt.prev = some rtp2 from hrtp2, hra2bdef]
      by_cases hpn : rt.prev = rt.next
      · rw [if_pos hpn]
        have heq : rtp2 = rtn2 := by rw [hpn] at hrtp2; rw [hrtp2] at hrtn2; cases hrtn2; rfl
        rw [heq]
        rfl
      · rw [if_neg hpn]
        rfl
    · rw [if_neg hja]
      by_cases hjb : j = rt.next
      · rw [if_pos hjb]
        subst hjb
        rw [show alGet m2hes rt.next = some rtn2 from hrtn2]
        rfl
      · rw [if_neg hjb]
  have hkhe : alGet m6hes he = some ({ rh3 with alive := false }) := by
    rw [hm6hesdef, alGet_alSet, if_neg (Ne.symm htwne), hm5hesdef, alGet_alSet, if_pos rfl,
      hrh3]
    rfl
  have hktw : alGet m6hes r.twin = some ({ rw3 with alive := false }) := by
    rw [hm6hesdef, alGet_alSet, if_pos rfl, hrw5]
    rfl
  have hk6 : ∀ j, j ≠ r.twin → j ≠ he → alGet m6hes j = alGet m3hes j := by
    intro j hjt hjh
    rw [hm6hesdef, alGet_alSet, if_neg hjt, hm5hesdef, alGet_alSet, if_neg hjh]
  have ht6 : ∀ j, (alGet m6hes j).map HE.toV = (alGet m3hes j).map HE.toV := by
    intro j
    by_cases hjt : j = r.twin
    · subst hjt
      rw [hktw, hrw3]
      rfl
    · by_cases hjh : j = he
      · subst hjh
        rw [hkhe, hrh3]
        rfl
      · rw [hk6 j hjt hjh]
  have htoVmap : ∀ j, (alGet m6hes j).map HE.toV = (alGet m1.hes j).map HE.toV := by
    intro j
    rw [ht6 j, ht3 j, ht2 j]
  have hnp6 : ∀ j, ((alGet m6hes j).map HE.next = (alGet m3hes j).map HE.next) ∧
      ((alGet m6hes j).map HE.prev = (alGet m3hes j).map HE.prev) := by
    intro j
    by_cases hjt : j = r.twin
    · subst hjt
      rw [hktw, hrw3]
      exact ⟨rfl, rfl⟩
    · by_cases hjh : j = he
      · subst hjh
        rw [hkhe, hrh3]
        exact ⟨rfl, rfl⟩
      · rw [hk6 j hjt hjh]
        exact ⟨rfl, rfl⟩
  -- link fields after the two chains
  have hnext2 : (alGet m2hes r.prev).map HE.next = some r.next := by
    rw [Hm2 r.prev, if_pos rfl]
    rfl
  have hprev2 : (alGet m2hes r.next).map HE.prev = some r.prev := by
    rw [Hm2 r.next]
    by_cases hnp : r.next = r.prev
    · rw [if_pos hnp]
      have hra2val : ra2 = ({ rn1 with prev := r.prev } : HE) := by
        rw [hra2def, if_pos hnp.symm]
      rw [hra2val]
      rfl
    · rw [if_neg hnp, if_pos rfl]
      rfl
  have hnext3 : (alGet m3hes r.prev).map HE.next = some r.next := by
    rw [Hm3 r.prev, if_neg hd1]
    by_cases hptn : r.prev = rt.next
    · rw [if_pos hptn]
      have hrtn2get : alGet m2hes r.prev = some rtn2 := by rw [hptn]; exact hrtn2
      rw [hrtn2get] at hnext2
      simp only [Option.map_some', Option.some.injEq] at hnext2
      simp only [Option.map_some', Option.some.injEq]
      exact hnext2
    · rw [if_neg hptn]
      exact hnext2
  have hprev3 : (alGet m3hes r.next).map HE.prev = some r.prev := by
    rw [Hm3 r.next]
    by_cases hntp : r.next = rt.prev
    · rw [if_pos hntp]
      have hb : ¬ rt.prev = rt.next := by rw [← hntp]; exact hd2
      have hra2bval : ra2b = rtp2 := by rw [hra2bdef, if_neg hb]
      have hrtp2get : alGet m2hes r.next = some rtp2 := by rw [hntp]; exact hrtp2
      rw [hrtp2get] at hprev2
      simp only [Option.map_some', Option.some.injEq] at hprev2
      simp only [Option.map_some', Option.some.injEq]
      rw [hra2bval]
      exact hprev2
    · rw [if_neg hntp, if_neg hd2]
      exact hprev2
  have hnext3t : (alGet m3hes rt.prev).map HE.next = some rt.next := by
    rw [Hm3 rt.prev, if_pos rfl]
    rfl
  have hprev3t : (alGet m3hes rt.next).map HE.prev = some rt.prev := by
    rw [Hm3 rt.next]
    by_cases hpn : rt.next = rt.prev
    · rw [if_pos hpn]
      have hra2bval : ra2b = ({ rtn2 with prev := rt.prev } : HE) := by
        rw [hra2bdef, if_pos hpn.symm]
      rw [hra2bval]
      rfl
    · rw [if_neg hpn, if_pos rfl]
      rfl
  refine ⟨M6, hexec, ?_, ?_, ?_, ?_, ?_, ?_, ?_, ?_, ?_, ?_⟩
  · show m1.vertices.erase r.toV = m.vertices.erase r.toV
    rw [hm1v]
  · show m1.loops = m.loops
    exact hm1l
  · -- no live half-edge points at the removed vertex
    intro j rec' hj halive'
    have hj' : alGet m6hes j = some rec' := hj
    by_cases hjt : j = r.twin
    · rw [hjt, hktw] at hj'
      cases hj'
      cases halive'
    · by_cases hjh : j = he
      · rw [hjh, hkhe] at hj'
        cases hj'
        cases halive'
      · have hmap := htoVmap j
        rw [hj'] at hmap
        cases h1 : alGet m1.hes j with
        | none => rw [h1] at hmap; cases hmap
        | some rec1 =>
            rw [h1] at hmap
            simp only [Option.map_some', Option.some.injEq] at hmap
            rw [hmap]
            exact htoV1 j rec1 h1
  · -- every inbound half-edge now points at the kept vertex
    intro j hj
    obtain ⟨rec1, h1, htv⟩ := htoVin1 j hj
    have hmap := htoVmap j
    rw [h1] at hmap
    show ∃ rec', alGet m6hes j = some rec' ∧ rec'.toV = rt.toV
    cases h6 : alGet m6hes j with
    | none => rw [h6] at hmap; cases hmap
    | some rec6 =>
        rw [h6] at hmap
        simp only [Option.map_some', Option.some.injEq] at hmap
        exact ⟨rec6, rfl, by rw [hmap, htv]⟩
  · exact ⟨{ rh3 with alive := false }, hkhe, rfl⟩
  · exact ⟨{ rw3 with alive := false }, hktw, rfl⟩
  · -- relink: predecessor on the contracted half-edge's loop
    have h6 := (hnp6 r.prev).1
    rw [hnext3] at h6
    show ∃ rp, alGet m6hes r.prev = some rp ∧ rp.next = r.next
    cases hget : alGet m6hes r.prev with
    | none => rw [hget] at h6; cases h6
    | some rp =>
        rw [hget] at h6
        simp only [Option.map_some', Option.some.injEq] at h6
        exact ⟨rp, rfl, h6⟩
  · -- relink: successor on the contracted half-edge's loop
    have h6 := (hnp6 r.next).2
    rw [hprev3] at h6
    show ∃ rn, alGet m6hes r.next = some rn ∧ rn.prev = r.prev
    cases hget : alGet m6hes r.next with
    | none => rw [hget] at h6; cases h6
    | some rn =>
        rw [hget] at h6
        simp only [Option.map_some', Option.some.injEq] at h6
        exact ⟨rn, rfl, h6⟩
  · -- relink: predecessor on the twin's loop
    have h6 := (hnp6 rt.prev).1
    rw [hnext3t] at h6
    show ∃ rp2, alGet m6hes rt.prev = some rp2 ∧ rp2.next = rt.next
    cases hget : alGet m6hes rt.prev with
    | none => rw [hget] at h6; cases h6
    | some rp2 =>
        rw [hget] at h6
        simp only [Option.map_some', Option.some.injEq] at h6
        exact ⟨rp2, rfl, h6⟩
  · -- relink: successor on the twin's loop
    have h6 := (hnp6 rt.next).2
    rw [hprev3t] at h6
    show ∃ rn2, alGet m6hes rt.next = some rn2 ∧ rn2.prev = rt.prev
    cases hget : alGet m6hes rt.next with
    | none => rw [hget] at h6; cases h6
    | some rn2 =>
        rw [hget] at h6
        simp only [Option.map_some', Option.some.injEq] at h6
        exact ⟨rn2, rfl, h6⟩

end StarFold.Kernel

namespace StarFold.Kernel

open StarFold

lemma contractEdge_twinNext (m : Mesh) (he : Nat) (r rt : HE) (inbound : List Nat)
    (hr : alGet m.hes he = some r) (halive : r.alive = true)
    (hrt : alGet m.hes r.twin = some rt) (htalive : rt.alive = true)
    (hne : r.toV ≠ rt.toV)
    (hinb : halfEdgesIn m r.toV = .ok inbound)
    (hinbhas : ∀ j ∈ inbound, alHas m.hes j = true)
    (hcov : ∀ j rec, alGet m.hes j = some rec → rec.toV = r.toV → j ∈ inbound)
    (hhasp : alHas m.hes r.prev = true) (hhastn : alHas m.hes rt.next = true)
    (hn : r.twin = r.next) (hp : r.twin ≠ r.prev)
    (hloopeq : r.loop = rt.loop) :
    ∃ m', contractEdge m he = .ok (m', rt.toV) ∧
      m'.vertices = m.vertices.erase r.toV ∧
      m'.loops = m.loops ∧
      (∀ j rec', alGet m'.hes j = some rec' → rec'.alive = true → rec'.toV ≠ r.toV) ∧
      (∀ j ∈ inbound, ∃ rec', alGet m'.hes j = some rec' ∧ rec'.toV = rt.toV) ∧
      (∃ rh, alGet m'.hes he = some rh ∧ rh.alive = false) ∧
      (∃ rw, alGet m'.hes r.twin = some rw ∧ rw.alive = false) ∧
      (∃ rp, alGet m'.hes r.prev = some rp ∧ rp.next = rt.next) ∧
      (∃ rn, alGet m'.hes rt.next = some rn ∧ rn.prev = r.prev) := by
  have htwne : r.twin ≠ he := by
    intro h
    rw [h, hr] at hrt
    cases hrt
    exact hne rfl
  obtain ⟨m1, hm1run, hm1v, hm1l, hm1vn, hm1ln, hm1vf, hm1lf, hm1ni, Hm1⟩ :=
    setToAll_spec inbound m rt.toV hinbhas
  have hpres1 : ∀ j, alHas m1.hes j = alHas m.hes j := by
    intro j
    unfold alHas
    rw [Hm1 j]
    by_cases hj : j ∈ inbound
    · rw [if_pos hj]; cases alGet m.hes j <;> rfl
    · rw [if_neg hj]
  have htoV1 : ∀ j rec, alGet m1.hes j = some rec → rec.toV ≠ r.toV := by
    intro j rec hrec
    rw [Hm1 j] at hrec
    by_cases hj : j ∈ inbound
    · rw [if_pos hj] at hrec
      cases hg : alGet m.hes j with
      | none => rw [hg] at hrec; cases hrec
      | some rec0 =>
          rw [hg] at hrec
          cases hrec
          exact fun h => hne h.symm
    · rw [if_neg hj] at hrec
      intro hto
      exact hj (hcov j rec hrec hto)
  have htoVin1 : ∀ j ∈ inbound, ∃ rec, alGet m1.hes j = some rec ∧ rec.toV = rt.toV := by
    intro j hj
    obtain ⟨rec0, hrec0⟩ := alGet_of_alHas (hinbhas j hj)
    refine ⟨{ rec0 with toV := rt.toV }, ?_, rfl⟩
    rw [Hm1 j, if_pos hj, hrec0]
    rfl
  obtain ⟨rp1, hrp1⟩ := alGet_of_alHas (by rw [hpres1]; exact hhasp)
  obtain ⟨rtn1, hrtn1⟩ := alGet_of_alHas (by rw [hpres1]; exact hhastn)
  have hchain1 := chain2_spec m1 r.prev rt.next rp1 rtn1
    (if r.prev = rt.next then ({ rtn1 with prev := r.prev } : HE) else rp1) hrp1 hrtn1 rfl
  have Hm2 := chain2_hes_get m1 r.prev rt.next rp1 rtn1
    (if r.prev = rt.next then ({ rtn1 with prev := r.prev } : HE) else rp1) hrp1 hrtn1 rfl
  set ra2 : HE := (if r.prev = rt.next then ({ rtn1 with prev := r.prev } : HE) else rp1)
    with hra2def
  set m2hes : List (Nat × HE) :=
    alSet (alSet m1.hes rt.next ({ rtn1 with prev := r.prev })) r.prev
      ({ ra2 with next := rt.next })
    with hm2hesdef
  have hpres2 : ∀ j, (alGet m2hes j).isSome = (alGet m1.hes j).isSome := by
    intro j
    rw [Hm2 j]
    by_cases hja : j = r.prev
    · rw [if_pos hja]; subst hja; rw [hrp1]; rfl
    · rw [if_neg hja]
      by_cases hjb : j = rt.next
      · rw [if_pos hjb]; subst hjb; rw [hrtn1]; rfl
      · rw [if_neg hjb]
  have hrh2some : (alGet m2hes he).isSome = true := by
    rw [hpres2]
    show alHas m1.hes he = true
    rw [hpres1]
    exact alHas_of_alGet hr
  obtain ⟨rh2, hrh2⟩ := Option.isSome_iff_exists.mp hrh2some
  have hrw2some : (alGet m2hes r.twin).isSome = true := by
    rw [hpres2]
    show alHas m1.hes r.twin = true
    rw [hpres1]
    exact alHas_of_alGet hrt
  obtain ⟨rw2, hrw2⟩ := Option.isSome_iff_exists.mp hrw2some
  set m5hes : List (Nat × HE) := alSet m2hes he ({ rh2 with alive := false }) with hm5hesdef
  have hrw5 : alGet m5hes r.twin = some rw2 := by
    rw [hm5hesdef, alGet_alSet, if_neg htwne]
    exact hrw2
  set m6hes : List (Nat × HE) := alSet m5hes r.twin ({ rw2 with alive := false }) with hm6hesdef
  set M6 : Mesh := ({ m1 with
    hes := m6hes
    vertices := m1.vertices.erase r.toV
    vfirst := alPut m1.vfirst rt.toV rt.next
    lfirst := alPut m1.lfirst r.loop rt.next }) with hM6def
  have hexec : contractEdge m he = .ok (M6, rt.toV) := by
    unfold contractEdge
    rw [liftE_ok_of (getHE_eq hr)]
    simp only [bind, Except.bind, halive, Bool.not_true, Bool.false_eq_true, if_false]
    rw [liftE_ok_of (getHE_eq hrt)]
    simp only [bind, Except.bind, htalive, Bool.not_true, Bool.false_eq_true, if_false]
    rw [if_neg hne]
    rw [liftE_ok_of hinb]
    simp only [bind, Except.bind]
    rw [hm1run]
    simp only [pure, Except.pure]
    rw [if_pos hn, if_neg hp, if_neg (show ¬ r.loop ≠ rt.loop from fun h => h hloopeq)]
    rw [chainHEs_single, hchain1]
    simp only [bind, Except.bind, pure, Except.pure]
    rw [show getHE ({ m1 with
        hes := m2hes
        vertices := m1.vertices.erase r.toV
        vfirst := alPut m1.vfirst rt.toV rt.next
        lfirst := alPut m1.lfirst r.loop rt.next }) he
      = .ok rh2 from getHE_eq hrh2]
    simp only [liftE, bind, Except.bind]
    rw [show getHE ({ m1 with
        hes := m5hes
        vertices := m1.vertices.erase r.toV
        vfirst := alPut m1.vfirst rt.toV rt.next
        lfirst := alPut m1.lfirst r.loop rt.next }) r.twin
      = .ok rw2 from getHE_eq hrw5]
  have ht2 : ∀ j, (alGet m2hes j).map HE.toV = (alGet m1.hes j).map HE.toV := by
    intro j
    rw [Hm2 j]
    by_cases hja : j = r.prev
    · rw [if_pos hja]
      subst hja
      rw [hrp1, hra2def]
      by_cases hpn : r.prev = rt.next
      · rw [if_pos hpn]
        have heq : rp1 = rtn1 := by rw [hpn] at hrp1; rw [hrp1] at hrtn1; cases hrtn1; rfl
        rw [heq]
        rfl
      · rw [if_neg hpn]
        rfl
    · rw [if_neg hja]
      by_cases hjb : j = rt.next
      · rw [if_pos hjb]
        subst hjb
        rw [hrtn1]
        rfl
      · rw [if_neg hjb]
  have hkhe : alGet m6hes he = some ({ rh2 with alive := false }) := by
    rw [hm6hesdef, alGet_alSet, if_neg (Ne.symm htwne), hm5hesdef, alGet_alSet, if_pos rfl,
      hrh2]
    rfl
  have hktw : alGet m6hes r.twin = some ({ rw2 with alive := false }) := by
    rw [hm6hesdef, alGet_alSet, if_pos rfl, hrw5]
    rfl
  have hk6 : ∀ j, j ≠ r.twin → j ≠ he → alGet m6hes j = alGet m2hes j := by
    intro j hjt hjh
    rw [hm6hesdef, alGet_alSet, if_neg hjt, hm5hesdef, alGet_alSet, if_neg hjh]
  have htoVmap : ∀ j, (alGet m6hes j).map HE.toV = (alGet m1.hes j).map HE.toV := by
    intro j
    rw [← ht2 j]
    by_cases hjt : j = r.twin
    · subst hjt
      rw [hktw, hrw2]
      rfl
    · by_cases hjh : j = he
      · subst hjh
        rw [hkhe, hrh2]
        rfl
      · rw [hk6 j hjt hjh]
  have hnp6 : ∀ j, ((alGet m6hes j).map HE.next = (alGet m2hes j).map HE.next) ∧
      ((alGet m6hes j).map HE.prev = (alGet m2hes j).map HE.prev) := by
    intro j
    by_cases hjt : j = r.twin
    · subst hjt
      rw [hktw, hrw2]
      exact ⟨rfl, rfl⟩
    · by_cases hjh : j = he
      · subst hjh
        rw [hkhe, hrh2]
        exact ⟨rfl, rfl⟩
      · rw [hk6 j hjt hjh]
        exact ⟨rfl, rfl⟩
  have hnext2 : (alGet m2hes r.prev).map HE.next = some rt.next := by
    rw [Hm2 r.prev, if_pos rfl]
    rfl
  have hprev2 : (alGet m2hes rt.next).map HE.prev = some r.prev := by
    rw [Hm2 rt.next]
    by_cases hnp : rt.next = r.prev
    · rw [if_pos hnp]
      have hra2val : ra2 = ({ rtn1 with prev := r.prev } : HE) := by
        rw [hra2def, if_pos hnp.symm]
      rw [hra2val]
      rfl
    · rw [if_neg hnp, if_pos rfl]
      rfl
  refine ⟨M6, hexec, ?_, ?_, ?_, ?_, ?_, ?_, ?_, ?_⟩
  · show m1.vertices.erase r.toV = m.vertices.erase r.toV
    rw [hm1v]
  · show m1.loops = m.loops
    exact hm1l
  · intro j rec' hj halive'
    have hj' : alGet m6hes j = some rec' := hj
    by_cases hjt : j = r.twin
    · rw [hjt, hktw] at hj'
      cases hj'
      cases halive'
    · by_cases hjh : j = he
      · rw [hjh, hkhe] at hj'
        cases hj'
        cases halive'
      · have hmap := htoVmap j
        rw [hj'] at hmap
        cases h1 : alGet m1.hes j with
        | none => rw [h1] at hmap; cases hmap
        | some rec1 =>
            rw [h1] at hmap
            simp only [Option.map_some', Option.some.injEq] at hmap
            rw [hmap]
            exact htoV1 j rec1 h1
  · intro j hj
    obtain ⟨rec1, h1, htv⟩ := htoVin1 j hj
    have hmap := htoVmap j
    rw [h1] at hmap
    show ∃ rec', alGet m6hes j = some rec' ∧ rec'.toV = rt.toV
    cases h6 : alGet m6hes j with
    | none => rw [h6] at hmap; cases hmap
    | some rec6 =>
        rw [h6] at hmap
        simp only [Option.map_some', Option.some.injEq] at hmap
        exact ⟨rec6, rfl, by rw [hmap, htv]⟩
  · exact ⟨{ rh2 with alive := false }, hkhe, rfl⟩
  · exact ⟨{ rw2 with alive := false }, hktw, rfl⟩
  · have h6 := (hnp6 r.prev).1
    rw [hnext2] at h6
    show ∃ rp, alGet m6hes r.prev = some rp ∧ rp.next = rt.next
    cases hget : alGet m6hes r.prev with
    | none => rw [hget] at h6; cases h6
    | some rp =>
        rw [hget] at h6
        simp only [Option.map_some', Option.some.injEq] at h6
        exact ⟨rp, rfl, h6⟩
  · have h6 := (hnp6 rt.next).2
    rw [hprev2] at h6
    show ∃ rn, alGet m6hes rt.next = some rn ∧ rn.prev = r.prev
    cases hget : alGet m6hes rt.next with
    | none => rw [hget] at h6; cases h6
    | some rn =>
        rw [hget] at h6
        simp only [Option.map_some', Option.some.injEq] at h6
        exact ⟨rn, rfl, h6⟩

end StarFold.Kernel

namespace StarFold.Kernel

open StarFold

lemma contractEdge_twinPrev (m : Mesh) (he : Nat) (r rt : HE) (inbound : List Nat)
    (hr : alGet m.hes he = some r) (halive : r.alive = true)
    (hrt : alGet m.hes r.twin = some rt) (htalive : rt.alive = true)
    (hne : r.toV ≠ rt.toV)
    (hinb : halfEdgesIn m r.toV = .ok inbound)
    (hinbhas : ∀ j ∈ inbound, alHas m.hes j = true)
    (hcov : ∀ j rec, alGet m.hes j = some rec → rec.toV = r.toV → j ∈ inbound)
    (hhastp : alHas m.hes rt.prev = true) (hhasn : alHas m.hes r.next = true)
    (hn : r.twin ≠ r.next) (hp : r.twin = r.prev)
    (hloopeq : r.loop = rt.loop) :
    ∃ m', contractEdge m he = .ok (m', rt.toV) ∧
      m'.vertices = m.vertices.erase r.toV ∧
      m'.loops = m.loops ∧
      (∀ j rec', alGet m'.hes j = some rec' → rec'.alive = true → rec'.toV ≠ r.toV) ∧
      (∀ j ∈ inbound, ∃ rec', alGet m'.hes j = some rec' ∧ rec'.toV = rt.toV) ∧
      (∃ rh, alGet m'.hes he = some rh ∧ rh.alive = false) ∧
      (∃ rw, alGet m'.hes r.twin = some rw ∧ rw.alive = false) ∧
      (∃ rp, alGet m'.hes rt.prev = some rp ∧ rp.next = r.next) ∧
      (∃ rn, alGet m'.hes r.next = some rn ∧ rn.prev = rt.prev) := by
  have htwne : r.twin ≠ he := by
    intro h
    rw [h, hr] at hrt
    cases hrt
    exact hne rfl
  obtain ⟨m1, hm1run, hm1v, hm1l, hm1vn, hm1ln, hm1vf, hm1lf, hm1ni, Hm1⟩ :=
    setToAll_spec inbound m rt.toV hinbhas
  have hpres1 : ∀ j, alHas m1.hes j = alHas m.hes j := by
    intro j
    unfold alHas
    rw [Hm1 j]
    by_cases hj : j ∈ inbound
    · rw [if_pos hj]; cases alGet m.hes j <;> rfl
    · rw [if_neg hj]
  have htoV1 : ∀ j rec, alGet m1.hes j = some rec → rec.toV ≠ r.toV := by
    intro j rec hrec
    rw [Hm1 j] at hrec
    by_cases hj : j ∈ inbound
    · rw [if_pos hj] at hrec
      cases hg : alGet m.hes j with
      | none => rw [hg] at hrec; cases hrec
      | some rec0 =>
          rw [hg] at hrec
          cases hrec
          exact fun h => hne h.symm
    · rw [if_neg hj] at hrec
      intro hto
      exact hj (hcov j rec hrec hto)
  have htoVin1 : ∀ j ∈ inbound, ∃ rec, alGet m1.hes j = some rec ∧ rec.toV = rt.toV := by
    intro j hj
    obtain ⟨rec0, hrec0⟩ := alGet_of_alHas (hinbhas j hj)
    refine ⟨{ rec0 with toV := rt.toV }, ?_, rfl⟩
    rw [Hm1 j, if_pos hj, hrec0]
    rfl
  obtain ⟨rp1, hrp1⟩ := alGet_of_alHas (by rw [hpres1]; exact hhastp)
  obtain ⟨rtn1, hrtn1⟩ := alGet_of_alHas (by rw [hpres1]; exact hhasn)
  have hchain1 := chain2_spec m1 rt.prev r.next rp1 rtn1
    (if rt.prev = r.next then ({ rtn1 with prev := rt.prev } : HE) else rp1) hrp1 hrtn1 rfl
  have Hm2 := chain2_hes_get m1 rt.prev r.next rp1 rtn1
    (if rt.prev = r.next then ({ rtn1 with prev := rt.prev } : HE) else rp1) hrp1 hrtn1 rfl
  set ra2 : HE := (if rt.prev = r.next then ({ rtn1 with prev := rt.prev } : HE) else rp1)
    with hra2def
  set m2hes : List (Nat × HE) :=
    alSet (alSet m1.hes r.next ({ rtn1 with prev := rt.prev })) rt.prev
      ({ ra2 with next := r.next })
    with hm2hesdef
  have hpres2 : ∀ j, (alGet m2hes j).isSome = (alGet m1.hes j).isSome := by
    intro j
    rw [Hm2 j]
    by_cases hja : j = rt.prev
    · rw [if_pos hja]; subst hja; rw [hrp1]; rfl
    · rw [if_neg hja]
      by_cases hjb : j = r.next
      · rw [if_pos hjb]; subst hjb; rw [hrtn1]; rfl
      · rw [if_neg hjb]
  have hrh2some : (alGet m2hes he).isSome = true := by
    rw [hpres2]
    show alHas m1.hes he = true
    rw [hpres1]
    exact alHas_of_alGet hr
  obtain ⟨rh2, hrh2⟩ := Option.isSome_iff_exists.mp hrh2some
  have hrw2some : (alGet m2hes r.twin).isSome = true := by
    rw [hpres2]
    show alHas m1.hes r.twin = true
    rw [hpres1]
    exact alHas_of_alGet hrt
  obtain ⟨rw2, hrw2⟩ := Option.isSome_iff_exists.mp hrw2some
  set m5hes : List (Nat × HE) := alSet m2hes he ({ rh2 with alive := false }) with hm5hesdef
  have hrw5 : alGet m5hes r.twin = some rw2 := by
    rw [hm5hesdef, alGet_alSet, if_neg htwne]
    exact hrw2
  set m6hes : List (Nat × HE) := alSet m5hes r.twin ({ rw2 with alive := false }) with hm6hesdef
  set M6 : Mesh := ({ m1 with
    hes := m6hes
    vertices := m1.vertices.erase r.toV
    vfirst := alPut m1.vfirst rt.toV r.next
    lfirst := alPut m1.lfirst r.loop r.next }) with hM6def
  have hexec : contractEdge m he = .ok (M6, rt.toV) := by
    unfold contractEdge
    rw [liftE_ok_of (getHE_eq hr)]
    simp only [bind, Except.bind, halive, Bool.not_true, Bool.false_eq_true, if_false]
    rw [liftE_ok_of (getHE_eq hrt)]
    simp only [bind, Except.bind, htalive, Bool.not_true, Bool.false_eq_true, if_false]
    rw [if_neg hne]
    rw [liftE_ok_of hinb]
    simp only [bind, Except.bind]
    rw [hm1run]
    simp only [pure, Except.pure]
    rw [if_neg hn, if_pos hp, if_neg (show ¬ r.loop ≠ rt.loop from fun h => h hloopeq)]
    rw [chainHEs_single, hchain1]
    simp only [bind, Except.bind, pure, Except.pure]
    rw [show getHE ({ m1 with
        hes := m2hes
        vertices := m1.vertices.erase r.toV
        vfirst := alPut m1.vfirst rt.toV r.next
        lfirst := alPut m1.lfirst r.loop r.next }) he
      = .ok rh2 from getHE_eq hrh2]
    simp only [liftE, bind, Except.bind]
    rw [show getHE ({ m1 with
        hes := m5hes
        vertices := m1.vertices.erase r.toV
        vfirst := alPut m1.vfirst rt.toV r.next
        lfirst := alPut m1.lfirst r.loop r.next }) r.twin
      = .ok rw2 from getHE_eq hrw5]
  have ht2 : ∀ j, (alGet m2hes j).map HE.toV = (alGet m1.hes j).map HE.toV := by
    intro j
    rw [Hm2 j]
    by_cases hja : j = rt.prev
    · rw [if_pos hja]
      subst hja
      rw [hrp1, hra2def]
      by_cases hpn : rt.prev = r.next
      · rw [if_pos hpn]
        have heq : rp1 = rtn1 := by rw [hpn] at hrp1; rw [hrp1] at hrtn1; cases hrtn1; rfl
        rw [heq]
        rfl
      · rw [if_neg hpn]
        rfl
    · rw [if_neg hja]
      by_cases hjb : j = r.next
      · rw [if_pos hjb]
        subst hjb
        rw [hrtn1]
        rfl
      · rw [if_neg hjb]
  have hkhe : alGet m6hes he = some ({ rh2 with alive := false }) := by
    rw [hm6hesdef, alGet_alSet, if_neg (Ne.symm htwne), hm5hesdef, alGet_alSet, if_pos rfl,
      hrh2]
    rfl
  have hktw : alGet m6hes r.twin = some ({ rw2 with alive := false }) := by
    rw [hm6hesdef, alGet_alSet, if_pos rfl, hrw5]
    rfl
  have hk6 : ∀ j, j ≠ r.twin → j ≠ he → alGet m6hes j = alGet m2hes j := by
    intro j hjt hjh
    rw [hm6hesdef, alGet_alSet, if_neg hjt, hm5hesdef, alGet_alSet, if_neg hjh]
  have htoVmap : ∀ j, (alGet m6hes j).map HE.toV = (alGet m1.hes j).map HE.toV := by
    intro j
    rw [← ht2 j]
    by_cases hjt : j = r.twin
    · subst hjt
      rw [hktw, hrw2]
      rfl
    · by_cases hjh : j = he
      · subst hjh
        rw [hkhe, hrh2]
        rfl
      · rw [hk6 j hjt hjh]
  have hnp6 : ∀ j, ((alGet m6hes j).map HE.next = (alGet m2hes j).map HE.next) ∧
      ((alGet m6hes j).map HE.prev = (alGet m2hes j).map HE.prev) := by
    intro j
    by_cases hjt : j = r.twin
    · subst hjt
      rw [hktw, hrw2]
      exact ⟨rfl, rfl⟩
    · by_cases hjh : j = he
      · subst hjh
        rw [hkhe, hrh2]
        exact ⟨rfl, rfl⟩
      · rw [hk6 j hjt hjh]
        exact ⟨rfl, rfl⟩
  have hnext2 : (alGet m2hes rt.prev).map HE.next = some r.next := by
    rw [Hm2 rt.prev, if_pos rfl]
    rfl
  have hprev2 : (alGet m2hes r.next).map HE.prev = some rt.prev := by
    rw [Hm2 r.next]
    by_cases hnp : r.next = rt.prev
    · rw [if_pos hnp]
      have hra2val : ra2 = ({ rtn1 with prev := rt.prev } : HE) := by
        rw [hra2def, if_pos hnp.symm]
      rw [hra2val]
      rfl
    · rw [if_neg hnp, if_pos rfl]
      rfl
  refine ⟨M6, hexec, ?_, ?_, ?_, ?_, ?_, ?_, ?_, ?_⟩
  · show m1.vertices.erase r.toV = m.vertices.erase r.toV
    rw [hm1v]
  · show m1.loops = m.loops
    exact hm1l
  · intro j rec' hj halive'
    have hj' : alGet m6hes j = some rec' := hj
    by_cases hjt : j = r.twin
    · rw [hjt, hktw] at hj'
      cases hj'
      cases halive'
    · by_cases hjh : j = he
      · rw [hjh, hkhe] at hj'
        cases hj'
        cases halive'
      · have hmap := htoVmap j
        rw [hj'] at hmap
        cases h1 : alGet m1.hes j with
        | none => rw [h1] at hmap; cases hmap
        | some rec1 =>
            rw [h1] at hmap
            simp only [Option.map_some', Option.some.injEq] at hmap
            rw [hmap]
            exact htoV1 j rec1 h1
  · intro j hj
    obtain ⟨rec1, h1, htv⟩ := htoVin1 j hj
    have hmap := htoVmap j
    rw [h1] at hmap
    show ∃ rec', alGet m6hes j = some rec' ∧ rec'.toV = rt.toV
    cases h6 : alGet m6hes j with
    | none => rw [h6] at hmap; cases hmap
    | some rec6 =>
        rw [h6] at hmap
        simp only [Option.map_some', Option.some.injEq] at hmap
        exact ⟨rec6, rfl, by rw [hmap, htv]⟩
  · exact ⟨{ rh2 with alive := false }, hkhe, rfl⟩
  · exact ⟨{ rw2 with alive := false }, hktw, rfl⟩
  · have h6 := (hnp6 rt.prev).1
    rw [hnext2] at h6
    show ∃ rp, alGet m6hes rt.prev = some rp ∧ rp.next = r.next
    cases hget : alGet m6hes rt.prev with
    | none => rw [hget] at h6; cases h6
    | some rp =>
        rw [hget] at h6
        simp only [Option.map_some', Option.some.injEq] at h6
        exact ⟨rp, rfl, h6⟩
  · have h6 := (hnp6 r.next).2
    rw [hprev2] at h6
    show ∃ rn, alGet m6hes r.next = some rn ∧ rn.prev = rt.prev
    cases hget : alGet m6hes r.next with
    | none => rw [hget] at h6; cases h6
    | some rn =>
        rw [hget] at h6
        simp only [Option.map_some', Option.some.injEq] at h6
        exact ⟨rn, rfl, h6⟩

end StarFold.Kernel

namespace StarFold.Kernel

open StarFold

lemma alGet_mem {α : Type} {l : List (Nat × α)} {j : Nat} {v : α}
    (h : alGet l j = some v) : (j, v) ∈ l := by
  induction l with
  | nil => cases h
  | cons p rest ih =>
      rw [alGet] at h
      by_cases hp : p.fst = j
      · rw [if_pos hp] at h
        injection h with h2
        exact List.mem_cons.mpr (Or.inl (by rw [← hp, ← h2]))
      · rw [if_neg hp] at h
        exact List.mem_cons.mpr (Or.inr (ih h))

/-- Reduce the coverage condition on `alGet` to a decidable scan of the
underlying association list. -/
lemma cov_of_pairs {l : List (Nat × HE)} {v : Nat} {inb : List Nat}
    (h : ∀ p ∈ l, HE.toV p.2 = v → p.1 ∈ inb) :
    ∀ j rec, alGet l j = some rec → rec.toV = v → j ∈ inb :=
  fun j rec hg htv => h (j, rec) (alGet_mem hg) htv

end StarFold.Kernel

namespace StarFold.Kernel

open StarFold

/-- C8.  `contractEdge(he)` on a live half-edge with live twin, where
`he.from` is the twin's target vertex: (i) the returned vertex, when the
operation succeeds, is `he.from`; (ii) if `he.to = he.from` the operation
fails with the self-loop error, leaving the mesh exactly unchanged;
(iii) correcting the claim, the operation also fails when the edge is the
only edge at both of its endpoints (`he.twin = he.next` and
`he.twin = he.prev`) even though `he.to` differs from `he.from`; (iv) if
only the target end is single-edged (`he.twin = he.next` but
`he.twin ≠ he.prev`, with both half-edges on one loop) the operation
succeeds: `he.to` is removed from the vertex set, every half-edge formerly
pointing at `he.to` is re-targeted to `he.from`, the contracted pair is
marked dead, and the single adjacent cycle is spliced by linking
`he.prev` to `he.twin.next`; (v) symmetrically when only the source end is
single-edged the splice links `he.twin.prev` to `he.next`; (vi) in the
generic case (`he.twin` is neither `he.next` nor `he.prev`, and the two
loops do not share the relinked neighbours) the operation succeeds,
removes `he.to` from the vertex set (loops unchanged), re-targets every
half-edge formerly pointing at `he.to` to `he.from` (afterwards no live
half-edge points at `he.to`), marks `he` and `he.twin` dead, and re-links
the two adjacent loop cycles: `he.prev` to `he.next` and `he.twin.prev`
to `he.twin.next`. -/
theorem C8_contractEdge_spec :
    (∀ m he r rt, alGet m.hes he = some r → alGet m.hes r.twin = some rt →
      fromOf m he = .ok rt.toV) ∧
    (∀ m he r rt, alGet m.hes he = some r → r.alive = true →
      alGet m.hes r.twin = some rt → rt.alive = true → r.toV = rt.toV →
      contractEdge m he =
        .error (("cannot contract an edge starting and ending at the same vertex"), m)) ∧
    (∀ m he r rt, alGet m.hes he = some r → r.alive = true →
      alGet m.hes r.twin = some rt → rt.alive = true → r.toV ≠ rt.toV →
      r.twin = r.next → r.twin = r.prev → (contractEdge m he).isOk = false) ∧
    (∀ m he r rt inbound, alGet m.hes he = some r → r.alive = true →
      alGet m.hes r.twin = some rt → rt.alive = true → r.toV ≠ rt.toV →
      halfEdgesIn m r.toV = .ok inbound →
      (∀ j ∈ inbound, alHas m.hes j = true) →
      (∀ j rec, alGet m.hes j = some rec → rec.toV = r.toV → j ∈ inbound) →
      alHas m.hes r.prev = true → alHas m.hes rt.next = true →
      r.twin = r.next → r.twin ≠ r.prev → r.loop = rt.loop →
      ∃ m', contractEdge m he = .ok (m', rt.toV) ∧
        m'.vertices = m.vertices.erase r.toV ∧
        m'.loops = m.loops ∧
        (∀ j rec', alGet m'.hes j = some rec' → rec'.alive = true → rec'.toV ≠ r.toV) ∧
        (∀ j ∈ inbound, ∃ rec', alGet m'.hes j = some rec' ∧ rec'.toV = rt.toV) ∧
        (∃ rh, alGet m'.hes he = some rh ∧ rh.alive = false) ∧
        (∃ rw, alGet m'.hes r.twin = some rw ∧ rw.alive = false) ∧
        (∃ rp, alGet m'.hes r.prev = some rp ∧ rp.next = rt.next) ∧
        (∃ rn, alGet m'.hes rt.next = some rn ∧ rn.prev = r.prev)) ∧
    (∀ m he r rt inbound, alGet m.hes he = some r → r.alive = true →
      alGet m.hes r.twin = some rt → rt.alive = true → r.toV ≠ rt.toV →
      halfEdgesIn m r.toV = .ok inbound →
      (∀ j ∈ inbound, alHas m.hes j = true) →
      (∀ j rec, alGet m.hes j = some rec → rec.toV = r.toV → j ∈ inbound) →
      alHas m.hes rt.prev = true → alHas m.hes r.next = true →
      r.twin ≠ r.next → r.twin = r.prev → r.loop = rt.loop →
      ∃ m', contractEdge m he = .ok (m', rt.toV) ∧
        m'.vertices = m.vertices.erase r.toV ∧
        m'.loops = m.loops ∧
        (∀ j rec', alGet m'.hes j = some rec' → rec'.alive = true → rec'.toV ≠ r.toV) ∧
        (∀ j ∈ inbound, ∃ rec', alGet m'.hes j = some rec' ∧ rec'.toV = rt.toV) ∧
        (∃ rh, alGet m'.hes he = some rh ∧ rh.alive = false) ∧
        (∃ rw, alGet m'.hes r.twin = some rw ∧ rw.alive = false) ∧
        (∃ rp, alGet m'.hes rt.prev = some rp ∧ rp.next = r.next) ∧
        (∃ rn, alGet m'.hes r.next = some rn ∧ rn.prev = rt.prev)) ∧
    (∀ m he r rt inbound, alGet m.hes he = some r → r.alive = true →
      alGet m.hes r.twin = some rt → rt.alive = true → r.toV ≠ rt.toV →
      halfEdgesIn m r.toV = .ok inbound →
      (∀ j ∈ inbound, alHas m.hes j = true) →
      (∀ j rec, alGet m.hes j = some rec → rec.toV = r.toV → j ∈ inbound) →
      alHas m.hes r.prev = true → alHas m.hes r.next = true →
      alHas m.hes rt.prev = true → alHas m.hes rt.next = true →
      r.twin ≠ r.next → r.twin ≠ r.prev →
      r.prev ≠ rt.prev → r.next ≠ rt.next →
      ∃ m', contractEdge m he = .ok (m', rt.toV) ∧
        m'.vertices = m.vertices.erase r.toV ∧
        m'.loops = m.loops ∧
        (∀ j rec', alGet m'.hes j = some rec' → rec'.alive = true → rec'.toV ≠ r.toV) ∧
        (∀ j ∈ inbound, ∃ rec', alGet m'.hes j = some rec' ∧ rec'.toV = rt.toV) ∧
        (∃ rh, alGet m'.hes he = some rh ∧ rh.alive = false) ∧
        (∃ rw, alGet m'.hes r.twin = some rw ∧ rw.alive = false) ∧
        (∃ rp, alGet m'.hes r.prev = some rp ∧ rp.next = r.next) ∧
        (∃ rn, alGet m'.hes r.next = some rn ∧ rn.prev = r.prev) ∧
        (∃ rp2, alGet m'.hes rt.prev = some rp2 ∧ rp2.next = rt.next) ∧
        (∃ rn2, alGet m'.hes rt.next = some rn2 ∧ rn2.prev = rt.prev)) := by
  refine ⟨?_, ?_, ?_, ?_, ?_, ?_⟩
  · intro m he r rt hr hrt
    have h1 := getHE_eq hr
    have h2 := getHE_eq hrt
    simp only [fromOf, bind, Except.bind, h1, h2, pure, Except.pure]
  · intro m he r rt hr halive hrt htalive hself
    exact contractEdge_selfLoop m he r rt hr halive hrt htalive hself
  · intro m he r rt hr halive hrt htalive hne hn hp
    exact contractEdge_loneEdge m he r rt hr halive hrt htalive hne hn hp
  · intro m he r rt inbound hr halive hrt htalive hne hinb hinbhas hcov hhasp hhastn hn hp hl
    exact contractEdge_twinNext m he r rt inbound hr halive hrt htalive hne hinb hinbhas
      hcov hhasp hhastn hn hp hl
  · intro m he r rt inbound hr halive hrt htalive hne hinb hinbhas hcov hhastp hhasn hn hp hl
    exact contractEdge_twinPrev m he r rt inbound hr halive hrt htalive hne hinb hinbhas
      hcov hhastp hhasn hn hp hl
  · intro m he r rt inbound hr halive hrt htalive hne hinb hinbhas hcov hhasp hhasn hhastp
      hhastn hn hp hd1 hd2
    exact contractEdge_generic m he r rt inbound hr halive hrt htalive hne hinb hinbhas
      hcov hhasp hhasn hhastp hhastn hn hp hd1 hd2

/-- Counterexample to the original C8 text: on the consistent two-vertex
single-edge mesh, half-edge 3 is live, its target (vertex 1) differs from
its source (vertex 0), yet `contractEdge` fails instead of merging the
vertices. -/
theorem C8_counterexample :
    check edgePairMesh = .ok () ∧
    alGet edgePairMesh.hes 3 = some ⟨4, 4, 4, 1, 2, true⟩ ∧
    HE.alive ⟨4, 4, 4, 1, 2, true⟩ = true ∧
    fromOf edgePairMesh 3 = .ok 0 ∧
    (1 : Nat) ≠ 0 ∧
    (contractEdge edgePairMesh 3).isOk = false :=
  ⟨by rfl, rfl, rfl, by rfl, by decide, by rfl⟩

/-- Witness for C8 at concrete meshes: the bigon mesh (generic case and
returned vertex), the self-loop mesh (part ii), the lone-edge mesh
(part iii), and the two-edge tree (parts iv and v). -/
theorem C8_contractEdge_witness :
    fromOf bigonMesh 4 = .ok 0 ∧
    contractEdge selfLoopMesh 3 =
      .error (("cannot contract an edge starting and ending at the same vertex"), selfLoopMesh) ∧
    (contractEdge edgePairMesh 3).isOk = false ∧
    (∃ m', contractEdge treeMesh 3 = .ok (m', 0) ∧
      m'.vertices = treeMesh.vertices.erase 1 ∧
      m'.loops = treeMesh.loops ∧
      (∀ j rec', alGet m'.hes j = some rec' → rec'.alive = true → rec'.toV ≠ 1) ∧
      (∀ j ∈ [3], ∃ rec', alGet m'.hes j = some rec' ∧ rec'.toV = 0) ∧
      (∃ rh, alGet m'.hes 3 = some rh ∧ rh.alive = false) ∧
      (∃ rw, alGet m'.hes 4 = some rw ∧ rw.alive = false) ∧
      (∃ rp, alGet m'.hes 6 = some rp ∧ rp.next = 5) ∧
      (∃ rn, alGet m'.hes 5 = some rn ∧ rn.prev = 6)) ∧
    (∃ m', contractEdge treeMesh 4 = .ok (m', 1) ∧
      m'.vertices = treeMesh.vertices.erase 0 ∧
      m'.loops = treeMesh.loops ∧
      (∀ j rec', alGet m'.hes j = some rec' → rec'.alive = true → rec'.toV ≠ 0) ∧
      (∀ j ∈ [4, 6], ∃ rec', alGet m'.hes j = some rec' ∧ rec'.toV = 1) ∧
      (∃ rh, alGet m'.hes 4 = some rh ∧ rh.alive = false) ∧
      (∃ rw, alGet m'.hes 3 = some rw ∧ rw.alive = false) ∧
      (∃ rp, alGet m'.hes 6 = some rp ∧ rp.next = 5) ∧
      (∃ rn, alGet m'.hes 5 = some rn ∧ rn.prev = 6)) ∧
    (∃ m', contractEdge bigonMesh 4 = .ok (m', 0) ∧
      m'.vertices = bigonMesh.vertices.erase 1 ∧
      m'.loops = bigonMesh.loops ∧
      (∀ j rec', alGet m'.hes j = some rec' → rec'.alive = true → rec'.toV ≠ 1) ∧
      (∀ j ∈ [4, 6], ∃ rec', alGet m'.hes j = some rec' ∧ rec'.toV = 0) ∧
      (∃ rh, alGet m'.hes 4 = some rh ∧ rh.alive = false) ∧
      (∃ rw, alGet m'.hes 5 = some rw ∧ rw.alive = false) ∧
      (∃ rp, alGet m'.hes 7 = some rp ∧ rp.next = 7) ∧
      (∃ rn, alGet m'.hes 7 = some rn ∧ rn.prev = 7) ∧
      (∃ rp2, alGet m'.hes 6 = some rp2 ∧ rp2.next = 6) ∧
      (∃ rn2, alGet m'.hes 6 = some rn2 ∧ rn2.prev = 6)) :=
  ⟨C8_contractEdge_spec.1 bigonMesh 4 ⟨5, 7, 7, 1, 2, true⟩ ⟨4, 6, 6, 0, 3, true⟩ rfl rfl,
   C8_contractEdge_spec.2.1 selfLoopMesh 3 ⟨4, 3, 3, 0, 1, true⟩ ⟨3, 4, 4, 0, 2, true⟩
     rfl rfl rfl rfl rfl,
   C8_contractEdge_spec.2.2.1 edgePairMesh 3 ⟨4, 4, 4, 1, 2, true⟩ ⟨3, 3, 3, 0, 2, true⟩
     rfl rfl rfl rfl (by decide) rfl rfl,
   C8_contractEdge_spec.2.2.2.1 treeMesh 3 ⟨4, 6, 4, 1, 7, true⟩ ⟨3, 3, 5, 0, 7, true⟩ [3]
     rfl rfl rfl rfl (by decide) rfl (by decide) (cov_of_pairs (by decide)) rfl rfl rfl
     (by decide) rfl,
   C8_contractEdge_spec.2.2.2.2.1 treeMesh 4 ⟨3, 3, 5, 0, 7, true⟩ ⟨4, 6, 4, 1, 7, true⟩ [4, 6]
     rfl rfl rfl rfl (by decide) rfl (by decide) (cov_of_pairs (by decide)) rfl rfl
     (by decide) rfl rfl,
   C8_contractEdge_spec.2.2.2.2.2 bigonMesh 4 ⟨5, 7, 7, 1, 2, true⟩ ⟨4, 6, 6, 0, 3, true⟩ [4, 6]
     rfl rfl rfl rfl (by decide) rfl (by decide) (cov_of_pairs (by decide)) rfl rfl rfl rfl
     (by decide) (by decide) (by decide) (by decide)⟩

end StarFold.Kernel

namespace StarFold.MMesh

open StarFold StarFold.Geom StarFold.Kernel

lemma checkPeersEntries_cons (s : MState) (b he0 he1 : Nat) (rest : List (Nat × Nat))
    (r0 : HE) (l0 l1 : ℝ) (warns : List String)
    (hr0 : getHE s.mesh he0 = .ok r0) (hloop : r0.loop = b)
    (hrecip : alGet s.peers he1 = some he0)
    (hl0 : heLength s he0 = .ok l0) (hl1 : heLength s he1 = .ok l1)
    (hrest : checkPeersEntries s b rest = .ok warns) :
    checkPeersEntries s b ((he0, he1) :: rest) =
      .ok (if |l0 - l1| > 1 / 1000 then
        (("WARNING: peer lengths do not fit")) :: warns else warns) := by
  simp only [checkPeersEntries]
  rw [hr0]
  simp only [bind, Except.bind]
  rw [if_neg (show ¬ r0.loop ≠ b from fun h => h hloop),
    if_neg (show ¬ alGet s.peers he1 ≠ some he0 from fun h => h hrecip)]
  rw [hl0]
  simp only [bind, Except.bind]
  rw [hl1]
  simp only [bind, Except.bind]
  rw [hrest]
  simp only [pure, Except.pure]
  by_cases hc : |l0 - l1| > 1 / 1000
  · rw [if_pos hc, if_pos hc]
  · rw [if_neg hc, if_neg hc]

lemma checkPeersEntries_ok (s : MState) (b : Nat) (l : List (Nat × Nat))
    (h : ∀ p ∈ l, ∃ r0 l0 l1, getHE s.mesh p.1 = .ok r0 ∧ r0.loop = b ∧
      alGet s.peers p.2 = some p.1 ∧ heLength s p.1 = .ok l0 ∧ heLength s p.2 = .ok l1) :
    ∃ warns, checkPeersEntries s b l = .ok warns := by
  induction l with
  | nil => exact ⟨[], rfl⟩
  | cons p rest ih =>
      obtain ⟨r0, l0, l1, hr0, hloop, hrecip, hl0, hl1⟩ := h p (List.mem_cons_self p rest)
      obtain ⟨warns, hwarns⟩ := ih (fun q hq => h q (List.mem_cons_of_mem p hq))
      obtain ⟨he0, he1⟩ := p
      exact ⟨_, checkPeersEntries_cons s b he0 he1 rest r0 l0 l1 warns
        hr0 hloop hrecip hl0 hl1 hwarns⟩

lemma checkPeers_boundary_eq (s : MState) (b : Nat) (bhes : List Nat)
    (hb : s.boundary = some b) (hlhe : loopHalfEdges s.mesh b = .ok bhes)
    (hcov : ∀ h ∈ bhes, alHas s.peers h = true) :
    checkPeers s = checkPeersEntries s b s.peers := by
  simp only [checkPeers]
  rw [hb]
  simp only [bind, Except.bind]
  rw [hlhe]
  exact if_pos (List.all_eq_true.mpr hcov)

end StarFold.MMesh

namespace StarFold.MMesh

open StarFold StarFold.Geom StarFold.Kernel

lemma heLength_cex3 : heLength cexState 3 = .ok 1 := by
  have h0 : heLength cexState 3 = .ok (distance ⟨0, 0, 0⟩ ⟨1, 0, 0⟩) := rfl
  rw [h0]
  have hd : distance (⟨0, 0, 0⟩ : Vec3) ⟨1, 0, 0⟩ = 1 := by
    simp only [distance, vsub, vnorm, normSq]
    rw [show ((0:ℝ) - 1) ^ 2 + ((0:ℝ) - 0) ^ 2 + ((0:ℝ) - 0) ^ 2 = 1 by norm_num,
      Real.sqrt_one]
  rw [hd]

lemma heLength_cex4 : heLength cexState 4 = .ok 1 := by
  have h0 : heLength cexState 4 = .ok (distance ⟨1, 0, 0⟩ ⟨0, 0, 0⟩) := rfl
  rw [h0]
  have hd : distance (⟨1, 0, 0⟩ : Vec3) ⟨0, 0, 0⟩ = 1 := by
    simp only [distance, vsub, vnorm, normSq]
    rw [show ((1:ℝ) - 0) ^ 2 + ((0:ℝ) - 0) ^ 2 + ((0:ℝ) - 0) ^ 2 = 1 by norm_num,
      Real.sqrt_one]
  rw [hd]

lemma heLength_cex5 : heLength cexState 5 = .ok 2 := by
  have h0 : heLength cexState 5 = .ok (distance ⟨0, 0, 0⟩ ⟨2, 0, 0⟩) := rfl
  rw [h0]
  have hd : distance (⟨0, 0, 0⟩ : Vec3) ⟨2, 0, 0⟩ = 2 := by
    simp only [distance, vsub, vnorm, normSq]
    rw [show ((0:ℝ) - 2) ^ 2 + ((0:ℝ) - 0) ^ 2 + ((0:ℝ) - 0) ^ 2 = 2 ^ 2 by norm_num,
      Real.sqrt_sq (by norm_num : (0:ℝ) ≤ 2)]
  rw [hd]

lemma heLength_cex6 : heLength cexState 6 = .ok 2 := by
  have h0 : heLength cexState 6 = .ok (distance ⟨2, 0, 0⟩ ⟨0, 0, 0⟩) := rfl
  rw [h0]
  have hd : distance (⟨2, 0, 0⟩ : Vec3) ⟨0, 0, 0⟩ = 2 := by
    simp only [distance, vsub, vnorm, normSq]
    rw [show ((2:ℝ) - 0) ^ 2 + ((0:ℝ) - 0) ^ 2 + ((0:ℝ) - 0) ^ 2 = 2 ^ 2 by norm_num,
      Real.sqrt_sq (by norm_num : (0:ℝ) ≤ 2)]
  rw [hd]

/-- C3.  `checkPeers`: (i) with no boundary loop the peers map must be
empty (else the assertion fails); with a boundary loop `b`, (v) the check
fails as soon as some boundary half-edge carries no peer entry, and when
all of them do, it walks the peers map and (iii) fails when an entry's
first half-edge lies on a loop other than `b`, (iv) fails when an entry
is not reciprocated, but (ii) succeeds whenever every entry is on the
boundary and reciprocal and the lengths are defined — regardless of
whether peer lengths match: a mismatch beyond `1e-3` is only reported as
a warning, correcting the claim that the consistency check fails on
unequal peer lengths. -/
theorem C3_checkPeers_spec :
    (∀ s : MState, s.boundary = none →
      checkPeers s = (if s.peers = [] then .ok []
        else .error (("assertion failed: peers without boundary")))) ∧
    (∀ (s : MState) (b : Nat) (bhes : List Nat), s.boundary = some b →
      loopHalfEdges s.mesh b = .ok bhes →
      (∀ h ∈ bhes, alHas s.peers h = true) →
      (∀ p ∈ s.peers, ∃ r0 l0 l1, getHE s.mesh p.1 = .ok r0 ∧ r0.loop = b ∧
        alGet s.peers p.2 = some p.1 ∧ heLength s p.1 = .ok l0 ∧ heLength s p.2 = .ok l1) →
      ∃ warns, checkPeers s = .ok warns) ∧
    (∀ (s : MState) (b : Nat) (bhes : List Nat) (he0 he1 : Nat)
      (rest : List (Nat × Nat)) (r0 : HE),
      s.boundary = some b → loopHalfEdges s.mesh b = .ok bhes →
      (∀ h ∈ bhes, alHas s.peers h = true) →
      s.peers = (he0, he1) :: rest → getHE s.mesh he0 = .ok r0 → r0.loop ≠ b →
      checkPeers s = .error (("half-edge with peer found on non-boundary"))) ∧
    (∀ (s : MState) (b : Nat) (bhes : List Nat) (he0 he1 : Nat)
      (rest : List (Nat × Nat)) (r0 : HE),
      s.boundary = some b → loopHalfEdges s.mesh b = .ok bhes →
      (∀ h ∈ bhes, alHas s.peers h = true) →
      s.peers = (he0, he1) :: rest → getHE s.mesh he0 = .ok r0 → r0.loop = b →
      alGet s.peers he1 ≠ some he0 →
      checkPeers s = .error (("peers not reciprocal"))) ∧
    (∀ (s : MState) (b : Nat) (bhes : List Nat), s.boundary = some b →
      loopHalfEdges s.mesh b = .ok bhes →
      ¬ (∀ h ∈ bhes, alHas s.peers h = true) →
      checkPeers s =
        .error (("assertion failed: boundary half-edge without peer"))) := by
  refine ⟨?_, ?_, ?_, ?_, ?_⟩
  · intro s hb
    simp only [checkPeers]
    rw [hb]
  · intro s b bhes hb hlhe hcov hent
    obtain ⟨warns, hw⟩ := checkPeersEntries_ok s b s.peers hent
    exact ⟨warns, (checkPeers_boundary_eq s b bhes hb hlhe hcov).trans hw⟩
  · intro s b bhes he0 he1 rest r0 hb hlhe hcov hpeers hr0 hloop
    rw [checkPeers_boundary_eq s b bhes hb hlhe hcov, hpeers]
    simp only [checkPeersEntries]
    rw [hr0]
    simp only [bind, Except.bind]
    rw [if_pos hloop]
    rfl
  · intro s b bhes he0 he1 rest r0 hb hlhe hcov hpeers hr0 hloop hrecip
    rw [checkPeers_boundary_eq s b bhes hb hlhe hcov, hpeers]
    simp only [checkPeersEntries]
    rw [hr0]
    simp only [bind, Except.bind]
    rw [if_neg (show ¬ r0.loop ≠ b from fun h => h hloop), if_pos hrecip]
    rfl
  · intro s b bhes hb hlhe hncov
    simp only [checkPeers]
    rw [hb]
    simp only [bind, Except.bind]
    rw [hlhe]
    exact if_neg (fun hall => hncov (List.all_eq_true.mp hall))

/-- Counterexample to the original C3 text: in `cexState` the peers are
reciprocal and on the boundary, but pair lengths 1 and 2 differ by far
more than any tolerance — yet `checkPeers` succeeds, emitting only
warnings. -/
theorem C3_counterexample :
    heLength cexState 3 = .ok 1 ∧ heLength cexState 6 = .ok 2 ∧
    |(1 : ℝ) - 2| > 1 / 1000 ∧
    checkPeers cexState = .ok
      [(("WARNING: peer lengths do not fit")), (("WARNING: peer lengths do not fit")),
       (("WARNING: peer lengths do not fit")), (("WARNING: peer lengths do not fit"))] := by
  refine ⟨heLength_cex3, heLength_cex6, by norm_num, ?_⟩
  have e0 : checkPeersEntries cexState 7 [] = .ok [] := rfl
  have e1 := checkPeersEntries_cons cexState 7 5 4 [] ⟨6, 4, 6, 2, 7, true⟩ 2 1 []
    rfl rfl rfl heLength_cex5 heLength_cex4 e0
  rw [if_pos (by norm_num : |(2:ℝ) - 1| > 1 / 1000)] at e1
  have e2 := checkPeersEntries_cons cexState 7 4 5 [(5, 4)] ⟨3, 3, 5, 0, 7, true⟩ 1 2
    [(("WARNING: peer lengths do not fit"))]
    rfl rfl rfl heLength_cex4 heLength_cex5 e1
  rw [if_pos (by norm_num : |(1:ℝ) - 2| > 1 / 1000)] at e2
  have e3 := checkPeersEntries_cons cexState 7 6 3 [(4, 5), (5, 4)] ⟨5, 5, 3, 0, 7, true⟩ 2 1
    [(("WARNING: peer lengths do not fit")), (("WARNING: peer lengths do not fit"))]
    rfl rfl rfl heLength_cex6 heLength_cex3 e2
  rw [if_pos (by norm_num : |(2:ℝ) - 1| > 1 / 1000)] at e3
  have e4 := checkPeersEntries_cons cexState 7 3 6 [(6, 3), (4, 5), (5, 4)]
    ⟨4, 6, 4, 1, 7, true⟩ 1 2
    [(("WARNING: peer lengths do not fit")), (("WARNING: peer lengths do not fit")),
     (("WARNING: peer lengths do not fit"))]
    rfl rfl rfl heLength_cex3 heLength_cex6 e3
  rw [if_pos (by norm_num : |(1:ℝ) - 2| > 1 / 1000)] at e4
  exact (checkPeers_boundary_eq cexState 7 [3, 4, 5, 6] rfl rfl (by decide)).trans e4

/-- Witness for C3 at concrete states: the folded state with no boundary,
the structurally valid tree state (despite its length mismatch), the two
violating bigon states, and the bigon state whose boundary half-edges
carry no peer entries. -/
theorem C3_checkPeers_witness :
    checkPeers nbState = .ok [] ∧
    (∃ warns, checkPeers cexState = .ok warns) ∧
    checkPeers badLoopState = .error (("half-edge with peer found on non-boundary")) ∧
    checkPeers badRecipState = .error (("peers not reciprocal")) ∧
    checkPeers uncovState =
      .error (("assertion failed: boundary half-edge without peer")) := by
  refine ⟨?_, ?_, ?_, ?_, ?_⟩
  · rw [C3_checkPeers_spec.1 nbState rfl]
    rfl
  · refine C3_checkPeers_spec.2.1 cexState 7 [3, 4, 5, 6] rfl rfl (by decide) ?_
    intro p hp
    have hp' : p = (3, 6) ∨ p = (6, 3) ∨ p = (4, 5) ∨ p = (5, 4) := by
      have hp2 : p ∈ ([(3, 6), (6, 3), (4, 5), (5, 4)] : List (Nat × Nat)) := hp
      simpa using hp2
    rcases hp' with rfl | rfl | rfl | rfl
    · exact ⟨⟨4, 6, 4, 1, 7, true⟩, 1, 2, rfl, rfl, rfl, heLength_cex3, heLength_cex6⟩
    · exact ⟨⟨5, 5, 3, 0, 7, true⟩, 2, 1, rfl, rfl, rfl, heLength_cex6, heLength_cex3⟩
    · exact ⟨⟨3, 3, 5, 0, 7, true⟩, 1, 2, rfl, rfl, rfl, heLength_cex4, heLength_cex5⟩
    · exact ⟨⟨6, 4, 6, 2, 7, true⟩, 2, 1, rfl, rfl, rfl, heLength_cex5, heLength_cex4⟩
  · exact C3_checkPeers_spec.2.2.1 badLoopState 2 [4, 7] 5 4 [(4, 5), (7, 7)]
      ⟨4, 6, 6, 0, 3, true⟩ rfl rfl (by decide) rfl rfl (by decide)
  · exact C3_checkPeers_spec.2.2.2.1 badRecipState 2 [4, 7] 4 7 [(7, 7)]
      ⟨5, 7, 7, 1, 2, true⟩ rfl rfl (by decide) rfl rfl rfl (by decide)
  · exact C3_checkPeers_spec.2.2.2.2 uncovState 2 [4, 7] rfl rfl (by decide)

end StarFold.MMesh

namespace StarFold.MMesh

open StarFold StarFold.Geom StarFold.Kernel

lemma checkTriangles_error (s : MState) (l : Nat) (hes : List Nat) :
    ∀ loops : List Nat, l ∈ loops → s.boundary ≠ some l →
    loopHalfEdges s.mesh l = .ok hes → hes.length ≠ 3 →
    (∀ l' ∈ loops, s.boundary ≠ some l' → (loopHalfEdges s.mesh l').isOk = true) →
    checkTriangles s loops = .error (("cannot run contract with non-triangle face")) := by
  intro loops
  induction loops with
  | nil => intro h; cases h
  | cons l0 rest ih =>
      intro hmem hnb hlhe hlen hres
      simp only [checkTriangles]
      by_cases hb : s.boundary = some l0
      · rw [if_pos hb]
        rcases List.mem_cons.mp hmem with rfl | hmem'
        · exact absurd hb hnb
        · exact ih hmem' hnb hlhe hlen
            (fun x hx hbx => hres x (List.mem_cons_of_mem l0 hx) hbx)
      · rw [if_neg hb]
        have hok := hres l0 (List.mem_cons_self l0 rest) hb
        cases hg : loopHalfEdges s.mesh l0 with
        | error e => rw [hg] at hok; cases hok
        | ok hs0 =>
            simp only [bind, Except.bind]
            by_cases h3 : hs0.length = 3
            · rw [if_neg (fun hc => hc h3)]
              rcases List.mem_cons.mp hmem with rfl | hmem'
              · rw [hg] at hlhe
                cases hlhe
                exact absurd h3 hlen
              · exact ih hmem' hnb hlhe hlen
                  (fun x hx hbx => hres x (List.mem_cons_of_mem l0 hx) hbx)
            · rw [if_pos h3]
              rfl

/-- C6.  `contract`: a non-unary argument list or an iteration count
below 1 fails the argument validation; and whenever the mesh has a
non-boundary loop with half-edge count different from 3, the invocation
fails with the non-triangle error for every valid iteration count and
every continuation — that is, before the relaxation iterations (the only
code that moves vertices) or the gluing can run; the precheck covers all
non-boundary loops before the iterations begin. -/
theorem C6_contract_triangle_precheck :
    (∀ (relaxAndGlue : MState → Nat → Except String MState) (s : MState) (args : List Int),
      args.length ≠ 1 →
      contract relaxAndGlue s args = .error (("contract expects 1 argument"))) ∧
    (∀ (relaxAndGlue : MState → Nat → Except String MState) (s : MState) (n : Int),
      n < 1 →
      contract relaxAndGlue s [n] =
        .error (("The argument of contract should be the number of optimization steps."))) ∧
    (∀ (relaxAndGlue : MState → Nat → Except String MState) (s : MState) (n : Int)
      (l : Nat) (hes : List Nat),
      1 ≤ n → l ∈ s.mesh.loops → s.boundary ≠ some l →
      loopHalfEdges s.mesh l = .ok hes → hes.length ≠ 3 →
      (∀ l' ∈ s.mesh.loops, s.boundary ≠ some l' → (loopHalfEdges s.mesh l').isOk = true) →
      contract relaxAndGlue s [n] =
        .error (("cannot run contract with non-triangle face"))) := by
  refine ⟨?_, ?_, ?_⟩
  · intro rg s args hlen
    match args with
    | [] => rfl
    | [n] => exact absurd rfl hlen
    | a :: b :: rest => rfl
  · intro rg s n hn
    simp only [contract]
    exact if_pos hn
  · intro rg s n l hes hn hmem hnb hlhe hlen hres
    have hct := checkTriangles_error s l hes s.mesh.loops hmem hnb hlhe hlen hres
    have hstep : contract rg s [n] =
        (do checkTriangles s s.mesh.loops; rg s n.toNat) := by
      simp only [contract]
      exact if_neg (not_lt.mpr hn)
    rw [hstep]
    simp only [bind, Except.bind]
    rw [hct]

/-- Witness for C6 on the two-vertex single-edge state: its only loop has
2 half-edges and there is no boundary, so `contract` fails for the empty
argument list, for iteration count 0, and — via the precheck — for
iteration count 1. -/
theorem C6_contract_witness :
    contract (fun s _ => .ok s) nbState [] =
      .error (("contract expects 1 argument")) ∧
    contract (fun s _ => .ok s) nbState [0] =
      .error (("The argument of contract should be the number of optimization steps.")) ∧
    contract (fun s _ => .ok s) nbState [1] =
      .error (("cannot run contract with non-triangle face")) :=
  ⟨C6_contract_triangle_precheck.1 (fun s _ => .ok s) nbState [] (by decide),
   C6_contract_triangle_precheck.2.1 (fun s _ => .ok s) nbState 0 (by decide),
   C6_contract_triangle_precheck.2.2 (fun s _ => .ok s) nbState 1 2 [3, 4]
     (by decide) (by decide) (by decide) rfl (by decide) (by decide)⟩

end StarFold.MMesh

namespace StarFold.MMesh

open StarFold StarFold.Geom StarFold.Kernel

lemma setupLine_pos (outer : Nat) (s : MState) (fromPos : Vec3) (tips : List Nat)
    (line : SLine) (s' : MState) (pos' : Vec3) (tips' : List Nat)
    (h : setupLine outer (s, fromPos, tips) line = .ok (s', pos', tips')) :
    addMoves fromPos line.moves = .ok pos' := by
  simp only [setupLine, bind, Except.bind] at h
  cases ha : addMoves fromPos line.moves with
  | error e => rw [ha] at h; cases h
  | ok cp =>
      rw [ha] at h
      cases hsp : mapErr (splitEdgeAcross s.mesh outer) with
      | error e => rw [hsp] at h; cases h
      | ok t1 =>
          obtain ⟨m1, ihe0, ohe0⟩ := t1
          rw [hsp] at h
          dsimp only at h
          cases hfo : fromOf m1 ihe0 with
          | error e => rw [hfo] at h; cases h
          | ok tip =>
              rw [hfo] at h
              cases hsp2 : mapErr (splitEdgeAcross m1 outer) with
              | error e => rw [hsp2] at h; cases h
              | ok t2 =>
                  obtain ⟨m2, ihe1, ohe1⟩ := t2
                  rw [hsp2] at h
                  dsimp only at h
                  cases hfo2 : fromOf m2 ihe1 with
                  | error e => rw [hfo2] at h; cases h
                  | ok inward =>
                      rw [hfo2] at h
                      simp only [pure, Except.pure] at h
                      cases h
                      rfl

lemma fold_linesOffset (outer : Nat) :
    ∀ (lines : List SLine) (s0 : MState) (pos0 : Vec3) (tips0 : List Nat)
      (s' : MState) (pos' : Vec3) (tips' : List Nat),
    List.foldlM (setupLine outer) ((s0, pos0, tips0) : MState × Vec3 × List Nat) lines
      = .ok (s', pos', tips') →
    linesOffset pos0 lines = .ok pos' := by
  intro lines
  induction lines with
  | nil =>
      intro s0 pos0 tips0 s' pos' tips' h
      simp only [List.foldlM_nil, pure, Except.pure] at h
      cases h
      rfl
  | cons line rest ih =>
      intro s0 pos0 tips0 s' pos' tips' h
      simp only [List.foldlM_cons, bind, Except.bind] at h
      cases h1 : setupLine outer (s0, pos0, tips0) line with
      | error e => rw [h1] at h; cases h
      | ok acc1 =>
          obtain ⟨s1, pos1, tips1⟩ := acc1
          rw [h1] at h
          have haddm := setupLine_pos outer s0 pos0 tips0 line s1 pos1 tips1 h1
          simp only [linesOffset, bind, Except.bind]
          rw [haddm]
          exact ih s1 pos1 tips1 s' pos' tips' h

lemma setup_after_loop (checkData : MState → Except String Unit) (lines : List SLine)
    (s0 : MState) (il oh : Nat) (s1 : MState) (pos : Vec3) (tips : List Nat)
    (hc : setupCore checkData = .ok (s0, il, oh))
    (hl : List.foldlM (setupLine oh) ((s0, ⟨0, 0, 0⟩, []) : MState × Vec3 × List Nat) lines
      = .ok (s1, pos, tips)) :
    setup checkData lines =
      (if normSq pos > 1e-12 then .error (("polygon not closed"))
       else do
         let (m', _) ← mapErr (contractEdge s1.mesh oh)
         let s := { s1 with mesh := m', peers := alDel s1.peers oh }
         let s ← renameTips il s tips
         pure (s, tips)) := by
  simp only [setup, bind, Except.bind]
  rw [hc]
  dsimp only
  rw [hl]
  rfl

end StarFold.MMesh

namespace StarFold.MMesh

open StarFold StarFold.Geom StarFold.Kernel

/-- C4.  The setup closure check: (i) whenever `setup` succeeds, the
accumulated 2-D displacement over all lines is defined and its squared
norm is at most the code's bound `1e-12` — in particular at most the
claimed `1e-6`; (ii) whenever the displacement is defined with squared
norm above `1e-6`, `setup` fails; (iii) whenever the core bootstrap and
the setup loop complete and the squared norm exceeds the code's `1e-12`
bound, the failure is exactly the "polygon not closed" error. -/
theorem C4_setup_closure :
    (∀ (checkData : MState → Except String Unit) (lines : List SLine),
      (setup checkData lines).isOk = true →
      ∃ off, linesOffset ⟨0, 0, 0⟩ lines = .ok off ∧
        normSq off ≤ 1e-12 ∧ normSq off ≤ 1e-6) ∧
    (∀ (checkData : MState → Except String Unit) (lines : List SLine) (off : Vec3),
      linesOffset ⟨0, 0, 0⟩ lines = .ok off → normSq off > 1e-6 →
      (setup checkData lines).isOk = false) ∧
    (∀ (checkData : MState → Except String Unit) (lines : List SLine)
      (s0 : MState) (il oh : Nat) (s1 : MState) (pos : Vec3) (tips : List Nat),
      setupCore checkData = .ok (s0, il, oh) →
      List.foldlM (setupLine oh) ((s0, ⟨0, 0, 0⟩, []) : MState × Vec3 × List Nat) lines
        = .ok (s1, pos, tips) →
      normSq pos > 1e-12 →
      setup checkData lines = .error (("polygon not closed"))) := by
  refine ⟨?_, ?_, ?_⟩
  · intro checkData lines h
    cases hc : setupCore checkData with
    | error e =>
        rw [show setup checkData lines = .error e by
          simp only [setup, bind, Except.bind]; rw [hc]] at h
        cases h
    | ok t =>
        obtain ⟨s0, il, oh⟩ := t
        cases hl : List.foldlM (setupLine oh)
            ((s0, ⟨0, 0, 0⟩, []) : MState × Vec3 × List Nat) lines with
        | error e =>
            rw [show setup checkData lines = .error e by
              simp only [setup, bind, Except.bind]; rw [hc]; dsimp only; rw [hl]] at h
            cases h
        | ok acc =>
            obtain ⟨s1, pos, tips⟩ := acc
            have heq := setup_after_loop checkData lines s0 il oh s1 pos tips hc hl
            by_cases hn : normSq pos > 1e-12
            · rw [heq, if_pos hn] at h
              cases h
            · exact ⟨pos, fold_linesOffset oh lines s0 ⟨0, 0, 0⟩ [] s1 pos tips hl,
                not_lt.mp hn,
                le_trans (not_lt.mp hn) (by norm_num)⟩
  · intro checkData lines off hoff hgt
    cases hc : setupCore checkData with
    | error e =>
        rw [show setup checkData lines = .error e by
          simp only [setup, bind, Except.bind]; rw [hc]]
        rfl
    | ok t =>
        obtain ⟨s0, il, oh⟩ := t
        cases hl : List.foldlM (setupLine oh)
            ((s0, ⟨0, 0, 0⟩, []) : MState × Vec3 × List Nat) lines with
        | error e =>
            rw [show setup checkData lines = .error e by
              simp only [setup, bind, Except.bind]; rw [hc]; dsimp only; rw [hl]]
            rfl
        | ok acc =>
            obtain ⟨s1, pos, tips⟩ := acc
            have hcorr := fold_linesOffset oh lines s0 ⟨0, 0, 0⟩ [] s1 pos tips hl
            rw [hoff] at hcorr
            cases hcorr
            rw [setup_after_loop checkData lines s0 il oh s1 off tips hc hl,
              if_pos (lt_trans (by norm_num : (1e-12 : ℝ) < 1e-6) hgt)]
            rfl
  · intro checkData lines s0 il oh s1 pos tips hc hl hn
    rw [setup_after_loop checkData lines s0 il oh s1 pos tips hc hl, if_pos hn]

end StarFold.MMesh

namespace StarFold.MMesh

open StarFold StarFold.Geom StarFold.Kernel

lemma setup_demo : (setup (fun _ => .ok ()) demoLines).isOk = true := by
  have heq := setup_after_loop (fun _ => .ok ()) demoLines _ _ _ _ _ _ rfl rfl
  rw [heq, if_neg ?hn]
  case hn =>
    simp only [vadd, vsub, normSq, r3half]
    norm_num
  rfl

end StarFold.MMesh

namespace StarFold.MMesh

open StarFold StarFold.Geom StarFold.Kernel

/-- Witness for C4: the closed one-line star (east then west) sets up
successfully, hence its displacement is within both bounds; the open
one-line star (east only, displacement of squared norm 3) makes `setup`
fail, with exactly the "polygon not closed" error. -/
theorem C4_setup_witness :
    (∃ off, linesOffset ⟨0, 0, 0⟩ demoLines = .ok off ∧
      normSq off ≤ 1e-12 ∧ normSq off ≤ 1e-6) ∧
    (setup (fun _ => .ok ()) badLines).isOk = false ∧
    setup (fun _ => .ok ()) badLines = .error (("polygon not closed")) := by
  have hsq : Real.sqrt 3 ^ 2 = 3 := Real.sq_sqrt (by norm_num)
  refine ⟨C4_setup_closure.1 (fun _ => .ok ()) demoLines setup_demo, ?_, ?_⟩
  · refine C4_setup_closure.2.1 (fun _ => .ok ()) badLines _ rfl ?_
    simp only [vadd, normSq, r3half]
    nlinarith [hsq, Real.sqrt_nonneg 3]
  · refine C4_setup_closure.2.2 (fun _ => .ok ()) badLines _ _ _ _ _ _ rfl rfl ?_
    simp only [vadd, normSq, r3half]
    nlinarith [hsq, Real.sqrt_nonneg 3]

end StarFold.MMesh

namespace StarFold.GA

open StarFold.Geom

/-- The sandwich of a product of two 1-vectors on a 1-vector, expanded:
the composition of the two reflections `w ↦ 2⟪w,b⟫b - ⟪b,b⟫w` and then
the same in `a`. -/
lemma sandwich3_two_vec (a b w : Vec3) :
    sandwich3 (gp3 (vecMV a) (vecMV b)) (vecMV w) =
      vecMV (vsub (vscale (2 * vdot (vsub (vscale (2 * vdot w b) b) (vscale (normSq b) w)) a) a)
                  (vscale (normSq a) (vsub (vscale (2 * vdot w b) b) (vscale (normSq b) w)))) := by
  ext <;>
    simp only [sandwich3, gp3, rev3, vecMV, vsub, vscale, vdot, normSq] <;>
    ring

/-- The sandwich of a scalar-plus-bivector operator on a 1-vector is again
a 1-vector; its components, with the bivector given as the dual of a
1-vector scaled by `t`. -/
lemma sandwich3_rotor_vec (c t : ℝ) (u w : Vec3) :
    sandwich3 (add3 ⟨c, 0, 0, 0, 0, 0, 0, 0⟩ (smul3 t (dual3 (vecMV u)))) (vecMV w) =
      vecMV ⟨
        (c ^ 2 - t ^ 2 * (u.y ^ 2 + u.z ^ 2) + t ^ 2 * u.x ^ 2) * w.x
          + 2 * (t ^ 2 * u.x * u.y - c * t * u.z) * w.y
          + 2 * (t ^ 2 * u.x * u.z + c * t * u.y) * w.z,
        2 * (t ^ 2 * u.x * u.y + c * t * u.z) * w.x
          + (c ^ 2 - t ^ 2 * (u.x ^ 2 + u.z ^ 2) + t ^ 2 * u.y ^ 2) * w.y
          + 2 * (t ^ 2 * u.y * u.z - c * t * u.x) * w.z,
        2 * (t ^ 2 * u.x * u.z - c * t * u.y) * w.x
          + 2 * (t ^ 2 * u.y * u.z + c * t * u.x) * w.y
          + (c ^ 2 - t ^ 2 * (u.x ^ 2 + u.y ^ 2) + t ^ 2 * u.z ^ 2) * w.z⟩ := by
  ext <;>
    simp only [sandwich3, gp3, rev3, add3, smul3, dual3, vecMV] <;>
    ring

end StarFold.GA

namespace StarFold.GA

open StarFold.Geom

lemma vdot_comm (p q : Vec3) : vdot p q = vdot q p := by
  simp only [vdot]; ring

lemma getVec_vecMV (v : Vec3) : getVec (vecMV v) = v := rfl

lemma rotor_axial (c t : ℝ) (u w : Vec3) :
    vdot (getVec (sandwich3 (add3 ⟨c, 0, 0, 0, 0, 0, 0, 0⟩
        (smul3 t (dual3 (vecMV u)))) (vecMV w))) u
      = (c ^ 2 + t ^ 2 * normSq u) * vdot w u := by
  rw [sandwich3_rotor_vec, getVec_vecMV]
  simp only [vdot, normSq]
  ring

lemma rotor_normSq (c t : ℝ) (u w : Vec3) :
    normSq (getVec (sandwich3 (add3 ⟨c, 0, 0, 0, 0, 0, 0, 0⟩
        (smul3 t (dual3 (vecMV u)))) (vecMV w)))
      = (c ^ 2 + t ^ 2 * normSq u) ^ 2 * normSq w := by
  rw [sandwich3_rotor_vec, getVec_vecMV]
  simp only [vdot, normSq]
  ring

lemma rotor_dot_self (c t : ℝ) (u w : Vec3) :
    vdot (getVec (sandwich3 (add3 ⟨c, 0, 0, 0, 0, 0, 0, 0⟩
        (smul3 t (dual3 (vecMV u)))) (vecMV w))) w
      = (c ^ 2 - t ^ 2 * normSq u) * normSq w + 2 * t ^ 2 * (vdot w u) ^ 2 := by
  rw [sandwich3_rotor_vec, getVec_vecMV]
  simp only [vdot, normSq]
  ring

lemma twovec_axial (a b u w : Vec3) (ha : normSq a = 1) (hb : normSq b = 1)
    (hau : vdot a u = 0) (hbu : vdot b u = 0) :
    vdot (getVec (sandwich3 (gp3 (vecMV a) (vecMV b)) (vecMV w))) u = vdot w u := by
  rw [sandwich3_two_vec, getVec_vecMV]
  simp only [vdot, vsub, vscale, normSq] at *
  linear_combination (2 * (2 * (w.x * b.x + w.y * b.y + w.z * b.z) * (b.x * a.x + b.y * a.y + b.z * a.z)
      - (b.x ^ 2 + b.y ^ 2 + b.z ^ 2) * (w.x * a.x + w.y * a.y + w.z * a.z))) * hau
    - (a.x ^ 2 + a.y ^ 2 + a.z ^ 2) * 2 * (w.x * b.x + w.y * b.y + w.z * b.z) * hbu
    + (w.x * u.x + w.y * u.y + w.z * u.z) * (b.x ^ 2 + b.y ^ 2 + b.z ^ 2) * ha
    + (w.x * u.x + w.y * u.y + w.z * u.z) * hb

lemma twovec_normSq (a b w : Vec3) (ha : normSq a = 1) (hb : normSq b = 1) :
    normSq (getVec (sandwich3 (gp3 (vecMV a) (vecMV b)) (vecMV w))) = normSq w := by
  rw [sandwich3_two_vec, getVec_vecMV]
  have h1 : ∀ v : Vec3, normSq v = 1 → ∀ p : Vec3,
      normSq (vsub (vscale (2 * vdot p v) v) (vscale (normSq v) p)) = normSq p := by
    intro v hv p
    simp only [normSq, vsub, vscale, vdot] at *
    linear_combination ((v.x ^ 2 + v.y ^ 2 + v.z ^ 2 + 1)
      * (p.x ^ 2 + p.y ^ 2 + p.z ^ 2)) * hv
  rw [h1 a ha, h1 b hb]

end StarFold.GA

namespace StarFold.GA

open StarFold.Geom

lemma vdot_vscale_right (c : ℝ) (p q : Vec3) : vdot p (vscale c q) = c * vdot p q := by
  simp only [vdot, vscale]; ring

lemma vdot_vscale_left (c : ℝ) (p q : Vec3) : vdot (vscale c p) q = c * vdot p q := by
  simp only [vdot, vscale]; ring

lemma vdot_vadd_right (p q r : Vec3) : vdot p (vadd q r) = vdot p q + vdot p r := by
  simp only [vdot, vadd]; ring

lemma normSq_vscale (c : ℝ) (p : Vec3) : normSq (vscale c p) = c ^ 2 * normSq p := by
  simp only [normSq, vscale]; ring

lemma vscale_vscale (a b : ℝ) (p : Vec3) : vscale a (vscale b p) = vscale (a * b) p := by
  ext <;> simp only [vscale] <;> ring

lemma normSq_vadd (p q : Vec3) : normSq (vadd p q) = normSq p + 2 * vdot p q + normSq q := by
  simp only [normSq, vadd, vdot]; ring

lemma vdot_self (p : Vec3) : vdot p p = normSq p := by
  simp only [vdot, normSq]; ring

/-- The `rotatePoints` rotor `dir1 * dirMid` maps `dir2` exactly to
`dir1` (for unit `dir1`, `dir2` and the normalized mid direction). -/
lemma twovec_maps (d1 d2 m : Vec3) (h1 : normSq d1 = 1) (h2 : normSq d2 = 1)
    (hm : m = vscale (1 / Real.sqrt |normSq (vadd d1 d2)|) (vadd d1 d2))
    (hnz : normSq (vadd d1 d2) ≠ 0) :
    getVec (sandwich3 (gp3 (vecMV d1) (vecMV m)) (vecMV d2)) = d1 := by
  set μ : ℝ := 1 / Real.sqrt |normSq (vadd d1 d2)| with hμ
  have hK : μ ^ 2 * normSq (vadd d1 d2) = 1 := by
    rw [hμ, div_pow, one_pow, Real.sq_sqrt (abs_nonneg _),
      abs_of_nonneg (normSq_nonneg _)]
    field_simp
  have hs : normSq (vadd d1 d2) = 2 + 2 * vdot d2 d1 := by
    rw [normSq_vadd, h1, h2, vdot_comm]
    ring
  rw [sandwich3_two_vec, getVec_vecMV, hm]
  have hw' : vsub (vscale (2 * vdot d2 (vscale μ (vadd d1 d2))) (vscale μ (vadd d1 d2)))
      (vscale (normSq (vscale μ (vadd d1 d2))) d2) = vscale (μ ^ 2 * normSq (vadd d1 d2)) d1 := by
    rw [vdot_vscale_right, vscale_vscale, normSq_vscale, vdot_vadd_right, vdot_self, h2, hs]
    ext <;> simp only [vsub, vscale, vadd, vdot] <;> ring
  rw [hw', hK]
  have h1' : d1.x ^ 2 + d1.y ^ 2 + d1.z ^ 2 = 1 := h1
  ext
  · simp only [vsub, vscale, vdot, normSq]
    linear_combination d1.x * h1'
  · simp only [vsub, vscale, vdot, normSq]
    linear_combination d1.y * h1'
  · simp only [vsub, vscale, vdot, normSq]
    linear_combination d1.z * h1'

end StarFold.GA

namespace StarFold.GA

open StarFold.Geom

lemma smul3_smul3 (a b : ℝ) (x : MV3) : smul3 a (smul3 b x) = smul3 (a * b) x := by
  ext <;> simp only [smul3] <;> ring

lemma normSquared3_smul3 (c : ℝ) (a : MV3) :
    normSquared3 (smul3 c a) = c ^ 2 * normSquared3 a := by
  simp only [normSquared3, smul3]; ring

lemma normSquared3_dual_vec (u : Vec3) : normSquared3 (dual3 (vecMV u)) = normSq u := by
  simp only [normSquared3, dual3, vecMV, normSq]; ring

lemma normalize3_dual_vec (u : Vec3) (h : normSq u ≠ 0) :
    normalize3 (dual3 (vecMV u)) =
      .ok (smul3 (1 / Real.sqrt (normSq u)) (dual3 (vecMV u))) := by
  unfold normalize3
  rw [normSquared3_dual_vec, if_neg h]
  unfold norm3
  rw [normSquared3_dual_vec, abs_of_nonneg (normSq_nonneg u)]

lemma exp3_bend_rotor (θ : ℝ) (hθ : 0 < θ) (u : Vec3) (hu : normSq u ≠ 0) :
    exp3 (smul3 (-θ / 2) (smul3 (1 / Real.sqrt (normSq u)) (dual3 (vecMV u)))) =
      add3 ⟨Real.cos (θ / 2), 0, 0, 0, 0, 0, 0, 0⟩
        (smul3 (-Real.sin (θ / 2) / Real.sqrt (normSq u)) (dual3 (vecMV u))) := by
  have hsq : Real.sqrt (normSq u) ≠ 0 := by
    intro h
    exact hu (by
      have := Real.sq_sqrt (normSq_nonneg u)
      rw [h] at this
      simpa using this.symm)
  have hns : normSquared3 (smul3 (-θ / 2)
      (smul3 (1 / Real.sqrt (normSq u)) (dual3 (vecMV u)))) = (θ / 2) ^ 2 := by
    rw [smul3_smul3, normSquared3_smul3, normSquared3_dual_vec]
    have h2 : Real.sqrt (normSq u) ^ 2 = normSq u := Real.sq_sqrt (normSq_nonneg u)
    field_simp
    linear_combination (-4 * θ ^ 2) * h2
  have hn : norm3 (smul3 (-θ / 2)
      (smul3 (1 / Real.sqrt (normSq u)) (dual3 (vecMV u)))) = θ / 2 := by
    unfold norm3
    rw [hns, abs_of_nonneg (by positivity), Real.sqrt_sq (by positivity)]
  unfold exp3
  rw [hn, if_neg (by positivity)]
  ext <;>
    simp only [add3, smul3, dual3, vecMV] <;>
    field_simp <;>
    ring

end StarFold.GA

namespace StarFold.GA

open StarFold.Geom

lemma bend_rotor_unit (θ : ℝ) (u : Vec3) (hu : normSq u ≠ 0) :
    Real.cos (θ / 2) ^ 2 + (-Real.sin (θ / 2) / Real.sqrt (normSq u)) ^ 2 * normSq u = 1 := by
  have h2 : Real.sqrt (normSq u) ^ 2 = normSq u := Real.sq_sqrt (normSq_nonneg u)
  have hs : Real.sqrt (normSq u) ≠ 0 := by
    intro h
    rw [h] at h2
    simp at h2
    exact hu h2.symm
  have key : (-Real.sin (θ / 2) / Real.sqrt (normSq u)) ^ 2 * normSq u
      = Real.sin (θ / 2) ^ 2 := by
    rw [div_pow, neg_sq, h2, div_mul_cancel₀ _ hu]
  rw [key]
  linarith [Real.sin_sq_add_cos_sq (θ / 2)]

lemma bend_rotor_cos (θ : ℝ) (u : Vec3) (hu : normSq u ≠ 0) :
    Real.cos (θ / 2) ^ 2 - (-Real.sin (θ / 2) / Real.sqrt (normSq u)) ^ 2 * normSq u
      = Real.cos θ := by
  have h2 : Real.sqrt (normSq u) ^ 2 = normSq u := Real.sq_sqrt (normSq_nonneg u)
  have hs : Real.sqrt (normSq u) ≠ 0 := by
    intro h
    rw [h] at h2
    simp at h2
    exact hu h2.symm
  have hcos : Real.cos (θ / 2) ^ 2 - Real.sin (θ / 2) ^ 2 = Real.cos θ := by
    have hp := Real.sin_sq_add_cos_sq (θ / 2)
    have hc2 := Real.cos_two_mul (θ / 2)
    have ht : (2 : ℝ) * (θ / 2) = θ := by ring
    rw [ht] at hc2
    linarith
  have key : (-Real.sin (θ / 2) / Real.sqrt (normSq u)) ^ 2 * normSq u
      = Real.sin (θ / 2) ^ 2 := by
    rw [div_pow, neg_sq, h2, div_mul_cancel₀ _ hu]
  rw [key]
  linarith [hcos]

end StarFold.GA

namespace StarFold.MMesh

open StarFold StarFold.Geom StarFold.Kernel StarFold.GA

lemma posUpdate_fold (img : Vec3 → Vec3) :
    ∀ (pts : List Nat) (pl : List (Nat × Vec3)),
    (∀ v ∈ pts, alHas pl v = true) → pts.Nodup →
    ∃ pl', List.foldlM (fun pl v => do
        let pv ← (match alGet pl v with
          | some p => Except.ok p
          | none => Except.error (("missing position")))
        pure (alSet pl v (img pv))) pl pts = (Except.ok pl' : Except String _) ∧
      ∀ j, alGet pl' j = (if j ∈ pts then (alGet pl j).map img else alGet pl j) := by
  intro pts
  induction pts with
  | nil =>
      intro pl hhas hnd
      refine ⟨pl, rfl, ?_⟩
      intro j
      rw [if_neg (List.not_mem_nil j)]
  | cons v rest ih =>
      intro pl hhas hnd
      obtain ⟨pv, hpv⟩ := alGet_of_alHas (hhas v (List.mem_cons_self v rest))
      have hhas1 : ∀ x ∈ rest, alHas (alSet pl v (img pv)) x = true := by
        intro x hx
        unfold alHas
        rw [alGet_alSet]
        by_cases hxv : x = v
        · rw [if_pos hxv, hpv]; rfl
        · rw [if_neg hxv]
          exact hhas x (List.mem_cons_of_mem v hx)
      obtain ⟨pl', hrun, hpt⟩ := ih (alSet pl v (img pv)) hhas1 (List.Nodup.of_cons hnd)
      refine ⟨pl', ?_, ?_⟩
      · simp only [List.foldlM_cons, bind, Except.bind]
        rw [hpv]
        simp only [pure, Except.pure]
        exact hrun
      · intro j
        rw [hpt j]
        by_cases hjr : j ∈ rest
        · rw [if_pos hjr, if_pos (List.mem_cons_of_mem v hjr), alGet_alSet]
          have hjv : j ≠ v := by
            intro h
            rw [h] at hjr
            exact (List.nodup_cons.mp hnd).1 hjr
          rw [if_neg hjv]
        · rw [if_neg hjr, alGet_alSet]
          by_cases hjv : j = v
          · rw [if_pos hjv, if_pos (by rw [hjv]; exact List.mem_cons_self v rest)]
            rw [hjv, hpv]
            rfl
          · rw [if_neg hjv,
              if_neg (by
                intro hc
                rcases List.mem_cons.mp hc with h | h
                · exact hjv h
                · exact hjr h)]

lemma vnormalizeE_eq {v d : Vec3} (h : vnormalizeE v = .ok d) :
    normSq v ≠ 0 ∧ d = vscale (1 / Real.sqrt |normSq v|) v := by
  unfold vnormalizeE at h
  by_cases hz : normSq v = 0
  · rw [if_pos hz] at h; cases h
  · rw [if_neg hz] at h
    cases h
    exact ⟨hz, rfl⟩

lemma normSq_normalized (v : Vec3) (h : normSq v ≠ 0) :
    normSq (vscale (1 / Real.sqrt |normSq v|) v) = 1 := by
  rw [normSq_vscale, div_pow, one_pow, Real.sq_sqrt (abs_nonneg _),
    abs_of_nonneg (Geom.normSq_nonneg v)]
  field_simp

lemma vadd_vsub_cancel (a x : Vec3) : vsub (vadd a x) a = x := by
  ext <;> simp only [vsub, vadd] <;> ring

lemma rotatePoints_spec (s : MState) (pivot from0 : Vec3) (toP : FVec3)
    (pts : List Nat) (dir1 dir2 dirMid : Vec3)
    (hd1 : fnormalizeV (fsubV toP (finjV pivot)) = .ok dir1)
    (hd2 : vnormalizeE (vsub from0 pivot) = .ok dir2)
    (hdm : vnormalizeE (vadd dir1 dir2) = .ok dirMid)
    (hpos : ∀ v ∈ pts, alHas s.pos v = true)
    (hnodup : pts.Nodup) :
    ∃ s', rotatePoints s pivot from0 toP pts = .ok s' ∧
      s'.mesh = s.mesh ∧ s'.peers = s.peers ∧ s'.boundary = s.boundary ∧
      ∀ j, alGet s'.pos j =
        (if j ∈ pts then (alGet s.pos j).map (fun pv =>
          vadd (getVec (sandwich3 (gp3 (vecMV dir1) (vecMV dirMid))
            (vecMV (vsub pv pivot)))) pivot)
         else alGet s.pos j) := by
  obtain ⟨pl', hrun, hpt⟩ := posUpdate_fold
    (fun pv => vadd (getVec (sandwich3 (gp3 (vecMV dir1) (vecMV dirMid))
      (vecMV (vsub pv pivot)))) pivot) pts s.pos hpos hnodup
  refine ⟨{ s with pos := pl' }, ?_, rfl, rfl, rfl, hpt⟩
  unfold rotatePoints
  rw [hd1]
  simp only [bind, Except.bind]
  rw [hd2]
  simp only [Except.bind]
  rw [hdm]
  simp only [Except.bind]
  simp only [bind, Except.bind, pure, Except.pure] at hrun ⊢
  rw [hrun]

end StarFold.MMesh

namespace StarFold.MMesh

open StarFold StarFold.Geom StarFold.Kernel StarFold.GA

lemma bendStep_exec (angle : ℝ) (s : MState) (prevV curV : Nat)
    (face : Nat) (fhes : List Nat) (hfp hfc startV : Nat) (beyond : List Nat)
    (m : Mesh) (heSplit other : Nat) (rSplit : HE) (pn cn : List Char)
    (s1 : MState) (pivot pprev from0 : Vec3) (axis : MV3)
    (h1 : findUniqueFace s prevV curV = .ok face)
    (h2 : loopHalfEdges s.mesh face = .ok fhes)
    (h3 : findUniqueToV s.mesh fhes prevV = .ok hfp)
    (h4 : findUniqueToV s.mesh fhes curV = .ok hfc)
    (h5 : fromOf s.mesh hfc = .ok startV)
    (h6 : collectVertices s.mesh startV [prevV, curV] = .ok beyond)
    (h7 : splitLoop s.mesh hfc hfp Create.left = .ok (m, heSplit, other))
    (h8 : alGet m.hes heSplit = some rSplit)
    (h9 : getVName m prevV = .ok pn)
    (h10 : getVName m curV = .ok cn)
    (hs1 : s1 = { s with mesh :=
      { m with lname := alPut m.lname rSplit.loop (splitName pn cn) } })
    (h11 : alGet s1.pos curV = some pivot)
    (h12 : alGet s1.pos prevV = some pprev)
    (h13 : faceOrientation s1 heSplit = .ok from0)
    (haxisE : normalize3 (dual3 (vecMV (vsub pprev pivot))) = .ok axis) :
    bendStep angle s prevV curV =
      rotatePoints s1 pivot (vadd pivot from0)
        (finjV (vadd pivot (getVec (sandwich3 (exp3 (smul3 (-angle / 2) axis))
          (vecMV from0))))) beyond := by
  unfold bendStep
  rw [h1]
  simp only [bind, Except.bind]
  rw [h2]
  simp only [Except.bind]
  rw [h3]
  simp only [Except.bind]
  rw [h4]
  simp only [Except.bind]
  rw [h5]
  simp only [Except.bind]
  rw [h6]
  simp only [Except.bind]
  rw [h7]
  simp only [Except.bind]
  rw [show getHE m heSplit = .ok rSplit from getHE_eq h8]
  simp only [Except.bind]
  rw [h9]
  simp only [Except.bind]
  rw [h10]
  simp only [Except.bind]
  rw [← hs1]
  rw [show posOf s1 curV = .ok pivot by unfold posOf; rw [h11]]
  simp only [Except.bind]
  rw [show posOf s1 prevV = .ok pprev by unfold posOf; rw [h12]]
  simp only [Except.bind]
  rw [h13]
  simp only [Except.bind]
  rw [haxisE]

end StarFold.MMesh

namespace StarFold.MMesh

open StarFold StarFold.Geom StarFold.Kernel StarFold.GA

lemma fnormalizeV_finj (a b : Vec3) :
    fnormalizeV (fsubV (finjV a) (finjV b)) = vnormalizeE (vsub a b) := rfl

lemma normalize3_dual_ok {u : Vec3} {axis : MV3}
    (h : normalize3 (dual3 (vecMV u)) = .ok axis) :
    normSq u ≠ 0 ∧ axis = smul3 (1 / Real.sqrt (normSq u)) (dual3 (vecMV u)) := by
  by_cases hz : normSq u = 0
  · unfold normalize3 at h
    rw [normSquared3_dual_vec, if_pos hz] at h
    cases h
  · rw [normalize3_dual_vec u hz] at h
    cases h
    exact ⟨hz, rfl⟩

lemma vdot_vadd_left (p q r : Vec3) : vdot (vadd p q) r = vdot p r + vdot q r := by
  simp only [vdot, vadd]; ring

lemma bend_rotation_facts (angle : ℝ) (u from0 to0 : Vec3) (axis : MV3)
    (dir1 dir2 dirMid : Vec3)
    (haxisE : normalize3 (dual3 (vecMV u)) = .ok axis)
    (hto0 : to0 = getVec (sandwich3 (exp3 (smul3 (-angle / 2) axis)) (vecMV from0)))
    (hd1 : vnormalizeE to0 = .ok dir1)
    (hd2 : vnormalizeE from0 = .ok dir2)
    (hdm : vnormalizeE (vadd dir1 dir2) = .ok dirMid)
    (hang : 0 < angle) (hperp : vdot from0 u = 0) :
    (∀ w, vdot (getVec (sandwich3 (gp3 (vecMV dir1) (vecMV dirMid)) (vecMV w))) u
      = vdot w u) ∧
    (∀ w, normSq (getVec (sandwich3 (gp3 (vecMV dir1) (vecMV dirMid)) (vecMV w)))
      = normSq w) ∧
    getVec (sandwich3 (gp3 (vecMV dir1) (vecMV dirMid)) (vecMV dir2)) = dir1 ∧
    vdot dir1 dir2 = Real.cos angle := by
  obtain ⟨hu, haxisv⟩ := normalize3_dual_ok haxisE
  have hrotor : exp3 (smul3 (-angle / 2) axis) =
      add3 ⟨Real.cos (angle / 2), 0, 0, 0, 0, 0, 0, 0⟩
        (smul3 (-Real.sin (angle / 2) / Real.sqrt (normSq u)) (dual3 (vecMV u))) := by
    rw [haxisv]
    exact exp3_bend_rotor angle hang u hu
  have hto0u : vdot to0 u = 0 := by
    rw [hto0, hrotor, rotor_axial, hperp, mul_zero]
  have hto0n : normSq to0 = normSq from0 := by
    rw [hto0, hrotor, rotor_normSq, bend_rotor_unit angle u hu, one_pow, one_mul]
  have hto0f : vdot to0 from0 = Real.cos angle * normSq from0 := by
    rw [hto0, hrotor, rotor_dot_self, hperp, bend_rotor_cos angle u hu]
    ring
  obtain ⟨hnf, hdir2v⟩ := vnormalizeE_eq hd2
  obtain ⟨hnt, hdir1v⟩ := vnormalizeE_eq hd1
  obtain ⟨hnm, hdirmv⟩ := vnormalizeE_eq hdm
  have hd1unit : normSq dir1 = 1 := by rw [hdir1v]; exact normSq_normalized _ hnt
  have hd2unit : normSq dir2 = 1 := by rw [hdir2v]; exact normSq_normalized _ hnf
  have hdmunit : normSq dirMid = 1 := by rw [hdirmv]; exact normSq_normalized _ hnm
  have hd1u : vdot dir1 u = 0 := by
    rw [hdir1v, vdot_vscale_left, hto0u, mul_zero]
  have hd2u : vdot dir2 u = 0 := by
    rw [hdir2v, vdot_vscale_left, hperp, mul_zero]
  have hdmu : vdot dirMid u = 0 := by
    rw [hdirmv, vdot_vscale_left, vdot_vadd_left, hd1u, hd2u]
    ring
  refine ⟨?_, ?_, ?_, ?_⟩
  · intro w
    exact twovec_axial dir1 dirMid u w hd1unit hdmunit hd1u hdmu
  · intro w
    exact twovec_normSq dir1 dirMid w hd1unit hdmunit
  · exact twovec_maps dir1 dir2 dirMid hd1unit hd2unit hdirmv hnm
  · rw [hdir1v, hdir2v, vdot_vscale_left, vdot_vscale_right, hto0f]
    rw [abs_of_nonneg (Geom.normSq_nonneg to0), abs_of_nonneg (Geom.normSq_nonneg from0),
      hto0n]
    have hsq : Real.sqrt (normSq from0) ^ 2 = normSq from0 :=
      Real.sq_sqrt (Geom.normSq_nonneg from0)
    have hsne : Real.sqrt (normSq from0) ≠ 0 := by
      intro h
      rw [h] at hsq
      simp at hsq
      exact hnf hsq.symm
    rw [show (1 / Real.sqrt (normSq from0)) * ((1 / Real.sqrt (normSq from0))
        * (Real.cos angle * normSq from0)) = Real.cos angle
        * (normSq from0 / (Real.sqrt (normSq from0) * Real.sqrt (normSq from0))) from by
      ring]
    rw [Real.mul_self_sqrt (Geom.normSq_nonneg from0), div_self hnf, mul_one]

/-- C5.  A successful `bend` step over the pair `(prev, current)`:
(1) exactly the vertices of the collected far side of the new diagonal
move, every other vertex keeps its position; (2) each moved vertex is
mapped rigidly by the sandwich of the `rotatePoints` rotor around the
pivot `pos(current)`; and — correcting the claimed axis — (3) when the
face orientation vector is perpendicular to the diagonal vector
`u = pos(prev) - pos(current)` (as it is for a flat face, since the
diagonal lies in the face plane), the rotation's axis is the DIAGONAL
through `current`, not the perpendicular of the face: the map preserves
the component along `u` and all distances from the pivot, and it turns
the frame vector `dir2` onto `dir1` with `⟪dir1, dir2⟫ = cos(angle)`,
i.e. by exactly the given angle about `u`. -/
theorem C5_bend_step_spec (angle : ℝ) (s : MState) (prevV curV face : Nat)
    (fhes : List Nat) (hfp hfc startV : Nat) (beyond : List Nat) (m : Mesh)
    (heSplit other : Nat) (rSplit : HE) (pn cn : List Char) (s1 : MState)
    (pivot pprev from0 : Vec3) (axis : MV3) (dir1 dir2 dirMid : Vec3)
    (h1 : findUniqueFace s prevV curV = .ok face)
    (h2 : loopHalfEdges s.mesh face = .ok fhes)
    (h3 : findUniqueToV s.mesh fhes prevV = .ok hfp)
    (h4 : findUniqueToV s.mesh fhes curV = .ok hfc)
    (h5 : fromOf s.mesh hfc = .ok startV)
    (h6 : collectVertices s.mesh startV [prevV, curV] = .ok beyond)
    (h7 : splitLoop s.mesh hfc hfp Create.left = .ok (m, heSplit, other))
    (h8 : alGet m.hes heSplit = some rSplit)
    (h9 : getVName m prevV = .ok pn)
    (h10 : getVName m curV = .ok cn)
    (hs1 : s1 = { s with mesh :=
      { m with lname := alPut m.lname rSplit.loop (splitName pn cn) } })
    (h11 : alGet s1.pos curV = some pivot)
    (h12 : alGet s1.pos prevV = some pprev)
    (h13 : faceOrientation s1 heSplit = .ok from0)
    (haxisE : normalize3 (dual3 (vecMV (vsub pprev pivot))) = .ok axis)
    (hd1 : vnormalizeE (vsub (vadd pivot (getVec (sandwich3
      (exp3 (smul3 (-angle / 2) axis)) (vecMV from0)))) pivot) = .ok dir1)
    (hd2 : vnormalizeE (vsub (vadd pivot from0) pivot) = .ok dir2)
    (hdm : vnormalizeE (vadd dir1 dir2) = .ok dirMid)
    (hposb : ∀ v ∈ beyond, alHas s1.pos v = true)
    (hnodup : beyond.Nodup) :
    ∃ s', bendStep angle s prevV curV = .ok s' ∧
      s'.mesh = s1.mesh ∧ s'.peers = s1.peers ∧ s'.boundary = s1.boundary ∧
      (∀ j, j ∉ beyond → alGet s'.pos j = alGet s1.pos j) ∧
      (∀ j ∈ beyond, ∀ pv, alGet s1.pos j = some pv →
        alGet s'.pos j = some (vadd (getVec (sandwich3 (gp3 (vecMV dir1) (vecMV dirMid))
          (vecMV (vsub pv pivot)))) pivot)) ∧
      (0 < angle → vdot from0 (vsub pprev pivot) = 0 →
        (∀ w, vdot (getVec (sandwich3 (gp3 (vecMV dir1) (vecMV dirMid)) (vecMV w)))
          (vsub pprev pivot) = vdot w (vsub pprev pivot)) ∧
        (∀ w, normSq (getVec (sandwich3 (gp3 (vecMV dir1) (vecMV dirMid)) (vecMV w)))
          = normSq w) ∧
        getVec (sandwich3 (gp3 (vecMV dir1) (vecMV dirMid)) (vecMV dir2)) = dir1 ∧
        vdot dir1 dir2 = Real.cos angle) := by
  have hexec := bendStep_exec angle s prevV curV face fhes hfp hfc startV beyond m
    heSplit other rSplit pn cn s1 pivot pprev from0 axis
    h1 h2 h3 h4 h5 h6 h7 h8 h9 h10 hs1 h11 h12 h13 haxisE
  obtain ⟨s', hrun, hmesh, hpeers, hbd, hpt⟩ := rotatePoints_spec s1 pivot
    (vadd pivot from0)
    (finjV (vadd pivot (getVec (sandwich3 (exp3 (smul3 (-angle / 2) axis))
      (vecMV from0)))))
    beyond dir1 dir2 dirMid
    (by rw [fnormalizeV_finj]; exact hd1) hd2 hdm hposb hnodup
  refine ⟨s', hexec.trans hrun, hmesh, hpeers, hbd, ?_, ?_, ?_⟩
  · intro j hj
    rw [hpt j, if_neg hj]
  · intro j hj pv hpv
    rw [hpt j, if_pos hj, hpv]
    rfl
  · intro hang hperp
    exact bend_rotation_facts angle (vsub pprev pivot) from0
      (getVec (sandwich3 (exp3 (smul3 (-angle / 2) axis)) (vecMV from0))) axis
      dir1 dir2 dirMid haxisE rfl
      (by rw [vadd_vsub_cancel] at hd1; exact hd1)
      (by rw [vadd_vsub_cancel] at hd2; exact hd2)
      hdm hang hperp

end StarFold.MMesh

namespace StarFold.MMesh

open StarFold StarFold.Geom StarFold.Kernel StarFold.GA

lemma vnormalizeE_unit (v : Vec3) (h : normSq v = 1) : vnormalizeE v = .ok v := by
  unfold vnormalizeE
  rw [h, if_neg one_ne_zero]
  have : Real.sqrt |(1 : ℝ)| = 1 := by
    rw [abs_one, Real.sqrt_one]
  rw [this]
  congr 1
  ext <;> simp only [vscale] <;> ring

lemma c5_theta_pos : 0 < 2 * Real.arccos (3 / 5) := by
  have := Real.arccos_pos.mpr (by norm_num : (3 : ℝ) / 5 < 1)
  linarith

lemma c5_cos_half : Real.cos (2 * Real.arccos (3 / 5) / 2) = 3 / 5 := by
  rw [mul_div_cancel_left₀ _ (two_ne_zero)]
  exact Real.cos_arccos (by norm_num) (by norm_num)

lemma c5_sin_half : Real.sin (2 * Real.arccos (3 / 5) / 2) = 4 / 5 := by
  rw [mul_div_cancel_left₀ _ (two_ne_zero)]
  rw [Real.sin_arccos]
  rw [show (1 : ℝ) - (3 / 5) ^ 2 = (4 / 5) ^ 2 by norm_num]
  exact Real.sqrt_sq (by norm_num)

lemma c5_u_normSq : normSq (vsub (⟨1, 0, 0⟩ : Vec3) ⟨0, 0, 0⟩) = 1 := by
  simp only [normSq, vsub]
  norm_num

lemma c5_to0 :
    getVec (sandwich3 (exp3 (smul3 (-(2 * Real.arccos (3 / 5)) / 2)
        (smul3 (1 / Real.sqrt (normSq (vsub (⟨1, 0, 0⟩ : Vec3) ⟨0, 0, 0⟩)))
          (dual3 (vecMV (vsub (⟨1, 0, 0⟩ : Vec3) ⟨0, 0, 0⟩))))))
      (vecMV ⟨0, 1, 0⟩)) = ⟨0, -(7 / 25), -(24 / 25)⟩ := by
  rw [exp3_bend_rotor _ c5_theta_pos _ (by rw [c5_u_normSq]; norm_num)]
  rw [sandwich3_rotor_vec, getVec_vecMV]
  have hsq : Real.sqrt (normSq (vsub (⟨1, 0, 0⟩ : Vec3) ⟨0, 0, 0⟩)) = 1 := by
    rw [c5_u_normSq, Real.sqrt_one]
  rw [hsq, c5_cos_half, c5_sin_half]
  ext <;> simp only [vsub] <;> norm_num

end StarFold.MMesh

namespace StarFold.MMesh

open StarFold StarFold.Geom StarFold.Kernel StarFold.GA

lemma c5_axisE :
    normalize3 (dual3 (vecMV (vsub (⟨1, 0, 0⟩ : Vec3) ⟨0, 0, 0⟩))) = .ok c5axis := by
  unfold c5axis
  exact normalize3_dual_vec _ (by rw [c5_u_normSq]; norm_num)

lemma c5_face_or : faceOrientation c5s1 15 = .ok ⟨0, 1, 0⟩ := by
  obtain ⟨v, hv, hveq⟩ : ∃ v, faceOrientation c5s1 15 = .ok v ∧ v = ⟨0, 1, 0⟩ :=
    ⟨_, rfl, by
      ext <;> simp only [getVec, cl3, vecMV, vsub, add3, wedge3] <;> norm_num⟩
  rw [hveq] at hv
  exact hv

lemma c5_dir1 :
    vnormalizeE (vsub (vadd (⟨0, 0, 0⟩ : Vec3)
        (getVec (sandwich3 (exp3 (smul3 (-(2 * Real.arccos (3 / 5)) / 2) c5axis))
          (vecMV ⟨0, 1, 0⟩)))) ⟨0, 0, 0⟩) = .ok ⟨0, -(7 / 25), -(24 / 25)⟩ := by
  rw [vadd_vsub_cancel]
  unfold c5axis
  rw [c5_to0]
  exact vnormalizeE_unit _ (by simp only [normSq]; norm_num)

lemma c5_dir2 :
    vnormalizeE (vsub (vadd (⟨0, 0, 0⟩ : Vec3) ⟨0, 1, 0⟩) ⟨0, 0, 0⟩) =
      .ok ⟨0, 1, 0⟩ := by
  rw [vadd_vsub_cancel]
  exact vnormalizeE_unit _ (by simp only [normSq]; norm_num)

lemma c5_dirMid :
    vnormalizeE (vadd (⟨0, -(7 / 25), -(24 / 25)⟩ : Vec3) ⟨0, 1, 0⟩) =
      .ok ⟨0, 3 / 5, -(4 / 5)⟩ := by
  rw [show vadd (⟨0, -(7 / 25), -(24 / 25)⟩ : Vec3) ⟨0, 1, 0⟩ =
      ⟨0, 18 / 25, -(24 / 25)⟩ from by ext <;> simp only [vadd] <;> norm_num]
  unfold vnormalizeE
  rw [show normSq (⟨0, 18 / 25, -(24 / 25)⟩ : Vec3) = 36 / 25 from by
    simp only [normSq]; norm_num]
  rw [if_neg (by norm_num)]
  rw [show Real.sqrt |(36 / 25 : ℝ)| = 6 / 5 from by
    rw [abs_of_nonneg (by norm_num), show (36 / 25 : ℝ) = (6 / 5) ^ 2 from by norm_num]
    exact Real.sqrt_sq (by norm_num)]
  congr 1
  ext <;> simp only [vscale] <;> norm_num

end StarFold.MMesh

namespace StarFold.MMesh

open StarFold StarFold.Geom StarFold.Kernel StarFold.GA

/-- Witness for C5 at the quad configuration: bending `p c` by
`2·arccos(3/5)` succeeds, vertex `w` (outside the collected set) keeps
its position, vertex `x` moves to the image of the rotor sandwich, and
the frame dot product equals the cosine of the full angle. -/
theorem C5_bend_witness :
    ∃ s', bendStep (2 * Real.arccos (3 / 5)) c5state 2 0 = .ok s' ∧
      s'.mesh = c5s1.mesh ∧
      (∀ j, j ∉ [3] → alGet s'.pos j = alGet c5s1.pos j) ∧
      alGet s'.pos 3 = some ⟨0, -(7 / 25), -(24 / 25)⟩ ∧
      vdot (⟨0, -(7 / 25), -(24 / 25)⟩ : Vec3) ⟨0, 1, 0⟩ =
        Real.cos (2 * Real.arccos (3 / 5)) := by
  obtain ⟨s', hrun, hmesh, hpeers, hbd, hout, hin, hrot⟩ :=
    C5_bend_step_spec (2 * Real.arccos (3 / 5)) c5state 2 0 12 [4, 5, 6, 7] 5 7 3 [3]
      c5mSplit 15 16 ⟨16, 7, 6, 2, 14, true⟩ [('p')] [('c')] c5s1
      ⟨0, 0, 0⟩ ⟨1, 0, 0⟩ ⟨0, 1, 0⟩ c5axis
      ⟨0, -(7 / 25), -(24 / 25)⟩ ⟨0, 1, 0⟩ ⟨0, 3 / 5, -(4 / 5)⟩
      rfl rfl rfl rfl rfl rfl rfl rfl rfl rfl rfl rfl rfl
      c5_face_or c5_axisE c5_dir1 c5_dir2 c5_dirMid
      (by intro v hv; simp only [List.mem_singleton] at hv; subst hv; rfl)
      (by simp)
  obtain ⟨haxial, hiso, hmap, hcos⟩ :=
    hrot c5_theta_pos (by simp only [vdot, vsub]; norm_num)
  refine ⟨s', hrun, hmesh, hout, ?_, hcos⟩
  have h3 := hin 3 (by simp) ⟨0, 1, 0⟩ rfl
  rw [h3]
  congr 1
  rw [show vsub (⟨0, 1, 0⟩ : Vec3) ⟨0, 0, 0⟩ = ⟨0, 1, 0⟩ from by
    ext <;> simp only [vsub] <;> norm_num]
  rw [sandwich3_two_vec, getVec_vecMV]
  ext <;> simp only [vadd, vsub, vscale, vdot, normSq] <;> norm_num

/-- Counterexample to the claimed rotation axis: on the planar quad in
`z = 0`, a rotation about the axis through `current` perpendicular to
the face would keep every `z`-coordinate unchanged, but the bend step
moves vertex `x` from `(0,1,0)` to `(0,-7/25,-24/25)`, whose
`z`-coordinate differs. -/
theorem C5_counterexample :
    ∃ s', bendStep (2 * Real.arccos (3 / 5)) c5state 2 0 = .ok s' ∧
      alGet c5state.pos 3 = some ⟨0, 1, 0⟩ ∧
      alGet s'.pos 3 = some ⟨0, -(7 / 25), -(24 / 25)⟩ ∧
      (∀ angle w, (specPerpendicularAxisRotation angle (⟨0, 0, 0⟩ : Vec3) w).z = w.z) ∧
      (⟨0, -(7 / 25), -(24 / 25)⟩ : Vec3).z ≠ (⟨0, 1, 0⟩ : Vec3).z := by
  have hexec := bendStep_exec (2 * Real.arccos (3 / 5)) c5state 2 0 12 [4, 5, 6, 7]
      5 7 3 [3] c5mSplit 15 16 ⟨16, 7, 6, 2, 14, true⟩ [('p')] [('c')] c5s1
      ⟨0, 0, 0⟩ ⟨1, 0, 0⟩ ⟨0, 1, 0⟩ c5axis
      rfl rfl rfl rfl rfl rfl rfl rfl rfl rfl rfl rfl rfl c5_face_or c5_axisE
  obtain ⟨s', hrun, hmesh, hpeers, hbd, hpt⟩ := rotatePoints_spec c5s1 ⟨0, 0, 0⟩
      (vadd ⟨0, 0, 0⟩ ⟨0, 1, 0⟩)
      (finjV (vadd ⟨0, 0, 0⟩ (getVec (sandwich3 (exp3 (smul3
        (-(2 * Real.arccos (3 / 5)) / 2) c5axis)) (vecMV ⟨0, 1, 0⟩)))))
      [3] ⟨0, -(7 / 25), -(24 / 25)⟩ ⟨0, 1, 0⟩ ⟨0, 3 / 5, -(4 / 5)⟩
      (by rw [fnormalizeV_finj]; exact c5_dir1) c5_dir2 c5_dirMid
      (by intro v hv; simp only [List.mem_singleton] at hv; subst hv; rfl)
      (by simp)
  refine ⟨s', hexec.trans hrun, rfl, ?_, ?_, ?_⟩
  · have h3 := hpt 3
    rw [if_pos (by simp : (3 : Nat) ∈ [3])] at h3
    rw [h3, show alGet c5s1.pos 3 = some (⟨0, 1, 0⟩ : Vec3) from rfl]
    show some (vadd (getVec (sandwich3 (gp3 (vecMV ⟨0, -(7 / 25), -(24 / 25)⟩)
        (vecMV ⟨0, 3 / 5, -(4 / 5)⟩)) (vecMV (vsub ⟨0, 1, 0⟩ ⟨0, 0, 0⟩)))) ⟨0, 0, 0⟩) =
      some ⟨0, -(7 / 25), -(24 / 25)⟩
    congr 1
    rw [show vsub (⟨0, 1, 0⟩ : Vec3) ⟨0, 0, 0⟩ = ⟨0, 1, 0⟩ from by
      ext <;> simp only [vsub] <;> norm_num]
    rw [sandwich3_two_vec, getVec_vecMV]
    ext <;> simp only [vadd, vsub, vscale, vdot, normSq] <;> norm_num
  · intro angle w
    simp only [specPerpendicularAxisRotation, vadd]
    ring
  · show (-(24 / 25) : ℝ) ≠ (0 : ℝ)
    norm_num

end StarFold.MMesh

namespace StarFold.MMesh

open StarFold StarFold.Geom StarFold.Kernel StarFold.CGA

lemma bend2_exec (mergeK : MState → Except String MState)
    (ppOf : Vec3 → Vec3 → Vec3 → Vec3 → Vec3 → Vec3 → Biv5)
    (choice : Bool) (p q r : Nat) (s : MState)
    (heqb : Nat) (rqb : HE) (t2 s1 s2 : Nat)
    (face1 : Nat) (f1hes : List Nat) (h1q h1s1 : Nat)
    (m1 : Mesh) (heSp1 o1 : Nat) (rSp1 : HE) (qn1 s1n : List Char) (sA : MState)
    (face2 : Nat) (f2hes : List Nat) (h2s2 h2q : Nat)
    (m2 : Mesh) (heSp2 o2 : Nat) (rSp2 : HE) (qn2 s2n : List Char) (sB : MState)
    (beyond1 beyond2 : List Nat) (ps1 pt1 pq ps2 pt2 : Vec3)
    (hcp : checkBd s p = .ok ())
    (hcq : checkBd s q = .ok ())
    (hcr : checkBd s r = .ok ())
    (hhb : findUniqueOnBd s q = .ok heqb)
    (hrqb : alGet s.mesh.hes heqb = some rqb)
    (hpeers : alGet s.peers rqb.prev = some heqb)
    (ht2 : fromOf s.mesh rqb.prev = .ok t2)
    (hss : s1s2Search s.mesh p r 51 heqb = .ok (s1, s2))
    (hf1 : findUniqueFace s s1 q = .ok face1)
    (hf1h : loopHalfEdges s.mesh face1 = .ok f1hes)
    (hh1q : findUniqueToV s.mesh f1hes q = .ok h1q)
    (hh1s : findUniqueToV s.mesh f1hes s1 = .ok h1s1)
    (hsp1 : splitLoop s.mesh h1q h1s1 Create.left = .ok (m1, heSp1, o1))
    (hr1 : alGet m1.hes heSp1 = some rSp1)
    (hqn1 : getVName m1 q = .ok qn1)
    (hs1n : getVName m1 s1 = .ok s1n)
    (hsA : sA = { s with mesh :=
      { m1 with lname := alPut m1.lname rSp1.loop (splitName qn1 s1n) } })
    (hf2 : findUniqueFace sA q s2 = .ok face2)
    (hf2h : loopHalfEdges sA.mesh face2 = .ok f2hes)
    (hh2s : findUniqueToV sA.mesh f2hes s2 = .ok h2s2)
    (hh2q : findUniqueToV sA.mesh f2hes q = .ok h2q)
    (hsp2 : splitLoop sA.mesh h2s2 h2q Create.left = .ok (m2, heSp2, o2))
    (hr2 : alGet m2.hes heSp2 = some rSp2)
    (hqn2 : getVName m2 q = .ok qn2)
    (hs2n : getVName m2 s2 = .ok s2n)
    (hsB : sB = { s with mesh :=
      { m2 with lname := alPut m2.lname rSp2.loop (splitName qn2 s2n) } })
    (hb1 : collectVertices sB.mesh rqb.toV [s1, q, s2] = .ok beyond1)
    (hb2 : collectVertices sB.mesh t2 [s1, q, s2] = .ok beyond2)
    (hdis : beyond1.all (fun v => !(beyond2.contains v)) = true)
    (hps1 : alGet sB.pos s1 = some ps1)
    (hpt1 : alGet sB.pos rqb.toV = some pt1)
    (hpq : alGet sB.pos q = some pq)
    (hps2 : alGet sB.pos s2 = some ps2)
    (hpt2 : alGet sB.pos t2 = some pt2) :
    bend2 mergeK ppOf choice p q r s =
      bend2Tail mergeK ppOf choice q rqb.toV t2 s1 s2 beyond1 beyond2
        ps1 pt1 pq ps2 pt2 sB := by
  unfold bend2
  rw [hcp]
  simp only [bind, Except.bind]
  rw [hcq]
  simp only [Except.bind]
  rw [hcr]
  simp only [Except.bind]
  rw [hhb]
  simp only [Except.bind]
  rw [show getHE s.mesh heqb = .ok rqb from getHE_eq hrqb]
  simp only [Except.bind]
  rw [if_pos hpeers]
  simp only [Except.bind]
  rw [ht2]
  simp only [Except.bind]
  rw [hss]
  simp only [Except.bind]
  rw [hf1]
  simp only [Except.bind]
  rw [hf1h]
  simp only [Except.bind]
  rw [hh1q]
  simp only [Except.bind]
  rw [hh1s]
  simp only [Except.bind]
  rw [hsp1]
  simp only [Except.bind]
  rw [show getHE m1 heSp1 = .ok rSp1 from getHE_eq hr1]
  simp only [Except.bind]
  rw [hqn1]
  simp only [Except.bind]
  rw [hs1n]
  simp only [Except.bind]
  rw [← hsA]
  rw [show ({ m1 with lname := alPut m1.lname rSp1.loop (splitName qn1 s1n) } : Mesh)
    = sA.mesh from by rw [hsA]]
  rw [hf2]
  simp only [Except.bind]
  rw [hf2h]
  simp only [Except.bind]
  rw [hh2s]
  simp only [Except.bind]
  rw [hh2q]
  simp only [Except.bind]
  rw [hsp2]
  simp only [Except.bind]
  rw [show getHE m2 heSp2 = .ok rSp2 from getHE_eq hr2]
  simp only [Except.bind]
  rw [hqn2]
  simp only [Except.bind]
  rw [hs2n]
  simp only [Except.bind]
  rw [← hsB]
  rw [show ({ m2 with lname := alPut m2.lname rSp2.loop (splitName qn2 s2n) } : Mesh)
    = sB.mesh from by rw [hsB]]
  rw [hb1]
  simp only [Except.bind]
  rw [hb2]
  simp only [Except.bind]
  rw [if_pos hdis]
  simp only [Except.bind]
  rw [show posOf sB s1 = .ok ps1 from by unfold posOf; rw [hps1]]
  simp only [Except.bind]
  rw [show posOf sB rqb.toV = .ok pt1 from by unfold posOf; rw [hpt1]]
  simp only [Except.bind]
  rw [show posOf sB q = .ok pq from by unfold posOf; rw [hpq]]
  simp only [Except.bind]
  rw [show posOf sB s2 = .ok ps2 from by unfold posOf; rw [hps2]]
  simp only [Except.bind]
  rw [show posOf sB t2 = .ok pt2 from by unfold posOf; rw [hpt2]]
  simp only [Except.bind]
  rfl

end StarFold.MMesh

namespace StarFold.MMesh

open StarFold StarFold.Geom StarFold.Kernel StarFold.CGA

lemma reprToBase_nanvec (t : Tri5) :
    reprToBase ⟨none, none, none, none, none⟩ t =
        .error (("reprToBase: not a 1-vector")) ∨
      reprToBase ⟨none, none, none, none, none⟩ t = .ok ⟨none, none, none⟩ := by
  unfold reprToBase
  by_cases h : |t.xyz| > 1e-8 ∨ |t.xyp| > 1e-8 ∨ |t.xym| > 1e-8 ∨ |t.xzp| > 1e-8
      ∨ |t.xzm| > 1e-8 ∨ |t.yzp| > 1e-8 ∨ |t.yzm| > 1e-8 ∨ |t.xpm| > 1e-8
      ∨ |t.ypm| > 1e-8 ∨ |t.zpm| > 1e-8
  · rw [if_pos h]
    exact Or.inl rfl
  · rw [if_neg h]
    exact Or.inr rfl

lemma splitPointPair_neg (pp : Biv5) (hdisc : spBB pp pp ≤ -1e-10) :
    splitPointPair pp = .error (("trying to invert null vector")) ∨
    ∃ inv, splitPointPair pp =
      .ok ((⟨none, none, none, none, none⟩, gpBV3 pp inv),
           (⟨none, none, none, none, none⟩, gpBV3 pp inv)) := by
  have h0 : spBB pp pp < 0 := lt_of_le_of_lt hdisc (by norm_num)
  have hcl : ¬ (spBB pp pp < 0 ∧ (-1e-10 : ℝ) < spBB pp pp) := by
    intro hc
    exact absurd hc.2 (not_lt.mpr hdisc)
  unfold splitPointPair
  rw [if_neg hcl]
  rw [show fsqrt (some (spBB pp pp)) = none from by
    simp only [fsqrt]; rw [if_pos h0]]
  by_cases hnz : nsqV5 (clVB (negV5 ei5) pp) = 0
  · rw [show invV5 (clVB (negV5 ei5) pp) =
        .error (("trying to invert null vector")) from by
      unfold invV5; rw [if_pos hnz]]
    exact Or.inl rfl
  · rw [show invV5 (clVB (negV5 ei5) pp) =
        .ok (scaleV5 (1 / nsqV5 (clVB (negV5 ei5) pp)) (clVB (negV5 ei5) pp)) from by
      unfold invV5; rw [if_neg hnz]]
    refine Or.inr ⟨scaleV5 (1 / nsqV5 (clVB (negV5 ei5) pp)) (clVB (negV5 ei5) pp), ?_⟩
    rfl

lemma rotatePoints_nan (s : MState) (pivot from0 : Vec3) (pts : List Nat) :
    rotatePoints s pivot from0 ⟨none, none, none⟩ pts =
      .error (("trying to normalize null vector")) := rfl

/-- Core of C2: once the discriminant of the conformal point pair is at
most `-1e-10`, everything after the two face splits raises: either the
inverse of a null contraction, a genuinely large grade-3 residue, or —
on the main path — the `NaN` square root infecting both solution points,
whose normalization inside the first `rotatePoints` then fails, before
any position is assigned. -/
lemma bend2Tail_nan (mergeK : MState → Except String MState)
    (ppOf : Vec3 → Vec3 → Vec3 → Vec3 → Vec3 → Vec3 → Biv5)
    (choice : Bool) (q t1 t2 s1V s2V : Nat)
    (beyond1 beyond2 : List Nat) (ps1 pt1 pq ps2 pt2 : Vec3) (sB : MState)
    (hdisc : spBB (ppOf ps1 pt1 pq pt1 ps2 pt2) (ppOf ps1 pt1 pq pt1 ps2 pt2)
      ≤ -1e-10) :
    ∃ e, bend2Tail mergeK ppOf choice q t1 t2 s1V s2V beyond1 beyond2
      ps1 pt1 pq ps2 pt2 sB = .error e := by
  unfold bend2Tail intersect3Spheres
  rcases splitPointPair_neg (ppOf ps1 pt1 pq pt1 ps2 pt2) hdisc with h | ⟨inv, h⟩
  · rw [h]
    exact ⟨_, rfl⟩
  · rw [h]
    simp only [bind, Except.bind]
    rcases reprToBase_nanvec (gpBV3 (ppOf ps1 pt1 pq pt1 ps2 pt2) inv) with h1 | h1
    · rw [h1]
      exact ⟨_, rfl⟩
    · rw [h1]
      simp only [bind, Except.bind, pure, Except.pure]
      rw [ite_self (⟨none, none, none⟩ : FVec3)]
      rw [rotatePoints_nan]
      exact ⟨_, rfl⟩

end StarFold.MMesh

namespace StarFold.MMesh

open StarFold StarFold.Geom StarFold.Kernel StarFold.CGA

/-- C2.  For every invocation of `bend2` that reaches the sphere
intersection (the argument checks, boundary-pair resolution, peer
check, `s1`/`s2` search, the two face splits and the flap collections
all succeed) in which the conformal point pair has negative
discriminant (`pp * pp ≤ -1e-10`, i.e. genuinely negative and not
merely a `-1e-10 < d < 0` rounding residue, which the source clamps to
a tangent contact), `bend2` raises an error for every merge
continuation: either inverting the null contraction fails, or an
oversized grade-3 residue fails `reprToBase`, or — on the main path —
the square root of the negative discriminant is `NaN`, both solution
points decode to all-`NaN` points, and normalizing the first rotation
direction fails, before any position is assigned. -/
theorem C2_bend2_negative_discriminant
    (ppOf : Vec3 → Vec3 → Vec3 → Vec3 → Vec3 → Vec3 → Biv5)
    (choice : Bool) (p q r : Nat) (s : MState)
    (heqb : Nat) (rqb : HE) (t2 s1 s2 : Nat)
    (face1 : Nat) (f1hes : List Nat) (h1q h1s1 : Nat)
    (m1 : Mesh) (heSp1 o1 : Nat) (rSp1 : HE) (qn1 s1n : List Char) (sA : MState)
    (face2 : Nat) (f2hes : List Nat) (h2s2 h2q : Nat)
    (m2 : Mesh) (heSp2 o2 : Nat) (rSp2 : HE) (qn2 s2n : List Char) (sB : MState)
    (beyond1 beyond2 : List Nat) (ps1 pt1 pq ps2 pt2 : Vec3)
    (hcp : checkBd s p = .ok ())
    (hcq : checkBd s q = .ok ())
    (hcr : checkBd s r = .ok ())
    (hhb : findUniqueOnBd s q = .ok heqb)
    (hrqb : alGet s.mesh.hes heqb = some rqb)
    (hpeers : alGet s.peers rqb.prev = some heqb)
    (ht2 : fromOf s.mesh rqb.prev = .ok t2)
    (hss : s1s2Search s.mesh p r 51 heqb = .ok (s1, s2))
    (hf1 : findUniqueFace s s1 q = .ok face1)
    (hf1h : loopHalfEdges s.mesh face1 = .ok f1hes)
    (hh1q : findUniqueToV s.mesh f1hes q = .ok h1q)
    (hh1s : findUniqueToV s.mesh f1hes s1 = .ok h1s1)
    (hsp1 : splitLoop s.mesh h1q h1s1 Create.left = .ok (m1, heSp1, o1))
    (hr1 : alGet m1.hes heSp1 = some rSp1)
    (hqn1 : getVName m1 q = .ok qn1)
    (hs1n : getVName m1 s1 = .ok s1n)
    (hsA : sA = { s with mesh :=
      { m1 with lname := alPut m1.lname rSp1.loop (splitName qn1 s1n) } })
    (hf2 : findUniqueFace sA q s2 = .ok face2)
    (hf2h : loopHalfEdges sA.mesh face2 = .ok f2hes)
    (hh2s : findUniqueToV sA.mesh f2hes s2 = .ok h2s2)
    (hh2q : findUniqueToV sA.mesh f2hes q = .ok h2q)
    (hsp2 : splitLoop sA.mesh h2s2 h2q Create.left = .ok (m2, heSp2, o2))
    (hr2 : alGet m2.hes heSp2 = some rSp2)
    (hqn2 : getVName m2 q = .ok qn2)
    (hs2n : getVName m2 s2 = .ok s2n)
    (hsB : sB = { s with mesh :=
      { m2 with lname := alPut m2.lname rSp2.loop (splitName qn2 s2n) } })
    (hb1 : collectVertices sB.mesh rqb.toV [s1, q, s2] = .ok beyond1)
    (hb2 : collectVertices sB.mesh t2 [s1, q, s2] = .ok beyond2)
    (hdis : beyond1.all (fun v => !(beyond2.contains v)) = true)
    (hps1 : alGet sB.pos s1 = some ps1)
    (hpt1 : alGet sB.pos rqb.toV = some pt1)
    (hpq : alGet sB.pos q = some pq)
    (hps2 : alGet sB.pos s2 = some ps2)
    (hpt2 : alGet sB.pos t2 = some pt2)
    (hdisc : spBB (ppOf ps1 pt1 pq pt1 ps2 pt2) (ppOf ps1 pt1 pq pt1 ps2 pt2)
      ≤ -1e-10) :
    ∀ mergeK, ∃ e, bend2 mergeK ppOf choice p q r s = .error e := by
  intro mergeK
  rw [bend2_exec mergeK ppOf choice p q r s heqb rqb t2 s1 s2 face1 f1hes h1q h1s1
    m1 heSp1 o1 rSp1 qn1 s1n sA face2 f2hes h2s2 h2q m2 heSp2 o2 rSp2 qn2 s2n sB
    beyond1 beyond2 ps1 pt1 pq ps2 pt2
    hcp hcq hcr hhb hrqb hpeers ht2 hss hf1 hf1h hh1q hh1s hsp1 hr1 hqn1 hs1n hsA
    hf2 hf2h hh2s hh2q hsp2 hr2 hqn2 hs2n hsB hb1 hb2 hdis hps1 hpt1 hpq hps2 hpt2]
  exact bend2Tail_nan mergeK ppOf choice q rqb.toV t2 s1 s2 beyond1 beyond2
    ps1 pt1 pq ps2 pt2 sB hdisc

end StarFold.MMesh

namespace StarFold.MMesh

open StarFold StarFold.Geom StarFold.Kernel StarFold.CGA

/-- Witness for C2 on the pentagon: with a negative-discriminant point
pair, `bend2` raises an error (here: the `NaN` root infects both
solution points and the first rotation's normalization fails). -/
theorem C2_bend2_witness :
    ∃ e, bend2 (fun st => Except.ok st) ppOfC2 true 0 2 4 c7state = .error e :=
  C2_bend2_negative_discriminant ppOfC2 true 0 2 4 c7state
    13 ⟨6, 14, 12, 1, 11, true⟩ 3 0 4 10 [5, 6, 7, 8, 9] 6 9
    c7m1 18 19 ⟨19, 6, 5, 0, 17, true⟩ [('q')] [('a')] c7sA
    10 [19, 7, 8, 9] 8 19
    c7m2 21 22 ⟨22, 8, 7, 2, 20, true⟩ [('q')] [('r')] c7sB
    [1] [3] ⟨-3, 0, 0⟩ ⟨-1, 1, 0⟩ ⟨0, 0, 0⟩ ⟨3, 0, 0⟩ ⟨-(7 / 4), 1, 0⟩
    rfl rfl rfl rfl rfl rfl rfl rfl rfl rfl rfl rfl rfl rfl rfl rfl rfl
    rfl rfl rfl rfl rfl rfl rfl rfl rfl rfl rfl rfl rfl rfl rfl rfl rfl
    (by show spBB ⟨2, 0, 0, 1, 0, 0, 0, 0, 0, 0⟩ ⟨2, 0, 0, 1, 0, 0, 0, 0, 0, 0⟩
          ≤ -1e-10
        simp only [spBB]
        norm_num)
    (fun st => Except.ok st)

end StarFold.MMesh

namespace StarFold.MMesh

open StarFold StarFold.Geom StarFold.Kernel StarFold.CGA

lemma fmul_some (a b : ℝ) : fmul (some a) (some b) = some (a * b) := rfl

lemma fadd_some (a b : ℝ) : fadd (some a) (some b) = some (a + b) := rfl

lemma fsubF_some (a b : ℝ) : fsubF (some a) (some b) = some (a - b) := rfl

lemma fneg_some (a : ℝ) : fneg (some a) = some (-a) := rfl

end StarFold.MMesh

namespace StarFold.CGA

open StarFold StarFold.Geom StarFold.MMesh

lemma c7_disc : spBB ppC7 ppC7 = 1 := by
  simp only [spBB, ppC7]
  norm_num

lemma c7_denom : clVB (negV5 ei5) ppC7 = ⟨1, 7 / 25, -(24 / 25), -1, -1⟩ := by
  simp only [clVB, negV5, ei5, ppC7]
  ext <;> norm_num

lemma c7_inv :
    invV5 ⟨1, 7 / 25, -(24 / 25), -1, -1⟩ =
      .ok ⟨1 / 2, 7 / 50, -(12 / 25), -(1 / 2), -(1 / 2)⟩ := by
  unfold invV5
  rw [show nsqV5 ⟨1, 7 / 25, -(24 / 25), -1, -1⟩ = 2 from by
    simp only [nsqV5]; norm_num]
  rw [if_neg (by norm_num : (2 : ℝ) ≠ 0)]
  congr 1
  ext <;> simp only [scaleV5] <;> norm_num

lemma c7_pr1 :
    gpSBV (some 1) ppC7 ⟨1 / 2, 7 / 50, -(12 / 25), -(1 / 2), -(1 / 2)⟩ =
      (⟨some 0, some 0, some 0, some (-(1 / 2)), some (1 / 2)⟩,
       ⟨0, 0, 0, 0, 0, 0, 0, 0, 0, 0⟩) := by
  unfold gpSBV
  refine congrArg₂ Prod.mk ?_ ?_
  · ext <;>
      simp only [gpBV1, ppC7, fmul_some, fadd_some, Option.some.injEq] <;>
      norm_num
  · ext <;> simp only [gpBV3, ppC7] <;> norm_num

lemma c7_pr2 :
    gpSBV (fneg (some 1)) ppC7 ⟨1 / 2, 7 / 50, -(12 / 25), -(1 / 2), -(1 / 2)⟩ =
      (⟨some (-1), some (-(7 / 25)), some (24 / 25), some (1 / 2), some (3 / 2)⟩,
       ⟨0, 0, 0, 0, 0, 0, 0, 0, 0, 0⟩) := by
  unfold gpSBV
  rw [fneg_some]
  refine congrArg₂ Prod.mk ?_ ?_
  · ext <;>
      simp only [gpBV1, ppC7, fmul_some, fadd_some, Option.some.injEq] <;>
      norm_num
  · ext <;> simp only [gpBV3, ppC7] <;> norm_num

lemma c7_spp :
    splitPointPair ppC7 =
      .ok ((⟨some 0, some 0, some 0, some (-(1 / 2)), some (1 / 2)⟩,
            ⟨0, 0, 0, 0, 0, 0, 0, 0, 0, 0⟩),
           (⟨some (-1), some (-(7 / 25)), some (24 / 25), some (1 / 2), some (3 / 2)⟩,
            ⟨0, 0, 0, 0, 0, 0, 0, 0, 0, 0⟩)) := by
  unfold splitPointPair
  rw [c7_disc]
  rw [if_neg (by norm_num : ¬ ((1 : ℝ) < 0 ∧ (-1e-10 : ℝ) < 1))]
  rw [show fsqrt (some (1 : ℝ)) = some 1 from by
    simp only [fsqrt]
    rw [if_neg (by norm_num : ¬ ((1 : ℝ) < 0)), Real.sqrt_one]]
  rw [c7_denom]
  rw [c7_inv]
  simp only [bind, Except.bind, pure, Except.pure]
  rw [c7_pr1, c7_pr2]

end StarFold.CGA

namespace StarFold.MMesh

open StarFold StarFold.Geom StarFold.Kernel StarFold.CGA

lemma c7_rb1 :
    reprToBase ⟨some 0, some 0, some 0, some (-(1 / 2)), some (1 / 2)⟩
        ⟨0, 0, 0, 0, 0, 0, 0, 0, 0, 0⟩ = .ok (finjV ⟨0, 0, 0⟩) := by
  unfold reprToBase
  rw [if_neg (by norm_num)]
  have ho : fsubF (some (1 / 2 : ℝ)) (some (-(1 / 2))) = some 1 := by
    rw [fsubF_some]; norm_num
  dsimp only
  rw [ho]
  rw [show fdiv (some (1 : ℝ)) (some 1) = some 1 from by
    show (if (1 : ℝ) = 0 then none else some ((1 : ℝ) / 1)) = some 1
    rw [if_neg one_ne_zero]
    norm_num]
  congr 1
  ext <;> simp only [finjV, fmul_some, Option.some.injEq] <;> norm_num

lemma c7_rb2 :
    reprToBase ⟨some (-1), some (-(7 / 25)), some (24 / 25), some (1 / 2), some (3 / 2)⟩
        ⟨0, 0, 0, 0, 0, 0, 0, 0, 0, 0⟩ =
      .ok (finjV ⟨-1, -(7 / 25), 24 / 25⟩) := by
  unfold reprToBase
  rw [if_neg (by norm_num)]
  have ho : fsubF (some (3 / 2 : ℝ)) (some (1 / 2)) = some 1 := by
    rw [fsubF_some]; norm_num
  dsimp only
  rw [ho]
  rw [show fdiv (some (1 : ℝ)) (some 1) = some 1 from by
    show (if (1 : ℝ) = 0 then none else some ((1 : ℝ) / 1)) = some 1
    rw [if_neg one_ne_zero]
    norm_num]
  congr 1
  ext <;> simp only [finjV, fmul_some, Option.some.injEq] <;> norm_num

lemma c7_inters :
    intersect3Spheres ppOfC7 ⟨-3, 0, 0⟩ ⟨-1, 1, 0⟩ ⟨0, 0, 0⟩ ⟨-1, 1, 0⟩ ⟨3, 0, 0⟩
        ⟨-(7 / 4), 1, 0⟩ =
      .ok (finjV ⟨0, 0, 0⟩, finjV ⟨-1, -(7 / 25), 24 / 25⟩) := by
  unfold intersect3Spheres
  simp only [ppOfC7]
  rw [c7_spp]
  simp only [bind, Except.bind]
  rw [c7_rb1]
  simp only [Except.bind]
  rw [c7_rb2]
  simp only [Except.bind, pure, Except.pure]

end StarFold.MMesh

namespace StarFold.MMesh

open StarFold StarFold.Geom StarFold.Kernel StarFold.CGA

/-- C7.  For every invocation of `bend2` whose pre-phase and geometry
phase succeed (argument checks, boundary pair, peers, `s1`/`s2` search,
both splits, both flap collections, the sphere intersection and both
flap rotations), if the distance between the rotated images of the two
tips `t1` and `t2` is not below `1e-8`, then `bend2` fails with the
source's `assert(this.distance(t1, t2) < 1e-8)` ("assertion failed")
for EVERY merge continuation `mergeK` — i.e. the merge phase (the
temporary split/contract, `dropEdge`, peer deletions and tip renaming
of src/index.tsx 742-755) is never executed. -/
theorem C7_bend2_alignment_assert
    (ppOf : Vec3 → Vec3 → Vec3 → Vec3 → Vec3 → Vec3 → Biv5)
    (choice : Bool) (p q r : Nat) (s : MState)
    (heqb : Nat) (rqb : HE) (t2 s1 s2 : Nat)
    (face1 : Nat) (f1hes : List Nat) (h1q h1s1 : Nat)
    (m1 : Mesh) (heSp1 o1 : Nat) (rSp1 : HE) (qn1 s1n : List Char) (sA : MState)
    (face2 : Nat) (f2hes : List Nat) (h2s2 h2q : Nat)
    (m2 : Mesh) (heSp2 o2 : Nat) (rSp2 : HE) (qn2 s2n : List Char) (sB : MState)
    (beyond1 beyond2 : List Nat) (ps1 pt1 pq ps2 pt2 : Vec3)
    (i1 i2 : FVec3) (sC : MState) (pt2b ps2b pqb : Vec3) (sD : MState)
    (p1f p2f : Vec3)
    (hcp : checkBd s p = .ok ())
    (hcq : checkBd s q = .ok ())
    (hcr : checkBd s r = .ok ())
    (hhb : findUniqueOnBd s q = .ok heqb)
    (hrqb : alGet s.mesh.hes heqb = some rqb)
    (hpeers : alGet s.peers rqb.prev = some heqb)
    (ht2 : fromOf s.mesh rqb.prev = .ok t2)
    (hss : s1s2Search s.mesh p r 51 heqb = .ok (s1, s2))
    (hf1 : findUniqueFace s s1 q = .ok face1)
    (hf1h : loopHalfEdges s.mesh face1 = .ok f1hes)
    (hh1q : findUniqueToV s.mesh f1hes q = .ok h1q)
    (hh1s : findUniqueToV s.mesh f1hes s1 = .ok h1s1)
    (hsp1 : splitLoop s.mesh h1q h1s1 Create.left = .ok (m1, heSp1, o1))
    (hr1 : alGet m1.hes heSp1 = some rSp1)
    (hqn1 : getVName m1 q = .ok qn1)
    (hs1n : getVName m1 s1 = .ok s1n)
    (hsA : sA = { s with mesh :=
      { m1 with lname := alPut m1.lname rSp1.loop (splitName qn1 s1n) } })
    (hf2 : findUniqueFace sA q s2 = .ok face2)
    (hf2h : loopHalfEdges sA.mesh face2 = .ok f2hes)
    (hh2s : findUniqueToV sA.mesh f2hes s2 = .ok h2s2)
    (hh2q : findUniqueToV sA.mesh f2hes q = .ok h2q)
    (hsp2 : splitLoop sA.mesh h2s2 h2q Create.left = .ok (m2, heSp2, o2))
    (hr2 : alGet m2.hes heSp2 = some rSp2)
    (hqn2 : getVName m2 q = .ok qn2)
    (hs2n : getVName m2 s2 = .ok s2n)
    (hsB : sB = { s with mesh :=
      { m2 with lname := alPut m2.lname rSp2.loop (splitName qn2 s2n) } })
    (hb1 : collectVertices sB.mesh rqb.toV [s1, q, s2] = .ok beyond1)
    (hb2 : collectVertices sB.mesh t2 [s1, q, s2] = .ok beyond2)
    (hdis : beyond1.all (fun v => !(beyond2.contains v)) = true)
    (hps1 : alGet sB.pos s1 = some ps1)
    (hpt1 : alGet sB.pos rqb.toV = some pt1)
    (hpq : alGet sB.pos q = some pq)
    (hps2 : alGet sB.pos s2 = some ps2)
    (hpt2 : alGet sB.pos t2 = some pt2)
    (hi : intersect3Spheres ppOf ps1 pt1 pq pt1 ps2 pt2 = .ok (i1, i2))
    (hrA : rotatePoints sB (projectPointToLine pt1 ps1 pq) pt1
      (if choice then i2 else i1) beyond1 = .ok sC)
    (hpt2b : alGet sC.pos t2 = some pt2b)
    (hps2b : alGet sC.pos s2 = some ps2b)
    (hpqb : alGet sC.pos q = some pqb)
    (hrB : rotatePoints sC (projectPointToLine pt2b ps2b pqb) pt2b
      (if choice then i2 else i1) beyond2 = .ok sD)
    (hp1f : alGet sD.pos rqb.toV = some p1f)
    (hp2f : alGet sD.pos t2 = some p2f)
    (hdist : ¬ (distance p1f p2f < 1e-8)) :
    ∀ mergeK, bend2 mergeK ppOf choice p q r s =
      .error (("assertion failed")) := by
  intro mergeK
  rw [bend2_exec mergeK ppOf choice p q r s heqb rqb t2 s1 s2 face1 f1hes h1q h1s1
    m1 heSp1 o1 rSp1 qn1 s1n sA face2 f2hes h2s2 h2q m2 heSp2 o2 rSp2 qn2 s2n sB
    beyond1 beyond2 ps1 pt1 pq ps2 pt2
    hcp hcq hcr hhb hrqb hpeers ht2 hss hf1 hf1h hh1q hh1s hsp1 hr1 hqn1 hs1n hsA
    hf2 hf2h hh2s hh2q hsp2 hr2 hqn2 hs2n hsB hb1 hb2 hdis hps1 hpt1 hpq hps2 hpt2]
  unfold bend2Tail
  rw [hi]
  simp only [bind, Except.bind]
  rw [hrA]
  simp only [Except.bind]
  rw [show posOf sC t2 = .ok pt2b from by unfold posOf; rw [hpt2b]]
  simp only [Except.bind]
  rw [show posOf sC s2 = .ok ps2b from by unfold posOf; rw [hps2b]]
  simp only [Except.bind]
  rw [show posOf sC q = .ok pqb from by unfold posOf; rw [hpqb]]
  simp only [Except.bind]
  rw [hrB]
  simp only [Except.bind]
  rw [show posOf sD rqb.toV = .ok p1f from by unfold posOf; rw [hp1f]]
  simp only [Except.bind]
  rw [show posOf sD t2 = .ok p2f from by unfold posOf; rw [hp2f]]
  simp only [Except.bind]
  rw [if_neg hdist]

end StarFold.MMesh

namespace StarFold.MMesh

open StarFold StarFold.Geom StarFold.Kernel StarFold.CGA StarFold.GA

lemma vnormalizeE_ok (v : Vec3) (h : normSq v ≠ 0) :
    vnormalizeE v = .ok (vscale (1 / Real.sqrt |normSq v|) v) := by
  unfold vnormalizeE
  rw [if_neg h]

lemma c7_pivA :
    projectPointToLine ⟨-1, 1, 0⟩ ⟨-3, 0, 0⟩ ⟨0, 0, 0⟩ = (⟨-1, 0, 0⟩ : Vec3) := by
  unfold projectPointToLine
  ext <;> simp only [vadd, vscale, vsub, vdot] <;> norm_num

lemma c7_pivB :
    projectPointToLine ⟨-(7 / 4), 1, 0⟩ ⟨3, 0, 0⟩ ⟨0, 0, 0⟩ =
      (⟨-(7 / 4), 0, 0⟩ : Vec3) := by
  unfold projectPointToLine
  ext <;> simp only [vadd, vscale, vsub, vdot] <;> norm_num

lemma c7_d1A :
    fnormalizeV (fsubV (finjV ⟨-1, -(7 / 25), 24 / 25⟩) (finjV ⟨-1, 0, 0⟩)) =
      .ok ⟨0, -(7 / 25), 24 / 25⟩ := by
  rw [fnormalizeV_finj]
  rw [show vsub (⟨-1, -(7 / 25), 24 / 25⟩ : Vec3) ⟨-1, 0, 0⟩ =
      ⟨0, -(7 / 25), 24 / 25⟩ from by ext <;> simp only [vsub] <;> norm_num]
  exact vnormalizeE_unit _ (by simp only [normSq]; norm_num)

lemma c7_d2A :
    vnormalizeE (vsub (⟨-1, 1, 0⟩ : Vec3) ⟨-1, 0, 0⟩) = .ok ⟨0, 1, 0⟩ := by
  rw [show vsub (⟨-1, 1, 0⟩ : Vec3) ⟨-1, 0, 0⟩ = ⟨0, 1, 0⟩ from by
    ext <;> simp only [vsub] <;> norm_num]
  exact vnormalizeE_unit _ (by simp only [normSq]; norm_num)

lemma c7_dmA :
    vnormalizeE (vadd (⟨0, -(7 / 25), 24 / 25⟩ : Vec3) ⟨0, 1, 0⟩) =
      .ok ⟨0, 3 / 5, 4 / 5⟩ := by
  rw [show vadd (⟨0, -(7 / 25), 24 / 25⟩ : Vec3) ⟨0, 1, 0⟩ =
      ⟨0, 18 / 25, 24 / 25⟩ from by ext <;> simp only [vadd] <;> norm_num]
  unfold vnormalizeE
  rw [show normSq (⟨0, 18 / 25, 24 / 25⟩ : Vec3) = 36 / 25 from by
    simp only [normSq]; norm_num]
  rw [if_neg (by norm_num)]
  rw [show Real.sqrt |(36 / 25 : ℝ)| = 6 / 5 from by
    rw [abs_of_nonneg (by norm_num), show (36 / 25 : ℝ) = (6 / 5) ^ 2 from by norm_num]
    exact Real.sqrt_sq (by norm_num)]
  congr 1
  ext <;> simp only [vscale] <;> norm_num

lemma c7_d1B :
    fnormalizeV (fsubV (finjV ⟨-1, -(7 / 25), 24 / 25⟩) (finjV ⟨-(7 / 4), 0, 0⟩)) =
      .ok ⟨3 / 5, -(28 / 125), 96 / 125⟩ := by
  rw [fnormalizeV_finj]
  rw [show vsub (⟨-1, -(7 / 25), 24 / 25⟩ : Vec3) ⟨-(7 / 4), 0, 0⟩ =
      ⟨3 / 4, -(7 / 25), 24 / 25⟩ from by ext <;> simp only [vsub] <;> norm_num]
  unfold vnormalizeE
  rw [show normSq (⟨3 / 4, -(7 / 25), 24 / 25⟩ : Vec3) = 25 / 16 from by
    simp only [normSq]; norm_num]
  rw [if_neg (by norm_num)]
  rw [show Real.sqrt |(25 / 16 : ℝ)| = 5 / 4 from by
    rw [abs_of_nonneg (by norm_num), show (25 / 16 : ℝ) = (5 / 4) ^ 2 from by norm_num]
    exact Real.sqrt_sq (by norm_num)]
  congr 1
  ext <;> simp only [vscale] <;> norm_num

lemma c7_d2B :
    vnormalizeE (vsub (⟨-(7 / 4), 1, 0⟩ : Vec3) ⟨-(7 / 4), 0, 0⟩) = .ok ⟨0, 1, 0⟩ := by
  rw [show vsub (⟨-(7 / 4), 1, 0⟩ : Vec3) ⟨-(7 / 4), 0, 0⟩ = ⟨0, 1, 0⟩ from by
    ext <;> simp only [vsub] <;> norm_num]
  exact vnormalizeE_unit _ (by simp only [normSq]; norm_num)

lemma c7_midB_nz :
    normSq (vadd (⟨3 / 5, -(28 / 125), 96 / 125⟩ : Vec3) ⟨0, 1, 0⟩) ≠ 0 := by
  rw [show vadd (⟨3 / 5, -(28 / 125), 96 / 125⟩ : Vec3) ⟨0, 1, 0⟩ =
      ⟨3 / 5, 97 / 125, 96 / 125⟩ from by ext <;> simp only [vadd] <;> norm_num]
  simp only [normSq]
  norm_num

lemma c7_dmB :
    vnormalizeE (vadd (⟨3 / 5, -(28 / 125), 96 / 125⟩ : Vec3) ⟨0, 1, 0⟩) =
      .ok c7dirMidB :=
  vnormalizeE_ok _ c7_midB_nz

lemma c7_imageB :
    getVec (sandwich3 (gp3 (vecMV ⟨3 / 5, -(28 / 125), 96 / 125⟩) (vecMV c7dirMidB))
        (vecMV ⟨0, 1, 0⟩)) = ⟨3 / 5, -(28 / 125), 96 / 125⟩ :=
  twovec_maps ⟨3 / 5, -(28 / 125), 96 / 125⟩ ⟨0, 1, 0⟩ c7dirMidB
    (by simp only [normSq]; norm_num)
    (by simp only [normSq]; norm_num)
    rfl
    c7_midB_nz

end StarFold.MMesh

namespace StarFold.MMesh

open StarFold StarFold.Geom StarFold.Kernel StarFold.CGA StarFold.GA

/-- Witness for C7 on the pentagon with the concrete point pair `ppC7`:
both rotations succeed (tip `t` lands exactly on the chosen
intersection point `(-1, -7/25, 24/25)`, tip `u` on
`(-23/20, -28/125, 96/125)`), the images are at distance `1/4`, which is
not below `1e-8`, and `bend2` fails with "assertion failed" with no
merge performed. -/
theorem C7_bend2_witness :
    bend2 (fun st => Except.ok st) ppOfC7 true 0 2 4 c7state =
      .error (("assertion failed")) := by
  obtain ⟨sC, hrA, hmC, hpC, hbC, hptC⟩ := rotatePoints_spec c7sB ⟨-1, 0, 0⟩
      ⟨-1, 1, 0⟩ (finjV ⟨-1, -(7 / 25), 24 / 25⟩) [1]
      ⟨0, -(7 / 25), 24 / 25⟩ ⟨0, 1, 0⟩ ⟨0, 3 / 5, 4 / 5⟩
      c7_d1A c7_d2A c7_dmA
      (by intro v hv; simp only [List.mem_singleton] at hv; subst hv; rfl)
      (by simp)
  have hsC3 : alGet sC.pos 3 = some ⟨-(7 / 4), 1, 0⟩ := by
    rw [hptC 3, if_neg (by simp)]
    rfl
  have hsC4 : alGet sC.pos 4 = some ⟨3, 0, 0⟩ := by
    rw [hptC 4, if_neg (by simp)]
    rfl
  have hsC2 : alGet sC.pos 2 = some ⟨0, 0, 0⟩ := by
    rw [hptC 2, if_neg (by simp)]
    rfl
  have hsC1 : alGet sC.pos 1 = some ⟨-1, -(7 / 25), 24 / 25⟩ := by
    rw [hptC 1, if_pos (by simp : (1 : Nat) ∈ [1])]
    rw [show alGet c7sB.pos 1 = some (⟨-1, 1, 0⟩ : Vec3) from rfl]
    show some (vadd (getVec (sandwich3 (gp3 (vecMV ⟨0, -(7 / 25), 24 / 25⟩)
        (vecMV ⟨0, 3 / 5, 4 / 5⟩)) (vecMV (vsub ⟨-1, 1, 0⟩ ⟨-1, 0, 0⟩)))) ⟨-1, 0, 0⟩)
      = some ⟨-1, -(7 / 25), 24 / 25⟩
    congr 1
    rw [show vsub (⟨-1, 1, 0⟩ : Vec3) ⟨-1, 0, 0⟩ = ⟨0, 1, 0⟩ from by
      ext <;> simp only [vsub] <;> norm_num]
    rw [sandwich3_two_vec, getVec_vecMV]
    ext <;> simp only [vadd, vsub, vscale, vdot, normSq] <;> norm_num
  obtain ⟨sD, hrB, hmD, hpD, hbD, hptD⟩ := rotatePoints_spec sC ⟨-(7 / 4), 0, 0⟩
      ⟨-(7 / 4), 1, 0⟩ (finjV ⟨-1, -(7 / 25), 24 / 25⟩) [3]
      ⟨3 / 5, -(28 / 125), 96 / 125⟩ ⟨0, 1, 0⟩ c7dirMidB
      c7_d1B c7_d2B c7_dmB
      (by intro v hv
          simp only [List.mem_singleton] at hv
          subst hv
          unfold alHas
          rw [hsC3]
          rfl)
      (by simp)
  have hsD1 : alGet sD.pos 1 = some ⟨-1, -(7 / 25), 24 / 25⟩ := by
    rw [hptD 1, if_neg (by simp)]
    exact hsC1
  have hsD3 : alGet sD.pos 3 = some ⟨-(23 / 20), -(28 / 125), 96 / 125⟩ := by
    rw [hptD 3, if_pos (by simp : (3 : Nat) ∈ [3]), hsC3]
    show some (vadd (getVec (sandwich3 (gp3 (vecMV ⟨3 / 5, -(28 / 125), 96 / 125⟩)
        (vecMV c7dirMidB)) (vecMV (vsub ⟨-(7 / 4), 1, 0⟩ ⟨-(7 / 4), 0, 0⟩))))
        ⟨-(7 / 4), 0, 0⟩) = some ⟨-(23 / 20), -(28 / 125), 96 / 125⟩
    congr 1
    rw [show vsub (⟨-(7 / 4), 1, 0⟩ : Vec3) ⟨-(7 / 4), 0, 0⟩ = ⟨0, 1, 0⟩ from by
      ext <;> simp only [vsub] <;> norm_num]
    rw [c7_imageB]
    ext <;> simp only [vadd] <;> norm_num
  have hdist : ¬ (distance (⟨-1, -(7 / 25), 24 / 25⟩ : Vec3)
      ⟨-(23 / 20), -(28 / 125), 96 / 125⟩ < 1e-8) := by
    have hd : distance (⟨-1, -(7 / 25), 24 / 25⟩ : Vec3)
        ⟨-(23 / 20), -(28 / 125), 96 / 125⟩ = 1 / 4 := by
      unfold distance vnorm
      rw [show vsub (⟨-1, -(7 / 25), 24 / 25⟩ : Vec3)
          ⟨-(23 / 20), -(28 / 125), 96 / 125⟩ = ⟨3 / 20, -(7 / 125), 24 / 125⟩ from by
        ext <;> simp only [vsub] <;> norm_num]
      rw [show normSq (⟨3 / 20, -(7 / 125), 24 / 125⟩ : Vec3) = (1 / 4) ^ 2 from by
        simp only [normSq]; norm_num]
      exact Real.sqrt_sq (by norm_num)
    rw [hd]
    norm_num
  have h := C7_bend2_alignment_assert ppOfC7 true 0 2 4 c7state
    13 ⟨6, 14, 12, 1, 11, true⟩ 3 0 4 10 [5, 6, 7, 8, 9] 6 9
    c7m1 18 19 ⟨19, 6, 5, 0, 17, true⟩ [('q')] [('a')] c7sA
    10 [19, 7, 8, 9] 8 19
    c7m2 21 22 ⟨22, 8, 7, 2, 20, true⟩ [('q')] [('r')] c7sB
    [1] [3] ⟨-3, 0, 0⟩ ⟨-1, 1, 0⟩ ⟨0, 0, 0⟩ ⟨3, 0, 0⟩ ⟨-(7 / 4), 1, 0⟩
    (finjV ⟨0, 0, 0⟩) (finjV ⟨-1, -(7 / 25), 24 / 25⟩) sC
    ⟨-(7 / 4), 1, 0⟩ ⟨3, 0, 0⟩ ⟨0, 0, 0⟩ sD
    ⟨-1, -(7 / 25), 24 / 25⟩ ⟨-(23 / 20), -(28 / 125), 96 / 125⟩
    rfl rfl rfl rfl rfl rfl rfl rfl rfl rfl rfl rfl rfl rfl rfl rfl rfl
    rfl rfl rfl rfl rfl rfl rfl rfl rfl rfl rfl rfl rfl rfl rfl rfl rfl
    c7_inters
    (by rw [c7_pivA]; exact hrA)
    hsC3 hsC4 hsC2
    (by rw [c7_pivB]; exact hrB)
    hsD1 hsD3 hdist
  exact h (fun st => Except.ok st)

end StarFold.MMesh
